import Mathlib

/-!
# HAMeRS `Euler` patch strategy: a shallow embedding

The routines of `src/applications/Euler/Euler.cpp` are embedded as pure functions.

* `double` values are modelled by rationals (exact arithmetic). In `computeStableDtOnPatch`
  a quotient is `none` when its divisor is zero. The `readStateDataEntry...` routines take
  the subtraction of the arithmetic as a parameter: `exactSub`, or `doubleSub` for IEEE 754
  doubles (`roundToDouble`).
* A `double*` obtained from `getPointer` is a function from the linear index to the value;
  the vector `Q` of such pointers is a function of the position in `Q` and the linear index.
* Counted `for` loops are `forLoop`; a loop nest is a nest of `forLoop`s in the source order.
* `TBOX_ERROR` (which aborts the run) is the `Except.error` result.
-/

namespace HAMeRS

/-! ## Definitions -/

/-- Counted loop: `for (int t = 0; t < n; t++) { s = body t s; }`. -/
def forLoop {σ : Type} : Nat → (Nat → σ → σ) → σ → σ
  | 0, _, s => s
  | n + 1, body, s => body n (forLoop n body s)

/-- The enumeration `FLOW_MODEL` of the three flow models. -/
inductive FLOW_MODEL where
  | SINGLE_SPECIES
  | FOUR_EQN_SHYUE
  | FIVE_EQN_ALLAIRE
  deriving DecidableEq

open FLOW_MODEL

/-- The members of the `Euler` object that the patch routines read. -/
structure Euler where
  d_dim : Nat
  d_flow_model : FLOW_MODEL
  d_num_species : Nat
  d_num_eqn : Nat
  d_num_ghosts : Nat → Nat

/-- The geometry of a patch: `interior_dims` is `patch.getBox().numberCells()` and
`dx` is `patch_geom->getDx()`. -/
structure Patch where
  interior_dims : Nat → Nat
  dx : Nat → ℚ

/-- The value `ghostcell_dims[d]`: the interior box grown by `d_num_ghosts` on both sides. -/
def ghostcell_dims (E : Euler) (P : Patch) (d : Nat) : Nat :=
  P.interior_dims d + 2 * E.d_num_ghosts d

/-- The equation count `d_num_eqn` assigned in `getFromInput` and `getFromRestart`
for dimension `D` and `N` species. -/
def numEqn (fm : FLOW_MODEL) (D N : Nat) : Nat :=
  match fm with
  | SINGLE_SPECIES => 2 + D
  | FOUR_EQN_SHYUE => 1 + D + N
  | FIVE_EQN_ALLAIRE => D + 2 * N

/-- The cell-centred fields whose component pointers are pushed into `Q`. -/
inductive Field where
  | density
  | partial_density (si : Nat)
  | momentum (di : Nat)
  | total_energy
  | mass_fraction (si : Nat)
  | volume_fraction (si : Nat)
  deriving DecidableEq

/-- The vector `Q` of pointers built by the `push_back` calls at the start of
`advanceSingleStep` and `synchronizeHyperbolicFlux`. -/
def buildQ (E : Euler) : List Field :=
  match E.d_flow_model with
  | SINGLE_SPECIES =>
      [Field.density] ++ (List.range E.d_dim).map Field.momentum ++ [Field.total_energy]
  | FOUR_EQN_SHYUE =>
      [Field.density] ++ (List.range E.d_dim).map Field.momentum ++ [Field.total_energy]
        ++ (List.range E.d_num_species).map Field.mass_fraction
  | FIVE_EQN_ALLAIRE =>
      (List.range E.d_num_species).map Field.partial_density
        ++ (List.range E.d_dim).map Field.momentum ++ [Field.total_energy]
        ++ (List.range E.d_num_species).map Field.volume_fraction

/-- The field holding the fraction of species `si`: mass fraction for `FOUR_EQN_SHYUE`,
volume fraction for `FIVE_EQN_ALLAIRE`. -/
def fractionField (fm : FLOW_MODEL) (si : Nat) : Field :=
  match fm with
  | FIVE_EQN_ALLAIRE => Field.volume_fraction si
  | _ => Field.mass_fraction si

/-- The position in `Q` of the pointer to the fraction of species `si`. -/
def fractionIndex (E : Euler) (si : Nat) : Nat :=
  (buildQ E).indexOf (fractionField E.d_flow_model si)

/-- The arrays reached through a vector of pointers: position in the vector, linear index. -/
abbrev CellArr := Nat → Nat → ℚ

/-- The face arrays `convective_flux->getPointer(d, ei)`: direction, equation, linear index. -/
abbrev FaceArr := Nat → Nat → Nat → ℚ

/-- The assignment `Q[e][idx] = v`. -/
def setQ (Q : CellArr) (e idx : Nat) (v : ℚ) : CellArr :=
  fun e2 idx2 => if e2 = e ∧ idx2 = idx then v else Q e2 idx2

/-- The assignment `F_d[idx] = v` where `F_d = convective_flux->getPointer(d, ei)`. -/
def setF (F : FaceArr) (d ei idx : Nat) (v : ℚ) : FaceArr :=
  fun d2 e2 idx2 => if d2 = d ∧ e2 = ei ∧ idx2 = idx then v else F d2 e2 idx2

/-- The patch data of one variable context: the time-dependent variables reached through `Q`,
the convective flux and the source. -/
structure PatchData where
  Q : CellArr
  F : FaceArr
  S : CellArr

/-- The linear index `idx_cell` of interior cell `i` in 1D. -/
def idx_cell_1D (E : Euler) (i : Nat) : Nat :=
  i + E.d_num_ghosts 0

/-- The linear index `idx_cell` of interior cell `(i, j)` in 2D. -/
def idx_cell_2D (E : Euler) (P : Patch) (i j : Nat) : Nat :=
  (i + E.d_num_ghosts 0) + (j + E.d_num_ghosts 1) * ghostcell_dims E P 0

/-- The linear index `idx_cell` of interior cell `(i, j, k)` in 3D. -/
def idx_cell_3D (E : Euler) (P : Patch) (i j k : Nat) : Nat :=
  (i + E.d_num_ghosts 0) + (j + E.d_num_ghosts 1) * ghostcell_dims E P 0
    + (k + E.d_num_ghosts 2) * ghostcell_dims E P 0 * ghostcell_dims E P 1

/-- The linear index `idx_cell` of an interior cell in the dimension of the object. -/
def idx_cell (E : Euler) (P : Patch) (i j k : Nat) : Nat :=
  if E.d_dim = 1 then idx_cell_1D E i
  else if E.d_dim = 2 then idx_cell_2D E P i j
  else idx_cell_3D E P i j k

/-- The loop nest over the interior cells: `i` in 1D, `j` then `i` in 2D,
`k`, `j` then `i` in 3D; no cell is visited for another dimension. -/
def cellLoop {σ : Type} (E : Euler) (P : Patch) (body : Nat → Nat → Nat → σ → σ) (s : σ) : σ :=
  if E.d_dim = 1 then
    forLoop (P.interior_dims 0) (fun i => body i 0 0) s
  else if E.d_dim = 2 then
    forLoop (P.interior_dims 1) (fun j => forLoop (P.interior_dims 0) (fun i => body i j 0)) s
  else if E.d_dim = 3 then
    forLoop (P.interior_dims 2) (fun k =>
      forLoop (P.interior_dims 1) (fun j =>
        forLoop (P.interior_dims 0) (fun i => body i j k))) s
  else s

/-- The call `fillAll(0.0, interior_box)` on every field of the current context: all
components reached through `Q` are set to zero in every interior cell. -/
def fillInterior (E : Euler) (P : Patch) (Q : CellArr) : CellArr :=
  cellLoop E P (fun i j k Q =>
    forLoop (buildQ E).length (fun p Q => setQ Q p (idx_cell E P i j k) 0) Q) Q

/-- The update of the mass fraction/volume fraction of the last species in one cell. -/
def lastSpeciesUpdate (E : Euler) (idx_cell : Nat) (Q : CellArr) : CellArr :=
  match E.d_flow_model with
  | SINGLE_SPECIES => Q
  | FOUR_EQN_SHYUE =>
      forLoop (E.d_num_species - 1)
        (fun si Q => setQ Q E.d_num_eqn idx_cell
          (Q E.d_num_eqn idx_cell - Q (E.d_num_eqn - 1 - si) idx_cell))
        (setQ Q E.d_num_eqn idx_cell 1)
  | FIVE_EQN_ALLAIRE =>
      forLoop (E.d_num_species - 1)
        (fun si Q => setQ Q E.d_num_eqn idx_cell
          (Q E.d_num_eqn idx_cell - Q (E.d_num_eqn - 1 - si) idx_cell))
        (setQ Q E.d_num_eqn idx_cell 1)

/-- The right-hand side `-(F_x[idx_flux_x] - F_x[idx_flux_x - 1])/dx[0] + S[idx_source]`
of equation `ei` in cell `i` (1D). -/
def rhs_1D (P : Patch) (F : FaceArr) (S : CellArr) (i ei : Nat) : ℚ :=
  let idx_source := i
  let idx_flux_x := i + 1;
  -(F 0 ei idx_flux_x - F 0 ei (idx_flux_x - 1)) / P.dx 0 + S ei idx_source

/-- The right-hand side of equation `ei` in cell `(i, j)` (2D). -/
def rhs_2D (P : Patch) (F : FaceArr) (S : CellArr) (i j ei : Nat) : ℚ :=
  let idx_source := i + j * P.interior_dims 0
  let idx_flux_x := (i + 1) + j * (P.interior_dims 0 + 1)
  let idx_flux_y := (j + 1) + i * (P.interior_dims 1 + 1);
  -(F 0 ei idx_flux_x - F 0 ei (idx_flux_x - 1)) / P.dx 0
    - (F 1 ei idx_flux_y - F 1 ei (idx_flux_y - 1)) / P.dx 1
    + S ei idx_source

/-- The right-hand side of equation `ei` in cell `(i, j, k)` (3D). -/
def rhs_3D (P : Patch) (F : FaceArr) (S : CellArr) (i j k ei : Nat) : ℚ :=
  let idx_source := i + j * P.interior_dims 0 + k * P.interior_dims 0 * P.interior_dims 1
  let idx_flux_x := (i + 1) + j * (P.interior_dims 0 + 1)
    + k * (P.interior_dims 0 + 1) * P.interior_dims 1
  let idx_flux_y := (j + 1) + k * (P.interior_dims 1 + 1)
    + i * (P.interior_dims 1 + 1) * P.interior_dims 2
  let idx_flux_z := (k + 1) + i * (P.interior_dims 2 + 1)
    + j * (P.interior_dims 2 + 1) * P.interior_dims 0;
  -(F 0 ei idx_flux_x - F 0 ei (idx_flux_x - 1)) / P.dx 0
    - (F 1 ei idx_flux_y - F 1 ei (idx_flux_y - 1)) / P.dx 1
    - (F 2 ei idx_flux_z - F 2 ei (idx_flux_z - 1)) / P.dx 2
    + S ei idx_source

/-- The right-hand side of equation `ei` in cell `(i, j, k)` in the dimension of the object. -/
def rhs (E : Euler) (P : Patch) (F : FaceArr) (S : CellArr) (i j k ei : Nat) : ℚ :=
  if E.d_dim = 1 then rhs_1D P F S i ei
  else if E.d_dim = 2 then rhs_2D P F S i j ei
  else rhs_3D P F S i j k ei

/-- The body of the cell loop of `advanceSingleStep` for stage coefficients `a` and `b`:
the loop over the equations followed by the update of the last species. -/
def advanceCell (E : Euler) (P : Patch) (a b : ℚ) (I : PatchData) (i j k : Nat)
    (Q : CellArr) : CellArr :=
  let c := idx_cell E P i j k
  let Q1 := forLoop E.d_num_eqn (fun ei Q =>
    let Qa := if a ≠ 0 then setQ Q ei c (Q ei c + a * I.Q ei c) else Q
    if b ≠ 0 then setQ Qa ei c (Qa ei c + b * rhs E P I.F I.S i j k ei) else Qa) Q
  lastSpeciesUpdate E c Q1

/-- The accumulation `F_d[idx] += gamma[n]*F_d_intermediate[idx]` of the convective flux in
`advanceSingleStep`, with the loop nests and bounds of the source for each dimension
(x, then y, then z). -/
def accumulateFlux (E : Euler) (P : Patch) (g : ℚ) (I : PatchData) (F : FaceArr) : FaceArr :=
  let addTo := fun (d idx : Nat) (F : FaceArr) =>
    forLoop E.d_num_eqn (fun ei F => setF F d ei idx (F d ei idx + g * I.F d ei idx)) F
  if E.d_dim = 1 then
    forLoop (P.interior_dims 0 + 1) (fun i F =>
      let idx_flux_x := i
      addTo 0 idx_flux_x F) F
  else if E.d_dim = 2 then
    let Fx := forLoop (P.interior_dims 1) (fun j F =>
      forLoop (P.interior_dims 0 + 1) (fun i F =>
        let idx_flux_x := i + j * (P.interior_dims 0 + 1)
        addTo 0 idx_flux_x F) F) F
    forLoop (P.interior_dims 0) (fun i F =>
      forLoop (P.interior_dims 1 + 1) (fun j F =>
        let idx_flux_y := j + i * (P.interior_dims 1 + 1)
        addTo 1 idx_flux_y F) F) Fx
  else if E.d_dim = 3 then
    let Fx := forLoop (P.interior_dims 2) (fun k F =>
      forLoop (P.interior_dims 1) (fun j F =>
        forLoop (P.interior_dims 0 + 1) (fun i F =>
          let idx_flux_x := i + j * (P.interior_dims 0 + 1)
            + k * (P.interior_dims 0 + 1) * P.interior_dims 1
          addTo 0 idx_flux_x F) F) F) F
    let Fy := forLoop (P.interior_dims 0) (fun i F =>
      forLoop (P.interior_dims 2) (fun k F =>
        forLoop (P.interior_dims 1 + 1) (fun j F =>
          let idx_flux_y := j + k * (P.interior_dims 1 + 1)
            + i * (P.interior_dims 1 + 1) * P.interior_dims 2
          addTo 1 idx_flux_y F) F) F) Fx
    forLoop (P.interior_dims 1) (fun j F =>
      forLoop (P.interior_dims 0) (fun i F =>
        forLoop (P.interior_dims 2) (fun k F =>
          let idx_flux_z := k + i * (P.interior_dims 2 + 1)
            + j * (P.interior_dims 2 + 1) * P.interior_dims 0
          addTo 2 idx_flux_z F) F) F) Fy
  else F

/-- The linear index of interior cell `(i, j, k)` in a ghost-width-zero cell array
(`idx_source` in the update loops, `idx_cell` in the source accumulation loops). -/
def idx_source (E : Euler) (P : Patch) (i j k : Nat) : Nat :=
  if E.d_dim = 1 then i
  else if E.d_dim = 2 then i + j * P.interior_dims 0
  else i + j * P.interior_dims 0 + k * P.interior_dims 0 * P.interior_dims 1

/-- The accumulation `S[idx_cell] += gamma[n]*S_intermediate[idx_cell]` of the source. -/
def accumulateSource (E : Euler) (P : Patch) (g : ℚ) (I : PatchData) (S : CellArr) : CellArr :=
  cellLoop E P (fun i j k S =>
    let c := idx_source E P i j k
    forLoop E.d_num_eqn (fun ei S => setQ S ei c (S ei c + g * I.S ei c)) S) S

/-- One pass of the loop over the coefficients in `advanceSingleStep`, for the coefficients
`a = alpha[n]`, `b = beta[n]`, `g = gamma[n]` and the data `I` of `intermediate_context[n]`.
The three dimension branches of the source share this text; the dimension selects the
indices (`idx_cell`, `rhs`) and the loop nests (`cellLoop`, `accumulateFlux`). -/
def advanceStage (E : Euler) (P : Patch) (a b g : ℚ) (I : PatchData) (s : PatchData) :
    PatchData :=
  if ¬ (a = 0 ∧ b = 0 ∧ g = 0) then
    let Q1 := cellLoop E P (advanceCell E P a b I) s.Q
    if g ≠ 0 then
      { Q := Q1, F := accumulateFlux E P g I s.F, S := accumulateSource E P g I s.S }
    else
      { Q := Q1, F := s.F, S := s.S }
  else s

/-- The routine `Euler::advanceSingleStep`: `s` is the data of the current context and
`inter n` the data of `intermediate_context[n]`. -/
def advanceSingleStep (E : Euler) (P : Patch) (alpha beta gamma : List ℚ)
    (inter : Nat → PatchData) (s : PatchData) : PatchData :=
  let s0 : PatchData := { Q := fillInterior E P s.Q, F := s.F, S := s.S }
  let num_coeffs := alpha.length
  forLoop num_coeffs (fun n s =>
    advanceStage E P (alpha.getD n 0) (beta.getD n 0) (gamma.getD n 0) (inter n) s) s0

/-- The body of the cell loop of `synchronizeHyperbolicFlux`. In 1D and 2D the last species
is recomputed inside the loop over the equations, in 3D once after that loop. -/
def synchronizeCell (E : Euler) (P : Patch) (F : FaceArr) (S : CellArr) (i j k : Nat)
    (Q : CellArr) : CellArr :=
  let c := idx_cell E P i j k
  if E.d_dim = 3 then
    lastSpeciesUpdate E c
      (forLoop E.d_num_eqn (fun ei Q => setQ Q ei c (Q ei c + rhs E P F S i j k ei)) Q)
  else
    forLoop E.d_num_eqn (fun ei Q =>
      lastSpeciesUpdate E c (setQ Q ei c (Q ei c + rhs E P F S i j k ei))) Q

/-- The routine `Euler::synchronizeHyperbolicFlux` on the data of the current context. -/
def synchronizeHyperbolicFlux (E : Euler) (P : Patch) (s : PatchData) : PatchData :=
  { Q := cellLoop E P (synchronizeCell E P s.F s.S) s.Q, F := s.F, S := s.S }

/-- The sum of the stored fractions of the `N` species in the cell of linear index `idx`. -/
def fractionSum (E : Euler) (Q : CellArr) (idx : Nat) : ℚ :=
  ∑ si ∈ Finset.range E.d_num_species, Q (fractionIndex E si) idx

/-- The object is set up as `getFromInput` leaves it: `d_num_eqn` is the equation count of
the flow model. -/
def Euler.wellFormed (E : Euler) : Prop :=
  E.d_num_eqn = numEqn E.d_flow_model E.d_dim E.d_num_species

/-- The cell `(i, j, k)` lies in the interior box of the patch (the unused coordinates
are zero in 1D and 2D). -/
def interiorCell (E : Euler) (P : Patch) (i j k : Nat) : Prop :=
  (E.d_dim = 1 ∧ i < P.interior_dims 0 ∧ j = 0 ∧ k = 0) ∨
  (E.d_dim = 2 ∧ i < P.interior_dims 0 ∧ j < P.interior_dims 1 ∧ k = 0) ∨
  (E.d_dim = 3 ∧ i < P.interior_dims 0 ∧ j < P.interior_dims 1 ∧ k < P.interior_dims 2)

instance (E : Euler) : Decidable E.wellFormed := by
  unfold Euler.wellFormed; infer_instance

instance (E : Euler) (P : Patch) (i j k : Nat) : Decidable (interiorCell E P i j k) := by
  unfold interiorCell; infer_instance

/-- The write of a whole column: the entries `Q[e][c]` of the cell of linear index `c`
become `u (Q[.][c]) e`, the other cells are kept. -/
def writeCol (c : Nat) (u : (Nat → ℚ) → Nat → ℚ) (Q : CellArr) : CellArr :=
  fun e idx => if idx = c then u (fun e2 => Q e2 c) e else Q e idx

/-- The effect of `lastSpeciesUpdate` on the column of its cell, in closed form. -/
def lastSpeciesCol (E : Euler) (col : Nat → ℚ) : Nat → ℚ :=
  match E.d_flow_model with
  | SINGLE_SPECIES => col
  | _ => fun e =>
      if e = E.d_num_eqn then
        1 - ∑ si ∈ Finset.range (E.d_num_species - 1), col (E.d_num_eqn - 1 - si)
      else col e

/-- The effect of the loop over the equations of `advanceSingleStep` on the column of its
cell, in closed form: `qn` are the intermediate values and `r` the right-hand sides. -/
def eqnCol (E : Euler) (a b : ℚ) (qn r : Nat → ℚ) (col : Nat → ℚ) : Nat → ℚ :=
  fun e => if e < E.d_num_eqn then col e + a * qn e + b * r e else col e

/-- The effect of one pass of the loop over the coefficients of `advanceSingleStep` on the
column of the interior cell `(i, j, k)`, in closed form. -/
def stageCol (E : Euler) (P : Patch) (a b g : ℚ) (I : PatchData) (i j k : Nat)
    (col : Nat → ℚ) : Nat → ℚ :=
  if ¬ (a = 0 ∧ b = 0 ∧ g = 0) then
    lastSpeciesCol E (eqnCol E a b (fun e => I.Q e (idx_cell E P i j k))
      (rhs E P I.F I.S i j k) col)
  else col

/-- The linear index `idx_flux_d` of the upper face of the interior cell `(i, j, k)` normal
to direction `d`; the lower face of the cell has the index `idx_flux_d - 1`. -/
def idx_flux (E : Euler) (P : Patch) (d i j k : Nat) : Nat :=
  if E.d_dim = 1 then i + 1
  else if E.d_dim = 2 then
    if d = 0 then (i + 1) + j * (P.interior_dims 0 + 1)
    else (j + 1) + i * (P.interior_dims 1 + 1)
  else
    if d = 0 then
      (i + 1) + j * (P.interior_dims 0 + 1) + k * (P.interior_dims 0 + 1) * P.interior_dims 1
    else if d = 1 then
      (j + 1) + k * (P.interior_dims 1 + 1) + i * (P.interior_dims 1 + 1) * P.interior_dims 2
    else
      (k + 1) + i * (P.interior_dims 2 + 1) + j * (P.interior_dims 2 + 1) * P.interior_dims 0

/-- The right-hand side of equation `ei` in the cell `(i, j, k)` as a sum over the
directions: minus the sum of the flux differences across the cell divided by the grid
spacing, plus the source. -/
def fluxBalance (E : Euler) (P : Patch) (F : FaceArr) (S : CellArr) (i j k ei : Nat) : ℚ :=
  -(∑ d ∈ Finset.range E.d_dim,
      (F d ei (idx_flux E P d i j k) - F d ei (idx_flux E P d i j k - 1)) / P.dx d)
    + S ei (idx_source E P i j k)

/-- The effect of the cell body of `synchronizeHyperbolicFlux` on the column of its cell,
in closed form: `r` are the right-hand sides. -/
def syncCol (E : Euler) (r : Nat → ℚ) (col : Nat → ℚ) : Nat → ℚ :=
  lastSpeciesCol E (fun e => if e < E.d_num_eqn then col e + r e else col e)

/-! ## The object: input, restart and boundary defaults -/

/-- A `double` held by the object: an ordinary value or the signaling NaN written by
`tbox::MathUtilities<double>::setVectorToSignalingNaN`. -/
inductive DoubleValue where
  | signalingNaN
  | value (x : ℚ)
  deriving DecidableEq

/-- The values a `tbox::Database` holds under a key. -/
inductive DbValue where
  | integer (n : Int)
  | string (s : String)
  | integerArray (v : List Int)
  | doubleArray (v : List DoubleValue)
  | stringArray (v : List String)
  | database (entries : List (String × DbValue))

/-- A `tbox::Database`: the list of its keys with their values, most recent first. -/
abbrev Database := List (String × DbValue)

/-- The entry stored under `key`, if any. -/
def Database.find (db : Database) (key : String) : Option DbValue :=
  match db with
  | [] => none
  | (k, v) :: rest => if k = key then some v else Database.find rest key

/-- The `put...` calls: the value is stored under `key`, replacing an earlier entry. -/
def Database.put (db : Database) (key : String) (v : DbValue) : Database :=
  (key, v) :: db

/-- The call `getString(key)`; a missing key or an entry of another type aborts. -/
def Database.getString (db : Database) (key : String) : Except String String :=
  match db.find key with
  | some (DbValue.string s) => pure s
  | _ => throw ("Key=" ++ key ++ " is not a string")

/-- The call `getInteger(key)`. -/
def Database.getInteger (db : Database) (key : String) : Except String Int :=
  match db.find key with
  | some (DbValue.integer n) => pure n
  | _ => throw ("Key=" ++ key ++ " is not an integer")

/-- The call `getIntegerArray(key, data, nelements)`: the stored array must hold exactly
`nelements` entries. -/
def Database.getIntegerArray (db : Database) (key : String) (nelements : Nat) :
    Except String (List Int) :=
  match db.find key with
  | some (DbValue.integerArray v) =>
      if v.length = nelements then pure v
      else throw ("Key=" ++ key ++ " has an incorrect array size")
  | _ => throw ("Key=" ++ key ++ " is not an integer array")

/-- The call `getIntegerVector(key)`. -/
def Database.getIntegerVector (db : Database) (key : String) : Except String (List Int) :=
  match db.find key with
  | some (DbValue.integerArray v) => pure v
  | _ => throw ("Key=" ++ key ++ " is not an integer array")

/-- The call `getDoubleVector(key)`. -/
def Database.getDoubleVector (db : Database) (key : String) :
    Except String (List DoubleValue) :=
  match db.find key with
  | some (DbValue.doubleArray v) => pure v
  | _ => throw ("Key=" ++ key ++ " is not a double array")

/-- The call `getDatabase(key)`. -/
def Database.getDatabase (db : Database) (key : String) : Except String Database :=
  match db.find key with
  | some (DbValue.database d) => pure d
  | _ => throw ("Key=" ++ key ++ " is not a database")

/-- The constant `BOGUS_BDRY_DATA`. -/
def BOGUS_BDRY_DATA : Int := -9999

/-- The constants of `SAMRAI/appu/CartesianBoundaryDefines.h`. -/
def NUM_1D_NODES : Nat := 2

def NUM_2D_EDGES : Nat := 4

def NUM_2D_NODES : Nat := 4

def NUM_3D_FACES : Nat := 6

def NUM_3D_EDGES : Nat := 12

def NUM_3D_NODES : Nat := 8

/-- The members of the `Euler` object that are set from the input database, written to the
restart database and read back from it. -/
structure EulerObject where
  d_dim : Nat
  d_project_name : String
  d_num_species : Int
  d_flow_model : FLOW_MODEL
  d_num_eqn : Int
  d_equation_of_state_db : Database
  d_shock_capturing_scheme_db : Database
  d_num_ghosts : List Int
  d_master_bdry_node_conds : List Int
  d_master_bdry_edge_conds : List Int
  d_master_bdry_face_conds : List Int
  d_scalar_bdry_node_conds : List Int
  d_scalar_bdry_edge_conds : List Int
  d_scalar_bdry_face_conds : List Int
  d_vector_bdry_node_conds : List Int
  d_vector_bdry_edge_conds : List Int
  d_vector_bdry_face_conds : List Int
  d_node_bdry_edge : List Int
  d_edge_bdry_face : List Int
  d_node_bdry_face : List Int
  d_bdry_node_density : List DoubleValue
  d_bdry_node_partial_density : List DoubleValue
  d_bdry_node_momentum : List DoubleValue
  d_bdry_node_total_energy : List DoubleValue
  d_bdry_node_mass_fraction : List DoubleValue
  d_bdry_node_volume_fraction : List DoubleValue
  d_bdry_edge_density : List DoubleValue
  d_bdry_edge_partial_density : List DoubleValue
  d_bdry_edge_momentum : List DoubleValue
  d_bdry_edge_total_energy : List DoubleValue
  d_bdry_edge_mass_fraction : List DoubleValue
  d_bdry_edge_volume_fraction : List DoubleValue
  d_bdry_face_density : List DoubleValue
  d_bdry_face_partial_density : List DoubleValue
  d_bdry_face_momentum : List DoubleValue
  d_bdry_face_total_energy : List DoubleValue
  d_bdry_face_mass_fraction : List DoubleValue
  d_bdry_face_volume_fraction : List DoubleValue
  d_refinement_criteria : List String
  d_density_shock_tol : List DoubleValue
  d_pressure_shock_tol : List DoubleValue

/-- The object as the constructor leaves it before `getFromRestart` and `getFromInput` run:
`d_num_ghosts` is the zero vector and the string and vector members are empty. The scalar
members without an initialiser are given by the arguments. -/
def EulerObject.fresh (d_dim : Nat) (fm : FLOW_MODEL) (num_species num_eqn : Int) :
    EulerObject :=
  { d_dim := d_dim, d_project_name := "", d_num_species := num_species, d_flow_model := fm,
    d_num_eqn := num_eqn, d_equation_of_state_db := [], d_shock_capturing_scheme_db := [],
    d_num_ghosts := List.replicate d_dim 0,
    d_master_bdry_node_conds := [], d_master_bdry_edge_conds := [],
    d_master_bdry_face_conds := [], d_scalar_bdry_node_conds := [],
    d_scalar_bdry_edge_conds := [], d_scalar_bdry_face_conds := [],
    d_vector_bdry_node_conds := [], d_vector_bdry_edge_conds := [],
    d_vector_bdry_face_conds := [], d_node_bdry_edge := [], d_edge_bdry_face := [],
    d_node_bdry_face := [],
    d_bdry_node_density := [], d_bdry_node_partial_density := [], d_bdry_node_momentum := [],
    d_bdry_node_total_energy := [], d_bdry_node_mass_fraction := [],
    d_bdry_node_volume_fraction := [],
    d_bdry_edge_density := [], d_bdry_edge_partial_density := [], d_bdry_edge_momentum := [],
    d_bdry_edge_total_energy := [], d_bdry_edge_mass_fraction := [],
    d_bdry_edge_volume_fraction := [],
    d_bdry_face_density := [], d_bdry_face_partial_density := [], d_bdry_face_momentum := [],
    d_bdry_face_total_energy := [], d_bdry_face_mass_fraction := [],
    d_bdry_face_volume_fraction := [],
    d_refinement_criteria := [], d_density_shock_tol := [], d_pressure_shock_tol := [] }

/-- The call `v.resize(n)` of `std::vector`: the first `n` entries are kept and missing
entries are value-initialised (`d`, zero for numbers). -/
def resize {α : Type} (v : List α) (n : Nat) (d : α) : List α :=
  v.take n ++ List.replicate (n - v.length) d

/-- The loop `for (int i = 0; i < n; i++) v[i] = x;`. -/
def assignFirst {α : Type} (v : List α) (n : Nat) (x : α) : List α :=
  forLoop n (fun i v => v.set i x) v

/-- The call `tbox::MathUtilities<double>::setVectorToSignalingNaN(v)`: every entry of `v`
becomes the signaling NaN. -/
def setVectorToSignalingNaN (v : List DoubleValue) : List DoubleValue :=
  v.map (fun _ => DoubleValue.signalingNaN)

/-- The routine `Euler::setDefaultBoundaryConditions`. -/
def setDefaultBoundaryConditions (E : EulerObject) : EulerObject :=
  let nan := fun (v : List DoubleValue) (n : Nat) =>
    setVectorToSignalingNaN (resize v n (DoubleValue.value 0))
  let rsz := fun (v : List DoubleValue) (n : Nat) => resize v n (DoubleValue.value 0)
  let bogus := fun (v : List Int) (n : Nat) => assignFirst (resize v n 0) n BOGUS_BDRY_DATA
  if E.d_dim = 1 then
    let E1 := { E with
      d_master_bdry_node_conds := bogus E.d_master_bdry_node_conds NUM_1D_NODES,
      d_scalar_bdry_node_conds := bogus E.d_scalar_bdry_node_conds NUM_1D_NODES,
      d_vector_bdry_node_conds := bogus E.d_vector_bdry_node_conds NUM_1D_NODES }
    match E.d_flow_model with
    | SINGLE_SPECIES => { E1 with
        d_bdry_node_density := nan E.d_bdry_node_density NUM_1D_NODES,
        d_bdry_node_momentum := nan E.d_bdry_node_momentum (NUM_1D_NODES * E.d_dim),
        d_bdry_node_total_energy := nan E.d_bdry_node_total_energy NUM_1D_NODES }
    | FOUR_EQN_SHYUE => { E1 with
        d_bdry_node_density := nan E.d_bdry_node_density NUM_1D_NODES,
        d_bdry_node_momentum := nan E.d_bdry_node_momentum (NUM_1D_NODES * E.d_dim),
        d_bdry_node_total_energy := nan E.d_bdry_node_total_energy NUM_1D_NODES,
        d_bdry_node_mass_fraction :=
          nan E.d_bdry_node_mass_fraction (NUM_1D_NODES * E.d_num_species).toNat }
    | FIVE_EQN_ALLAIRE => { E1 with
        d_bdry_node_partial_density :=
          nan E.d_bdry_node_partial_density (NUM_1D_NODES * E.d_num_species).toNat,
        d_bdry_node_momentum := nan E.d_bdry_node_momentum (NUM_1D_NODES * E.d_dim),
        d_bdry_node_total_energy := nan E.d_bdry_node_total_energy NUM_1D_NODES,
        d_bdry_node_volume_fraction :=
          nan E.d_bdry_node_volume_fraction (NUM_1D_NODES * E.d_num_species).toNat }
  else if E.d_dim = 2 then
    let E1 := { E with
      d_master_bdry_edge_conds := bogus E.d_master_bdry_edge_conds NUM_2D_EDGES,
      d_scalar_bdry_edge_conds := bogus E.d_scalar_bdry_edge_conds NUM_2D_EDGES,
      d_vector_bdry_edge_conds := bogus E.d_vector_bdry_edge_conds NUM_2D_EDGES,
      d_master_bdry_node_conds := bogus E.d_master_bdry_node_conds NUM_2D_NODES,
      d_scalar_bdry_node_conds := bogus E.d_scalar_bdry_node_conds NUM_2D_NODES,
      d_vector_bdry_node_conds := bogus E.d_vector_bdry_node_conds NUM_2D_NODES,
      d_node_bdry_edge := bogus E.d_node_bdry_edge NUM_2D_NODES }
    match E.d_flow_model with
    | SINGLE_SPECIES => { E1 with
        d_bdry_edge_density := nan E.d_bdry_edge_density NUM_2D_EDGES,
        d_bdry_edge_momentum := nan E.d_bdry_edge_momentum (NUM_2D_EDGES * E.d_dim),
        d_bdry_edge_total_energy := nan E.d_bdry_edge_total_energy NUM_2D_EDGES }
    | FOUR_EQN_SHYUE => { E1 with
        d_bdry_edge_density := nan E.d_bdry_edge_density NUM_2D_EDGES,
        d_bdry_edge_momentum := nan E.d_bdry_edge_momentum (NUM_2D_EDGES * E.d_dim),
        d_bdry_edge_total_energy := nan E.d_bdry_edge_total_energy NUM_2D_EDGES,
        d_bdry_edge_mass_fraction :=
          nan E.d_bdry_edge_mass_fraction (NUM_2D_NODES * E.d_num_species).toNat }
    | FIVE_EQN_ALLAIRE => { E1 with
        d_bdry_edge_partial_density :=
          rsz E.d_bdry_edge_partial_density (NUM_2D_EDGES * E.d_num_species).toNat,
        d_bdry_edge_density := setVectorToSignalingNaN E.d_bdry_edge_density,
        d_bdry_edge_momentum := nan E.d_bdry_edge_momentum (NUM_2D_EDGES * E.d_dim),
        d_bdry_edge_total_energy := nan E.d_bdry_edge_total_energy NUM_2D_EDGES,
        d_bdry_edge_volume_fraction :=
          nan E.d_bdry_edge_volume_fraction (NUM_2D_EDGES * E.d_num_species).toNat }
  else if E.d_dim = 3 then
    let E1 := { E with
      d_master_bdry_face_conds := bogus E.d_master_bdry_face_conds NUM_3D_FACES,
      d_scalar_bdry_face_conds := bogus E.d_scalar_bdry_face_conds NUM_3D_FACES,
      d_vector_bdry_face_conds := bogus E.d_vector_bdry_face_conds NUM_3D_FACES,
      d_master_bdry_edge_conds := bogus E.d_master_bdry_edge_conds NUM_3D_EDGES,
      d_scalar_bdry_edge_conds := bogus E.d_scalar_bdry_edge_conds NUM_3D_EDGES,
      d_vector_bdry_edge_conds := bogus E.d_vector_bdry_edge_conds NUM_3D_EDGES,
      d_edge_bdry_face := bogus E.d_edge_bdry_face NUM_3D_EDGES,
      d_master_bdry_node_conds := bogus E.d_master_bdry_node_conds NUM_3D_NODES,
      d_scalar_bdry_node_conds := bogus E.d_scalar_bdry_node_conds NUM_3D_NODES,
      d_vector_bdry_node_conds := bogus E.d_vector_bdry_node_conds NUM_3D_NODES,
      d_node_bdry_face := bogus E.d_node_bdry_face NUM_3D_NODES }
    match E.d_flow_model with
    | SINGLE_SPECIES => { E1 with
        d_bdry_face_density := nan E.d_bdry_face_density NUM_3D_FACES,
        d_bdry_face_momentum := nan E.d_bdry_face_momentum (NUM_3D_FACES * E.d_dim),
        d_bdry_face_total_energy := nan E.d_bdry_face_total_energy NUM_3D_FACES }
    | FOUR_EQN_SHYUE => { E1 with
        d_bdry_face_density := nan E.d_bdry_face_density NUM_3D_FACES,
        d_bdry_face_momentum := nan E.d_bdry_face_momentum (NUM_3D_FACES * E.d_dim),
        d_bdry_face_total_energy := nan E.d_bdry_face_total_energy NUM_3D_FACES,
        d_bdry_face_mass_fraction :=
          nan E.d_bdry_face_mass_fraction (NUM_3D_FACES * E.d_num_species).toNat }
    | FIVE_EQN_ALLAIRE => { E1 with
        d_bdry_face_partial_density :=
          rsz E.d_bdry_face_partial_density (NUM_3D_FACES * E.d_num_species).toNat,
        d_bdry_face_momentum := rsz E.d_bdry_face_momentum (NUM_3D_FACES * E.d_dim),
        d_bdry_face_total_energy := rsz E.d_bdry_face_total_energy NUM_3D_FACES,
        d_bdry_face_volume_fraction :=
          rsz E.d_bdry_face_volume_fraction (NUM_3D_FACES * E.d_num_species).toNat,
        d_bdry_edge_partial_density := setVectorToSignalingNaN E.d_bdry_edge_partial_density,
        d_bdry_edge_momentum := setVectorToSignalingNaN E.d_bdry_edge_momentum,
        d_bdry_edge_total_energy := setVectorToSignalingNaN E.d_bdry_edge_total_energy,
        d_bdry_edge_volume_fraction :=
          setVectorToSignalingNaN E.d_bdry_edge_volume_fraction }
  else E

/-- The routine `Euler::putToRestart`: the entries are put into `restart_db` in the order of
the source. `eos_out` and `scheme_out` are what the equation of state and the convective
flux reconstructor write into their sub-databases. -/
def putToRestart (E : EulerObject) (eos_out scheme_out : Database) (restart_db : Database) :
    Database :=
  let db := restart_db.put "d_project_name" (DbValue.string E.d_project_name)
  let db := db.put "d_num_species" (DbValue.integer E.d_num_species)
  let db := match E.d_flow_model with
    | SINGLE_SPECIES => db.put "d_flow_model" (DbValue.string "SINGLE_SPECIES")
    | FOUR_EQN_SHYUE => db.put "d_flow_model" (DbValue.string "FOUR_EQN_SHYUE")
    | FIVE_EQN_ALLAIRE => db.put "d_flow_model" (DbValue.string "FIVE_EQN_ALLAIRE")
  let db := db.put "Equation_of_state" (DbValue.database eos_out)
  let db := db.put "Shock_capturing_scheme" (DbValue.database scheme_out)
  let db := db.put "d_num_ghosts" (DbValue.integerArray (E.d_num_ghosts.take E.d_dim))
  let db := db.put "d_master_bdry_node_conds" (DbValue.integerArray E.d_master_bdry_node_conds)
  let dbl := fun (db : Database) (key : String) (v : List DoubleValue) =>
    db.put key (DbValue.doubleArray v)
  let db :=
    if E.d_dim = 1 then
      match E.d_flow_model with
      | SINGLE_SPECIES =>
          dbl (dbl (dbl db "d_bdry_node_density" E.d_bdry_node_density)
            "d_bdry_node_momentum" E.d_bdry_node_momentum)
            "d_bdry_node_total_energy" E.d_bdry_node_total_energy
      | FOUR_EQN_SHYUE =>
          dbl (dbl (dbl (dbl db "d_bdry_node_density" E.d_bdry_node_density)
            "d_bdry_node_momentum" E.d_bdry_node_momentum)
            "d_bdry_node_total_energy" E.d_bdry_node_total_energy)
            "d_bdry_node_mass_fraction" E.d_bdry_node_mass_fraction
      | FIVE_EQN_ALLAIRE =>
          dbl (dbl (dbl (dbl db "d_bdry_node_partial_density" E.d_bdry_node_partial_density)
            "d_bdry_node_momentum" E.d_bdry_node_momentum)
            "d_bdry_node_total_energy" E.d_bdry_node_total_energy)
            "d_bdry_node_volume_fraction" E.d_bdry_node_volume_fraction
    else if E.d_dim = 2 then
      let db := db.put "d_master_bdry_edge_conds"
        (DbValue.integerArray E.d_master_bdry_edge_conds)
      match E.d_flow_model with
      | SINGLE_SPECIES =>
          dbl (dbl (dbl db "d_bdry_edge_density" E.d_bdry_edge_density)
            "d_bdry_edge_momentum" E.d_bdry_edge_momentum)
            "d_bdry_edge_total_energy" E.d_bdry_edge_total_energy
      | FOUR_EQN_SHYUE =>
          dbl (dbl (dbl (dbl db "d_bdry_edge_density" E.d_bdry_edge_density)
            "d_bdry_edge_momentum" E.d_bdry_edge_momentum)
            "d_bdry_edge_total_energy" E.d_bdry_edge_total_energy)
            "d_bdry_edge_mass_fraction" E.d_bdry_edge_mass_fraction
      | FIVE_EQN_ALLAIRE =>
          dbl (dbl (dbl (dbl db "d_bdry_edge_partial_density" E.d_bdry_edge_partial_density)
            "d_bdry_edge_momentum" E.d_bdry_edge_momentum)
            "d_bdry_edge_total_energy" E.d_bdry_edge_total_energy)
            "d_bdry_edge_volume_fraction" E.d_bdry_edge_volume_fraction
    else if E.d_dim = 3 then
      let db := db.put "d_master_bdry_edge_conds"
        (DbValue.integerArray E.d_master_bdry_edge_conds)
      let db := db.put "d_master_bdry_face_conds"
        (DbValue.integerArray E.d_master_bdry_face_conds)
      match E.d_flow_model with
      | SINGLE_SPECIES =>
          dbl (dbl (dbl db "d_bdry_face_density" E.d_bdry_face_density)
            "d_bdry_face_momentum" E.d_bdry_face_momentum)
            "d_bdry_face_total_energy" E.d_bdry_face_total_energy
      | FOUR_EQN_SHYUE =>
          dbl (dbl (dbl (dbl db "d_bdry_face_density" E.d_bdry_face_density)
            "d_bdry_face_momentum" E.d_bdry_face_momentum)
            "d_bdry_face_total_energy" E.d_bdry_face_total_energy)
            "d_bdry_face_mass_fraction" E.d_bdry_face_mass_fraction
      | FIVE_EQN_ALLAIRE =>
          dbl (dbl (dbl (dbl db "d_bdry_face_partial_density" E.d_bdry_face_partial_density)
            "d_bdry_face_momentum" E.d_bdry_face_momentum)
            "d_bdry_face_total_energy" E.d_bdry_face_total_energy)
            "d_bdry_face_volume_fraction" E.d_bdry_face_volume_fraction
    else db
  let db :=
    if E.d_refinement_criteria.length > 0 then
      db.put "d_refinement_criteria" (DbValue.stringArray E.d_refinement_criteria)
    else db
  forLoop E.d_refinement_criteria.length (fun i db =>
    if E.d_refinement_criteria.getD i "" = "DENSITY_SHOCK" then
      dbl db "d_density_shock_tol" E.d_density_shock_tol
    else if E.d_refinement_criteria.getD i "" = "PRESSURE_SHOCK" then
      dbl db "d_pressure_shock_tol" E.d_pressure_shock_tol
    else db) db

/-- The first block of `Euler::getFromRestart` (up to the read of `d_num_ghosts`): the
database of the object is looked up in `root_db` and the project name, the number of
species, the flow model with its equation count, the two sub-databases and the ghost
widths are read. The database of the object is returned with the object. -/
def getFromRestart_flowModel (d_object_name : String) (root_db : Database) (E : EulerObject) :
    Except String (Database × EulerObject) := do
  let db : Database ← (match root_db.find d_object_name with
    | some (DbValue.database d) => pure d
    | _ => throw "Restart database not found in restart file.")
  let d_project_name ← Database.getString db "d_project_name"
  let d_num_species ← Database.getInteger db "d_num_species"
  let flow_model_str ← Database.getString db "d_flow_model"
  let fm : FLOW_MODEL × Int ←
    (if flow_model_str = "SINGLE_SPECIES" then
      pure (SINGLE_SPECIES, 2 + (E.d_dim : Int))
    else if flow_model_str = "FOUR_EQN_SHYUE" then
      pure (FOUR_EQN_SHYUE, 1 + (E.d_dim : Int) + d_num_species)
    else if flow_model_str = "FIVE_EQN_ALLAIRE" then
      pure (FIVE_EQN_ALLAIRE, (E.d_dim : Int) + 2 * d_num_species)
    else throw "Unknown d_flow_model string found in restart file.")
  let d_equation_of_state_db ← Database.getDatabase db "Equation_of_state"
  let d_shock_capturing_scheme_db ← Database.getDatabase db "Shock_capturing_scheme"
  let d_num_ghosts ← Database.getIntegerArray db "d_num_ghosts" E.d_dim
  pure (db, { E with
    d_project_name := d_project_name, d_num_species := d_num_species,
    d_flow_model := fm.1, d_num_eqn := fm.2,
    d_equation_of_state_db := d_equation_of_state_db,
    d_shock_capturing_scheme_db := d_shock_capturing_scheme_db,
    d_num_ghosts := d_num_ghosts })

/-- The second block of `Euler::getFromRestart`: the boundary defaults are set, then the
master boundary conditions and the boundary state vectors of the flow model are read from
the database `db` of the object. -/
def getFromRestart_boundary (db : Database) (E0 : EulerObject) :
    Except String EulerObject := do
  let E1 := setDefaultBoundaryConditions E0
  let d_master_bdry_node_conds ← Database.getIntegerVector db "d_master_bdry_node_conds"
  let E2 : EulerObject := { E1 with d_master_bdry_node_conds := d_master_bdry_node_conds }
  if E2.d_dim = 1 then
    match E2.d_flow_model with
    | SINGLE_SPECIES => do
        let a ← Database.getDoubleVector db "d_bdry_node_density"
        let b ← Database.getDoubleVector db "d_bdry_node_momentum"
        let c ← Database.getDoubleVector db "d_bdry_node_total_energy"
        pure { E2 with d_bdry_node_density := a, d_bdry_node_momentum := b,
                       d_bdry_node_total_energy := c }
    | FOUR_EQN_SHYUE => do
        let a ← Database.getDoubleVector db "d_bdry_node_density"
        let b ← Database.getDoubleVector db "d_bdry_node_momentum"
        let c ← Database.getDoubleVector db "d_bdry_node_total_energy"
        let d ← Database.getDoubleVector db "d_bdry_node_mass_fraction"
        pure { E2 with d_bdry_node_density := a, d_bdry_node_momentum := b,
                       d_bdry_node_total_energy := c, d_bdry_node_mass_fraction := d }
    | FIVE_EQN_ALLAIRE => do
        let a ← Database.getDoubleVector db "d_bdry_node_partial_density"
        let b ← Database.getDoubleVector db "d_bdry_node_momentum"
        let c ← Database.getDoubleVector db "d_bdry_node_total_energy"
        let d ← Database.getDoubleVector db "d_bdry_node_volume_fraction"
        pure { E2 with d_bdry_node_partial_density := a, d_bdry_node_momentum := b,
                       d_bdry_node_total_energy := c, d_bdry_node_volume_fraction := d }
  else if E2.d_dim = 2 then do
    let e ← Database.getIntegerVector db "d_master_bdry_edge_conds"
    let E2e : EulerObject := { E2 with d_master_bdry_edge_conds := e }
    match E2.d_flow_model with
    | SINGLE_SPECIES => do
        let a ← Database.getDoubleVector db "d_bdry_edge_density"
        let b ← Database.getDoubleVector db "d_bdry_edge_momentum"
        let c ← Database.getDoubleVector db "d_bdry_edge_total_energy"
        pure { E2e with d_bdry_edge_density := a, d_bdry_edge_momentum := b,
                        d_bdry_edge_total_energy := c }
    | FOUR_EQN_SHYUE => do
        let a ← Database.getDoubleVector db "d_bdry_edge_density"
        let b ← Database.getDoubleVector db "d_bdry_edge_momentum"
        let c ← Database.getDoubleVector db "d_bdry_edge_total_energy"
        let d ← Database.getDoubleVector db "d_bdry_edge_mass_fraction"
        pure { E2e with d_bdry_edge_density := a, d_bdry_edge_momentum := b,
                        d_bdry_edge_total_energy := c, d_bdry_edge_mass_fraction := d }
    | FIVE_EQN_ALLAIRE => do
        let a ← Database.getDoubleVector db "d_bdry_edge_partial_density"
        let b ← Database.getDoubleVector db "d_bdry_edge_momentum"
        let c ← Database.getDoubleVector db "d_bdry_edge_total_energy"
        let d ← Database.getDoubleVector db "d_bdry_edge_volume_fraction"
        pure { E2e with d_bdry_edge_partial_density := a, d_bdry_edge_momentum := b,
                        d_bdry_edge_total_energy := c, d_bdry_edge_volume_fraction := d }
  else if E2.d_dim = 3 then do
    let e ← Database.getIntegerVector db "d_master_bdry_edge_conds"
    let f ← Database.getIntegerVector db "d_master_bdry_face_conds"
    let E2f : EulerObject :=
      { E2 with d_master_bdry_edge_conds := e, d_master_bdry_face_conds := f }
    match E2.d_flow_model with
    | SINGLE_SPECIES => do
        let a ← Database.getDoubleVector db "d_bdry_face_density"
        let b ← Database.getDoubleVector db "d_bdry_face_momentum"
        let c ← Database.getDoubleVector db "d_bdry_face_total_energy"
        pure { E2f with d_bdry_face_density := a, d_bdry_face_momentum := b,
                        d_bdry_face_total_energy := c }
    | FOUR_EQN_SHYUE => do
        let a ← Database.getDoubleVector db "d_bdry_face_density"
        let b ← Database.getDoubleVector db "d_bdry_face_momentum"
        let c ← Database.getDoubleVector db "d_bdry_face_total_energy"
        let d ← Database.getDoubleVector db "d_bdry_face_mass_fraction"
        pure { E2f with d_bdry_face_density := a, d_bdry_face_momentum := b,
                        d_bdry_face_total_energy := c, d_bdry_face_mass_fraction := d }
    | FIVE_EQN_ALLAIRE => do
        let a ← Database.getDoubleVector db "d_bdry_face_partial_density"
        let b ← Database.getDoubleVector db "d_bdry_face_momentum"
        let c ← Database.getDoubleVector db "d_bdry_face_total_energy"
        let d ← Database.getDoubleVector db "d_bdry_face_volume_fraction"
        pure { E2f with d_bdry_face_partial_density := a, d_bdry_face_momentum := b,
                        d_bdry_face_total_energy := c, d_bdry_face_volume_fraction := d }
  else pure E2

/-- The last block of `Euler::getFromRestart`: for every entry of `d_refinement_criteria`
of the object the tolerance of that criterion is read from `db`. -/
def getFromRestart_refinement (db : Database) (E3 : EulerObject) :
    Except String EulerObject :=
  forLoop E3.d_refinement_criteria.length (fun i (r : Except String EulerObject) => do
    let Ei ← r
    if Ei.d_refinement_criteria.getD i "" = "DENSITY_SHOCK" then do
      let t ← Database.getDoubleVector db "d_density_shock_tol"
      pure { Ei with d_density_shock_tol := t }
    else if Ei.d_refinement_criteria.getD i "" = "PRESSURE_SHOCK" then do
      let t ← Database.getDoubleVector db "d_pressure_shock_tol"
      pure { Ei with d_pressure_shock_tol := t }
    else pure Ei) (pure E3)

/-- The routine `Euler::getFromRestart`: `root_db` is the root database of the restart
manager and `E` the object the routine is called on. -/
def getFromRestart (d_object_name : String) (root_db : Database) (E : EulerObject) :
    Except String EulerObject := do
  let r ← getFromRestart_flowModel d_object_name root_db E
  let E3 ← getFromRestart_boundary r.1 r.2
  getFromRestart_refinement r.1 E3

/-- The entries of the input database that the block `if (!is_from_restart)` of
`Euler::getFromInput` reads; an absent key is `none`, and a key that is present holds a
value of the type the code reads it with. -/
structure InputDatabase where
  project_name : Option String
  num_species : Option Int
  flow_model : Option String
  Equation_of_state : Option Database
  Shock_capturing_scheme : Option Database

/-- The block `if (!is_from_restart)` of `Euler::getFromInput`: project name, number of
species, flow model with its equation count, and the two sub-databases. -/
def getFromInput_flowModel (input_db : InputDatabase) (E : EulerObject) :
    Except String EulerObject := do
  let d_project_name :=
    match input_db.project_name with
    | some name => name
    | none => "Unnamed"
  let d_num_species ←
    match input_db.num_species with
    | some n =>
        if n ≤ 0 then throw "Non-positive number of species is specified."
        else pure n
    | none => throw "Key data 'num_species' not found in input."
  let fm ←
    match input_db.flow_model with
    | some flow_model_str => do
        let fm ←
          if flow_model_str = "SINGLE_SPECIES" then
            pure (SINGLE_SPECIES, 2 + (E.d_dim : Int))
          else if flow_model_str = "FOUR_EQN_SHYUE" then
            pure (FOUR_EQN_SHYUE, 1 + (E.d_dim : Int) + d_num_species)
          else if flow_model_str = "FIVE_EQN_ALLAIRE" then
            pure (FIVE_EQN_ALLAIRE, (E.d_dim : Int) + 2 * d_num_species)
          else throw "Unknown flow_model string found in input."
        if d_num_species > 1 ∧ fm.1 = SINGLE_SPECIES then
          throw "Number of species > 1 shouldn't use single-species model."
        else pure fm
    | none => throw "Key data 'flow model' not found in input."
  let d_equation_of_state_db ←
    match input_db.Equation_of_state with
    | some d => pure d
    | none => throw "Key data 'Equation_of_state' not found in input."
  let d_shock_capturing_scheme_db ←
    match input_db.Shock_capturing_scheme with
    | some d => pure d
    | none => throw "Key data 'Shock_capturing_scheme' not found in input."
  pure { E with
    d_project_name := d_project_name, d_num_species := d_num_species,
    d_flow_model := fm.1, d_num_eqn := fm.2,
    d_equation_of_state_db := d_equation_of_state_db,
    d_shock_capturing_scheme_db := d_shock_capturing_scheme_db }

/-- The name written for a flow model by `putToRestart` and accepted by `getFromInput` and
`getFromRestart`. -/
def flowModelName (fm : FLOW_MODEL) : String :=
  match fm with
  | SINGLE_SPECIES => "SINGLE_SPECIES"
  | FOUR_EQN_SHYUE => "FOUR_EQN_SHYUE"
  | FIVE_EQN_ALLAIRE => "FIVE_EQN_ALLAIRE"

/-- The number of independent conserved fields of a flow model in dimension `D` with `N`
species: density, momentum and energy for the single-species model; density, momentum,
energy and `N - 1` mass fractions for the four-equation model; `N` partial densities,
momentum, energy and `N - 1` volume fractions for the five-equation model. -/
def conservedFieldCount (fm : FLOW_MODEL) (D N : Int) : Int :=
  match fm with
  | SINGLE_SPECIES => 1 + D + 1
  | FOUR_EQN_SHYUE => 1 + D + 1 + (N - 1)
  | FIVE_EQN_ALLAIRE => N + D + 1 + (N - 1)

/-! ## Boundary state entries -/

/-- The entries of a boundary state database read by the `readStateDataEntry...` routines;
an absent key is `none`. -/
structure StateDatabase where
  density : Option ℚ
  partial_density : Option (List ℚ)
  momentum : Option (List ℚ)
  total_energy : Option ℚ
  mass_fraction : Option (List ℚ)
  volume_fraction : Option (List ℚ)

/-- The boundary state vectors passed by reference to the `readStateDataEntry...`
routines. -/
structure StateVectors where
  density : List DoubleValue
  partial_density : List DoubleValue
  momentum : List DoubleValue
  total_energy : List DoubleValue
  mass_fraction : List DoubleValue
  volume_fraction : List DoubleValue

/-- The rational held by a stored double (zero for the signaling NaN). -/
def DoubleValue.toRat (x : DoubleValue) : ℚ :=
  match x with
  | DoubleValue.value q => q
  | DoubleValue.signalingNaN => 0

/-- The sum of the `N` fractions stored for boundary location `a`. -/
def storedFractionSum (N a : Nat) (fraction : List DoubleValue) : ℚ :=
  ∑ s ∈ Finset.range N, (fraction.getD (a * N + s) DoubleValue.signalingNaN).toRat

/-! ## The stable time step -/

/-- The equation of state, through the calls made by `computeStableDtOnPatch`. The
arguments are the density, the momentum components, the total energy and the mass or
volume fractions of one cell. -/
structure EquationOfState where
  getSoundSpeed : ℚ → List ℚ → ℚ → ℚ
  getSoundSpeedWithMassFraction : ℚ → List ℚ → ℚ → List ℚ → ℚ
  getTotalDensity : List ℚ → ℚ
  getSoundSpeedWithVolumeFraction : ℚ → List ℚ → ℚ → List ℚ → ℚ

/-- The cell data of the current context by variable: component and linear index. -/
structure CellFields where
  density : Nat → ℚ
  partial_density : Nat → Nat → ℚ
  momentum : Nat → Nat → ℚ
  total_energy : Nat → ℚ
  mass_fraction : Nat → Nat → ℚ
  volume_fraction : Nat → Nat → ℚ

/-- The density `rho` used for the velocity in the cell of linear index `idx`: the stored
density, or `getTotalDensity` of the partial densities for `FIVE_EQN_ALLAIRE`. -/
def cellDensity (E : Euler) (eos : EquationOfState) (U : CellFields) (idx : Nat) : ℚ :=
  match E.d_flow_model with
  | SINGLE_SPECIES => U.density idx
  | FOUR_EQN_SHYUE => U.density idx
  | FIVE_EQN_ALLAIRE =>
      eos.getTotalDensity ((List.range E.d_num_species).map (fun si => U.partial_density si idx))

/-- The sound speed `c` returned by the equation of state for the cell of linear index
`idx`. -/
def cellSoundSpeed (E : Euler) (eos : EquationOfState) (U : CellFields) (idx : Nat) : ℚ :=
  let momentum_idx := (List.range E.d_dim).map (fun di => U.momentum di idx)
  match E.d_flow_model with
  | SINGLE_SPECIES =>
      eos.getSoundSpeed (U.density idx) momentum_idx (U.total_energy idx)
  | FOUR_EQN_SHYUE =>
      eos.getSoundSpeedWithMassFraction (U.density idx) momentum_idx (U.total_energy idx)
        ((List.range E.d_num_species).map (fun si => U.mass_fraction si idx))
  | FIVE_EQN_ALLAIRE =>
      eos.getSoundSpeedWithVolumeFraction (cellDensity E eos U idx) momentum_idx
        (U.total_energy idx)
        ((List.range E.d_num_species).map (fun si => U.volume_fraction si idx))

/-- The quotient `x/y` of two doubles as a rational. With `y = 0` the C++ quotient is an
infinity or a NaN, which no rational stands for: the result is `none`. -/
def quotient (x y : ℚ) : Option ℚ :=
  if y = 0 then none else some (x / y)

/-- The value `spectral_radius` computed for the cell of linear index `idx`:
`u = rho_u[idx]/rho[idx]` (and `v`, `w`), the sound speed `c` of the equation of state,
then `(fabs(u) + c)/dx[0] + ...`; `none` when one of the divisors is zero. -/
def spectral_radius (E : Euler) (P : Patch) (eos : EquationOfState) (U : CellFields)
    (idx : Nat) : Option ℚ :=
  let rho := cellDensity E eos U idx
  let c := cellSoundSpeed E eos U idx
  if E.d_dim = 1 then do
    let u ← quotient (U.momentum 0 idx) rho
    quotient (|u| + c) (P.dx 0)
  else if E.d_dim = 2 then do
    let u ← quotient (U.momentum 0 idx) rho
    let v ← quotient (U.momentum 1 idx) rho
    let r0 ← quotient (|u| + c) (P.dx 0)
    let r1 ← quotient (|v| + c) (P.dx 1)
    pure (r0 + r1)
  else do
    let u ← quotient (U.momentum 0 idx) rho
    let v ← quotient (U.momentum 1 idx) rho
    let w ← quotient (U.momentum 2 idx) rho
    let r0 ← quotient (|u| + c) (P.dx 0)
    let r1 ← quotient (|v| + c) (P.dx 1)
    let r2 ← quotient (|w| + c) (P.dx 2)
    pure (r0 + r1 + r2)

/-- The routine `Euler::computeStableDtOnPatch`: `stable_spectral_radius` starts at `0.0`
and is raised by `fmax` to the `spectral_radius` of every interior cell, and the result is
`1.0/stable_spectral_radius`. The loops over the interior cells are the same for the three
flow models, which differ in the density and the sound speed of the cell (`cellDensity`,
`cellSoundSpeed`). The result is `none` when a divisor is zero. -/
def computeStableDtOnPatch (E : Euler) (P : Patch) (eos : EquationOfState) (U : CellFields) :
    Option ℚ := do
  let stable_spectral_radius ← cellLoop E P (fun i j k (ssr : Option ℚ) => do
    let m ← ssr
    let r ← spectral_radius E P eos U (idx_cell E P i j k)
    pure (max m r)) (some 0)
  quotient 1 stable_spectral_radius

/-- The density `rho(c)` of the claim on the stable time step, in the cell of linear index
`idx`: the density field for the single-species and the four-equation models, the total
density that the equation of state gives for the partial densities of the cell for the
five-equation model. Written from the claim, not from the code. -/
def claimDensity (E : Euler) (eos : EquationOfState) (U : CellFields) (idx : Nat) : ℚ :=
  if E.d_flow_model = FIVE_EQN_ALLAIRE then
    eos.getTotalDensity ((List.range E.d_num_species).map (fun s => U.partial_density s idx))
  else U.density idx

/-- The sound speed `c_s(c)` of the claim on the stable time step: the value that the
equation of state returns for the density, the `D` momentum components, the total energy
and (multi-species models) the `N` mass or volume fractions of the cell. Written from the
claim, not from the code. -/
def claimSoundSpeed (E : Euler) (eos : EquationOfState) (U : CellFields) (idx : Nat) : ℚ :=
  if E.d_flow_model = SINGLE_SPECIES then
    eos.getSoundSpeed (U.density idx) ((List.range E.d_dim).map (fun d => U.momentum d idx))
      (U.total_energy idx)
  else if E.d_flow_model = FOUR_EQN_SHYUE then
    eos.getSoundSpeedWithMassFraction (U.density idx)
      ((List.range E.d_dim).map (fun d => U.momentum d idx)) (U.total_energy idx)
      ((List.range E.d_num_species).map (fun s => U.mass_fraction s idx))
  else
    eos.getSoundSpeedWithVolumeFraction
      (eos.getTotalDensity ((List.range E.d_num_species).map (fun s => U.partial_density s idx)))
      ((List.range E.d_dim).map (fun d => U.momentum d idx)) (U.total_energy idx)
      ((List.range E.d_num_species).map (fun s => U.volume_fraction s idx))

/-- The quantity `r(c)` of the claim on the stable time step: the sum over the directions
`d < D` of `(|m_d(c)/rho(c)| + c_s(c))/dx[d]`. Written from the claim, not from the
code. -/
def claimRate (E : Euler) (P : Patch) (eos : EquationOfState) (U : CellFields) (idx : Nat) : ℚ :=
  ∑ d ∈ Finset.range E.d_dim,
    (|U.momentum d idx / claimDensity E eos U idx| + claimSoundSpeed E eos U idx) / P.dx d

/-- Two sets of cell data hold the same values in the cell of linear index `idx`. -/
def sameCell (U U2 : CellFields) (idx : Nat) : Prop :=
  U.density idx = U2.density idx ∧ U.total_energy idx = U2.total_energy idx ∧
  (∀ c, U.partial_density c idx = U2.partial_density c idx) ∧
  (∀ c, U.momentum c idx = U2.momentum c idx) ∧
  (∀ c, U.mass_fraction c idx = U2.mass_fraction c idx) ∧
  (∀ c, U.volume_fraction c idx = U2.volume_fraction c idx)

/-! ## The command line of the main program -/

/-- The calls of `main` that the handling of the command line decides: the usage message
on `tbox::pout`, `tbox::SAMRAI_MPI::abort()`, the three lines on `tbox::plog`, and
`parseInputFile(input_filename, input_db)`. -/
inductive MainEvent where
  | pout (text : String)
  | abort
  | plog (text : String)
  | parseInputFile (input_filename : String)
  deriving DecidableEq

/-- The state of `main` when it returns early or when it has called `parseInputFile`:
the calls made so far, the value returned (`none` while `main` goes on), and the four
variables set from the command line. -/
structure MainRun where
  events : List MainEvent
  returned : Option Int
  input_filename : String
  restart_read_dirname : String
  restore_num : Int
  is_from_restart : Bool
  deriving DecidableEq

/-- The start of `main`, from the handling of the command line to the call of
`parseInputFile`. `argv` is the argument vector, `argc` its length, and `atoi` the C library
function. -/
def main (atoi : String → Int) (argv : List String) : MainRun :=
  let argc : Int := argv.length
  let input_filename := ""
  let restart_read_dirname := ""
  let restore_num : Int := 0
  let is_from_restart := false
  if argc ≠ 2 ∧ argc ≠ 4 then
    { events := [MainEvent.pout ("USAGE:  " ++ argv.getD 0 ""
          ++ " <input filename> " ++ "<restart dir> <restore number> [options]\n"
          ++ "  options:\n" ++ "  none at this time"),
        MainEvent.abort],
      returned := some (-1),
      input_filename := input_filename,
      restart_read_dirname := restart_read_dirname,
      restore_num := restore_num,
      is_from_restart := is_from_restart }
  else
    let input_filename := argv.getD 1 ""
    let restart_read_dirname := if argc = 4 then argv.getD 2 "" else restart_read_dirname
    let restore_num := if argc = 4 then atoi (argv.getD 3 "") else restore_num
    let is_from_restart := if argc = 4 then true else is_from_restart
    { events := [MainEvent.plog ("input_filename = " ++ input_filename),
        MainEvent.plog ("restart_read_dirname = " ++ restart_read_dirname),
        MainEvent.plog ("restore_num = " ++ toString restore_num),
        MainEvent.parseInputFile input_filename],
      returned := none,
      input_filename := input_filename,
      restart_read_dirname := restart_read_dirname,
      restore_num := restore_num,
      is_from_restart := is_from_restart }

/-! ## The WENO interpolation -/

/-- Modelled from the spec: a primitive state given to the Riemann solver ("density, velocity
vector, pressure"), for the direction normal to the interface: density, normal velocity and
pressure. The class `RiemannSolverHLLC_HLL` is missing from the sources. -/
structure PrimitiveState where
  rho : ℚ
  u : ℚ
  p : ℚ

/-- Modelled from the spec: the "numerical flux vector" returned by the Riemann solver, whose
class `RiemannSolverHLLC_HLL` is missing from the sources: the components for the mass, the
normal momentum and the total energy. -/
structure InterfaceFlux where
  mass : ℚ
  momentum : ℚ
  energy : ℚ
  deriving DecidableEq

/-- Modelled from the spec: the calls of the Riemann solver, whose class
`RiemannSolverHLLC_HLL` is missing from the sources, into the equation of state: the sound
speed and the total energy per volume of a primitive state. -/
structure RiemannEOS where
  soundSpeed : PrimitiveState → ℚ
  totalEnergy : PrimitiveState → ℚ

/-- Modelled from the spec: the "left flux" and "right flux" of the Riemann solver, whose
class `RiemannSolverHLLC_HLL` is missing from the sources: the flux
`(ρu, ρu² + p, u(E + p))` of the Euler equations at a state. -/
def physicalFlux (eos : RiemannEOS) (W : PrimitiveState) : InterfaceFlux :=
  { mass := W.rho * W.u,
    momentum := W.rho * W.u * W.u + W.p,
    energy := W.u * (eos.totalEnergy W + W.p) }

/-- Modelled from the spec: the conserved variables `(ρ, ρu, E)` of a state, in the slots of
the flux, as used by the HLLC and HLL formulas of the Riemann solver, whose class
`RiemannSolverHLLC_HLL` is missing from the sources. -/
def conservedOf (eos : RiemannEOS) (W : PrimitiveState) : InterfaceFlux :=
  { mass := W.rho, momentum := W.rho * W.u, energy := eos.totalEnergy W }

/-- Modelled from the spec: the star state of the HLLC solver on the side of the state `W`
with wave speed `S`, for the contact speed `S_star`. The class `RiemannSolverHLLC_HLL`
(member `d_Riemann_solver`) is missing from the sources; the spec names "the HLLC jump
conditions", whose star state is
`ρ (S - u)/(S - S_*) (1, S_*, E/ρ + (S_* - u)(S_* + p/(ρ (S - u))))`. -/
def starState (eos : RiemannEOS) (W : PrimitiveState) (S S_star : ℚ) : InterfaceFlux :=
  let f := W.rho * (S - W.u) / (S - S_star)
  { mass := f,
    momentum := f * S_star,
    energy := f * (eos.totalEnergy W / W.rho
      + (S_star - W.u) * (S_star + W.p / (W.rho * (S - W.u)))) }

/-- Modelled from the spec: the flux `F + S (U_* - U)` of the HLLC solver in the star region
on the side of the state `W`; the class `RiemannSolverHLLC_HLL` is missing from the
sources. -/
def starFlux (eos : RiemannEOS) (W : PrimitiveState) (S S_star : ℚ) : InterfaceFlux :=
  let F := physicalFlux eos W
  let U := conservedOf eos W
  let U_star := starState eos W S S_star
  { mass := F.mass + S * (U_star.mass - U.mass),
    momentum := F.momentum + S * (U_star.momentum - U.momentum),
    energy := F.energy + S * (U_star.energy - U.energy) }

/-- Modelled from the spec: the two-wave HLL flux
`(S_R F_L - S_L F_R + S_L S_R (U_R - U_L))/(S_R - S_L)`, which "averages fluxes weighted
by wave speeds"; the class `RiemannSolverHLLC_HLL` is missing from the sources. -/
def fluxHLL (eos : RiemannEOS) (L R : PrimitiveState) (S_L S_R : ℚ) : InterfaceFlux :=
  let F_L := physicalFlux eos L
  let F_R := physicalFlux eos R
  let U_L := conservedOf eos L
  let U_R := conservedOf eos R
  { mass := (S_R * F_L.mass - S_L * F_R.mass + S_L * S_R * (U_R.mass - U_L.mass))
      / (S_R - S_L),
    momentum := (S_R * F_L.momentum - S_L * F_R.momentum
      + S_L * S_R * (U_R.momentum - U_L.momentum)) / (S_R - S_L),
    energy := (S_R * F_L.energy - S_L * F_R.energy + S_L * S_R * (U_R.energy - U_L.energy))
      / (S_R - S_L) }

/-- Modelled from the spec: the flux of the HLLC/HLL solver `d_Riemann_solver` for the left
state `L` and the right state `R`, together with the maximum signal speed. The class
`RiemannSolverHLLC_HLL` is missing from the sources (the headers only hold a member of that
type). The spec's steps: (1) sound speeds and the wave speed estimates, here the direct
estimates `S_L = min(u_L - c_L, u_R - c_R)` and `S_R = max(u_L + c_L, u_R + c_R)`;
"inability to compute positive sound speed on either side is a fatal condition";
(5) "if `S_L ≥ 0`, return the left flux directly; if `S_R ≤ 0`, return the right flux
directly"; (2) "the contact-wave speed `S_*` from the HLLC jump conditions"; (3) the HLLC
flux when "the contact-resolving star-state pressure is physically valid", the branch
chosen by the sign of `S_*`; (4) else the HLL flux. -/
def computeIntercellFlux (eos : RiemannEOS) (L R : PrimitiveState) :
    Except String (InterfaceFlux × ℚ) :=
  let c_L := eos.soundSpeed L
  let c_R := eos.soundSpeed R
  if c_L ≤ 0 ∨ c_R ≤ 0 then throw "no positive sound speed"
  else
    let S_L := min (L.u - c_L) (R.u - c_R)
    let S_R := max (L.u + c_L) (R.u + c_R)
    let S_max := max |S_L| |S_R|
    if 0 ≤ S_L then pure (physicalFlux eos L, S_max)
    else if S_R ≤ 0 then pure (physicalFlux eos R, S_max)
    else
      let S_star := (R.p - L.p + L.rho * L.u * (S_L - L.u) - R.rho * R.u * (S_R - R.u))
        / (L.rho * (S_L - L.u) - R.rho * (S_R - R.u))
      let p_star := L.p + L.rho * (S_L - L.u) * (S_star - L.u)
      if 0 ≤ p_star ∧ S_L ≤ S_star ∧ S_star ≤ S_R then
        if 0 ≤ S_star then pure (starFlux eos L S_L S_star, S_max)
        else pure (starFlux eos R S_R S_star, S_max)
      else pure (fluxHLL eos L R S_L S_R, S_max)

/-- The number of entries of a cell array with the ghost cells of the object
(`ghost_box.size()`). -/
def ghostCellCount (E : Euler) (P : Patch) : Nat :=
  ∏ d ∈ Finset.range E.d_dim, ghostcell_dims E P d

/-- The number of entries of a cell array without ghost cells (the source). -/
def interiorCellCount (E : Euler) (P : Patch) : Nat :=
  ∏ d ∈ Finset.range E.d_dim, P.interior_dims d

/-- The number of entries of the face array normal to direction `d` (the convective flux):
one face more than cells in direction `d`. -/
def faceCount (E : Euler) (P : Patch) (d : Nat) : Nat :=
  ∏ e ∈ Finset.range E.d_dim, (if e = d then P.interior_dims e + 1 else P.interior_dims e)

/-! ## Boundary state entries with the bounds of the vectors -/

/-- The ways a `readStateDataEntry...` routine can stop: a failed `TBOX_ASSERT`, a
`TBOX_ERROR`, or a write `vector[index]` with `index >= vector.size()`. -/
inductive StateFault where
  | assertion (text : String)
  | tbox_error (message : String)
  | out_of_bounds (vector : String) (index size : Nat)
  deriving DecidableEq

/-- The macro `TBOX_ASSERT(cond)`. -/
def tboxAssert (cond : Bool) (text : String) : Except StateFault Unit :=
  if cond then pure () else throw (StateFault.assertion text)

/-- The write `vector[index] = x`, which stops the routine when `index` is outside the
vector. -/
def storeAt (name : String) (vector : List DoubleValue) (index : Nat) (x : ℚ) :
    Except StateFault (List DoubleValue) :=
  if index < vector.length then pure (vector.set index (DoubleValue.value x))
  else throw (StateFault.out_of_bounds name index vector.length)

/-- The loop `for (di = 0; di < d_dim; di++) momentum[array_indx*d_dim + di] = tmp_m[di];`
with the bounds of `momentum`. -/
def storeMomentumChecked (d_dim array_indx : Nat) (tmp_m : List ℚ) (momentum : List DoubleValue) :
    Except StateFault (List DoubleValue) :=
  forLoop d_dim (fun di r => r.bind (fun m =>
    storeAt "momentum" m (array_indx * d_dim + di) (tmp_m.getD di 0))) (pure momentum)

/-- The writes of the mass fractions in `readStateDataEntryForFourEqnShyue` with the bounds
of `mass_fraction`: the loop over the first `N - 1` species, then the last slot. -/
def storeFractionsChecked (d_num_species array_indx : Nat) (tmp_Y : List ℚ)
    (fraction : List DoubleValue) : Except StateFault (List DoubleValue) :=
  (forLoop (d_num_species - 1) (fun si (r : Except StateFault (List DoubleValue × ℚ)) =>
    r.bind (fun st =>
    (storeAt "mass_fraction" st.1 (array_indx * d_num_species + si) (tmp_Y.getD si 0)).map
      (fun f => (f, st.2 - tmp_Y.getD si 0)))) (pure (fraction, 1))).bind
    (fun st => storeAt "mass_fraction" st.1 ((array_indx + 1) * d_num_species - 1) st.2)

/-- The routine `Euler::readStateDataEntryForSingleSpecies` with its assertions and the
bounds of the vectors. `array_indx` is not negative. -/
def readStateDataEntryForSingleSpecies (d_dim : Nat) (db : StateDatabase) (array_indx : Nat)
    (v : StateVectors) : Except StateFault StateVectors := do
  tboxAssert (decide (v.density.length > array_indx)) "density.size() > array_indx"
  tboxAssert (decide (v.momentum.length > array_indx * d_dim))
    "momentum.size() > array_indx*d_dim.getValue()"
  tboxAssert (decide (v.total_energy.length > array_indx)) "total_energy.size() > array_indx"
  let density ← (match db.density with
    | some x => storeAt "density" v.density array_indx x
    | none => throw (StateFault.tbox_error "'density' entry missing from input database."))
  let momentum ← (match db.momentum with
    | some tmp_m =>
        if tmp_m.length < d_dim then
          throw (StateFault.tbox_error "Insufficient number of 'momentum' values.")
        else storeMomentumChecked d_dim array_indx tmp_m v.momentum
    | none => throw (StateFault.tbox_error "'momentum' entry missing from input database."))
  let total_energy ← (match db.total_energy with
    | some x => storeAt "total_energy" v.total_energy array_indx x
    | none => throw (StateFault.tbox_error "'total_energy' entry missing from input database."))
  pure { v with density := density, momentum := momentum, total_energy := total_energy }

/-- The routine `Euler::readStateDataEntryForFourEqnShyue` with its assertions and the
bounds of the vectors. `array_indx` is not negative. -/
def readStateDataEntryForFourEqnShyueChecked (d_dim d_num_species : Nat) (db : StateDatabase)
    (array_indx : Nat) (v : StateVectors) : Except StateFault StateVectors := do
  tboxAssert (decide (v.density.length > array_indx)) "density.size() > array_indx"
  tboxAssert (decide (v.momentum.length > array_indx * d_dim))
    "momentum.size() > array_indx*d_dim.getValue()"
  tboxAssert (decide (v.total_energy.length > array_indx)) "total_energy.size() > array_indx"
  tboxAssert (decide (v.mass_fraction.length > array_indx * d_num_species))
    "mass_fraction.size() > array_indx*d_num_species"
  let density ← (match db.density with
    | some x => storeAt "density" v.density array_indx x
    | none => throw (StateFault.tbox_error "'density' entry missing from input database."))
  let momentum ← (match db.momentum with
    | some tmp_m =>
        if tmp_m.length < d_dim then
          throw (StateFault.tbox_error "Insufficient number of 'momentum' values.")
        else storeMomentumChecked d_dim array_indx tmp_m v.momentum
    | none => throw (StateFault.tbox_error "'momentum' entry missing from input database."))
  let total_energy ← (match db.total_energy with
    | some x => storeAt "total_energy" v.total_energy array_indx x
    | none => throw (StateFault.tbox_error "'total_energy' entry missing from input database."))
  let mass_fraction ← (match db.mass_fraction with
    | some tmp_Y =>
        if tmp_Y.length < d_num_species - 1 then
          throw (StateFault.tbox_error "Insufficient number of 'mass_fraction' values.")
        else storeFractionsChecked d_num_species array_indx tmp_Y v.mass_fraction
    | none => throw (StateFault.tbox_error "'mass_fraction' entry missing from input database."))
  pure { v with density := density, momentum := momentum, total_energy := total_energy,
                mass_fraction := mass_fraction }

/-! ## Boundary state entries in an arithmetic -/

/-- The writes of the fractions in `readStateDataEntryForFourEqnShyue` (mass fractions) and
`readStateDataEntryForFiveEqnAllaire` (volume fractions), with the bounds of the vector:
`double Y_last = 1.0;`, then for `si < N - 1` the write of `tmp_Y[si]` in the slot
`array_indx*N + si` and `Y_last -= tmp_Y[si]`, then the write of `Y_last` in the slot
`(array_indx + 1)*N - 1`. `sub` is the subtraction of the arithmetic and `name` the vector
named in a fault. -/
def storeFractions (sub : ℚ → ℚ → ℚ) (name : String) (d_num_species array_indx : Nat)
    (tmp_Y : List ℚ) (fraction : List DoubleValue) : Except StateFault (List DoubleValue) :=
  (forLoop (d_num_species - 1) (fun si (r : Except StateFault (List DoubleValue × ℚ)) =>
    r.bind (fun st =>
    (storeAt name st.1 (array_indx * d_num_species + si) (tmp_Y.getD si 0)).map
      (fun f => (f, sub st.2 (tmp_Y.getD si 0))))) (pure (fraction, 1))).bind
    (fun st => storeAt name st.1 ((array_indx + 1) * d_num_species - 1) st.2)

/-- The loop `for (si = 0; si < d_num_species; si++)
partial_density[array_indx*d_num_species + si] = tmp_Z_rho[si];` with the bounds of
`partial_density`. -/
def storePartialDensities (d_num_species array_indx : Nat) (tmp_Z_rho : List ℚ)
    (partial_density : List DoubleValue) : Except StateFault (List DoubleValue) :=
  forLoop d_num_species (fun si r => r.bind (fun pd =>
    storeAt "partial_density" pd (array_indx * d_num_species + si) (tmp_Z_rho.getD si 0)))
    (pure partial_density)

/-- The routine `Euler::readStateDataEntryForFourEqnShyue` with its assertions, its errors
and the bounds of the vectors, in the arithmetic whose subtraction is `sub`. `array_indx`
is not negative. With the exact subtraction this is
`readStateDataEntryForFourEqnShyueChecked`. -/
def readStateDataEntryForFourEqnShyue (sub : ℚ → ℚ → ℚ) (d_dim d_num_species : Nat)
    (db : StateDatabase) (array_indx : Nat) (v : StateVectors) :
    Except StateFault StateVectors := do
  tboxAssert (decide (v.density.length > array_indx)) "density.size() > array_indx"
  tboxAssert (decide (v.momentum.length > array_indx * d_dim))
    "momentum.size() > array_indx*d_dim.getValue()"
  tboxAssert (decide (v.total_energy.length > array_indx)) "total_energy.size() > array_indx"
  tboxAssert (decide (v.mass_fraction.length > array_indx * d_num_species))
    "mass_fraction.size() > array_indx*d_num_species"
  let density ← (match db.density with
    | some x => storeAt "density" v.density array_indx x
    | none => throw (StateFault.tbox_error "'density' entry missing from input database."))
  let momentum ← (match db.momentum with
    | some tmp_m =>
        if tmp_m.length < d_dim then
          throw (StateFault.tbox_error "Insufficient number of 'momentum' values.")
        else storeMomentumChecked d_dim array_indx tmp_m v.momentum
    | none => throw (StateFault.tbox_error "'momentum' entry missing from input database."))
  let total_energy ← (match db.total_energy with
    | some x => storeAt "total_energy" v.total_energy array_indx x
    | none => throw (StateFault.tbox_error "'total_energy' entry missing from input database."))
  let mass_fraction ← (match db.mass_fraction with
    | some tmp_Y =>
        if tmp_Y.length < d_num_species - 1 then
          throw (StateFault.tbox_error "Insufficient number of 'mass_fraction' values.")
        else storeFractions sub "mass_fraction" d_num_species array_indx tmp_Y v.mass_fraction
    | none => throw (StateFault.tbox_error "'mass_fraction' entry missing from input database."))
  pure { v with density := density, momentum := momentum, total_energy := total_energy,
                mass_fraction := mass_fraction }

/-- The routine `Euler::readStateDataEntryForFiveEqnAllaire` with its assertions, its errors
and the bounds of the vectors, in the arithmetic whose subtraction is `sub`. `array_indx`
is not negative. -/
def readStateDataEntryForFiveEqnAllaire (sub : ℚ → ℚ → ℚ) (d_dim d_num_species : Nat)
    (db : StateDatabase) (array_indx : Nat) (v : StateVectors) :
    Except StateFault StateVectors := do
  tboxAssert (decide (v.partial_density.length > array_indx * d_num_species))
    "partial_density.size() > array_indx*d_num_species"
  tboxAssert (decide (v.momentum.length > array_indx * d_dim))
    "momentum.size() > array_indx*d_dim.getValue()"
  tboxAssert (decide (v.total_energy.length > array_indx)) "total_energy.size() > array_indx"
  tboxAssert (decide (v.volume_fraction.length > array_indx * d_num_species))
    "volume_fraction.size() > array_indx*d_num_species"
  let partial_density ← (match db.partial_density with
    | some tmp_Z_rho =>
        if tmp_Z_rho.length < d_num_species then
          throw (StateFault.tbox_error "Insufficient number of 'partial_density' values.")
        else storePartialDensities d_num_species array_indx tmp_Z_rho v.partial_density
    | none =>
        throw (StateFault.tbox_error "'partial_density' entry missing from input database."))
  let momentum ← (match db.momentum with
    | some tmp_m =>
        if tmp_m.length < d_dim then
          throw (StateFault.tbox_error "Insufficient number of 'momentum' values.")
        else storeMomentumChecked d_dim array_indx tmp_m v.momentum
    | none => throw (StateFault.tbox_error "'momentum' entry missing from input database."))
  let total_energy ← (match db.total_energy with
    | some x => storeAt "total_energy" v.total_energy array_indx x
    | none => throw (StateFault.tbox_error "'total_energy' entry missing from input database."))
  let volume_fraction ← (match db.volume_fraction with
    | some tmp_Z =>
        if tmp_Z.length < d_num_species - 1 then
          throw (StateFault.tbox_error "Insufficient number of 'volume_fraction' values.")
        else
          storeFractions sub "volume_fraction" d_num_species array_indx tmp_Z v.volume_fraction
    | none =>
        throw (StateFault.tbox_error "'volume_fraction' entry missing from input database."))
  pure { v with partial_density := partial_density, momentum := momentum,
                total_energy := total_energy, volume_fraction := volume_fraction }

/-- The subtraction of exact (real) arithmetic. -/
def exactSub (x y : ℚ) : ℚ := x - y

/-! ## Double-precision arithmetic -/

/-- The integer nearest to `n / d`, the even one of the two when `n / d` lies half way
between two integers: the rounding "to nearest, ties to even" of IEEE 754. -/
def roundHalfEven (n d : Nat) : Nat :=
  if 2 * (n % d) < d then n / d
  else if d < 2 * (n % d) then n / d + 1
  else if (n / d) % 2 = 0 then n / d
  else n / d + 1

/-- The fraction `n / d` divided by `2^e`, as a numerator and a denominator. -/
def scaleByPowerOfTwo (n d : Nat) (e : Int) : Nat × Nat :=
  if 0 ≤ e then (n, d * 2 ^ e.toNat) else (n * 2 ^ (-e).toNat, d)

/-- The number of binary digits of `n`, counted with at most `fuel` halvings. -/
def binaryDigits (fuel n : Nat) : Nat :=
  match fuel with
  | 0 => 0
  | fuel + 1 => if n = 0 then 0 else binaryDigits fuel (n / 2) + 1

/-- The exponent `e` of the last bit of the double nearest to `n / d > 0`: the largest `e`
with `2^52 <= (n / d) / 2^e`, so that the significand `(n / d) / 2^e` lies in
`[2^52, 2^53)`, and not below `-1074`, the exponent of the subnormal numbers. The
difference of the numbers of binary digits of `n` and `d` is the binary logarithm of `n / d`
up to one, and the comparison settles which. -/
def lastBitExponent (n d : Nat) : Int :=
  let s : Int := (binaryDigits n n : Int) - (binaryDigits d d : Int) - 52
  let e : Int :=
    if (scaleByPowerOfTwo n d s).1 < 2 ^ 52 * (scaleByPowerOfTwo n d s).2 then s - 1 else s
  max e (-1074)

/-- The double (IEEE 754 binary64: a significand of 53 bits) nearest to the rational `x`,
ties to even. Overflow to infinity is not modelled. -/
def roundToDouble (x : ℚ) : ℚ :=
  if x.num = 0 then 0
  else
    let e := lastBitExponent x.num.natAbs x.den
    let m := roundHalfEven (scaleByPowerOfTwo x.num.natAbs x.den e).1
      (scaleByPowerOfTwo x.num.natAbs x.den e).2
    let r : ℚ := if 0 ≤ e then ((m * 2 ^ e.toNat : Nat) : ℚ) else mkRat (m : Int) (2 ^ (-e).toNat)
    if x.num < 0 then -r else r

/-- The subtraction of two doubles: the exact difference, rounded. -/
def doubleSub (x y : ℚ) : ℚ := roundToDouble (x - y)

/-- The addition of two doubles: the exact sum, rounded. -/
def doubleAdd (x y : ℚ) : ℚ := roundToDouble (x + y)

/-! ## The refinement data of the input -/

/-- The sub-database of one refinement criterion: the vector under `shock_tol`, if the key
is there. -/
structure CriterionDatabase where
  shock_tol : Option (List DoubleValue)

/-- The database `Refinement_data` of the input: the string array under `refine_criteria`,
if the key is there, and the other keys, each with its sub-database. -/
structure RefinementDatabase where
  refine_criteria : Option (List String)
  databases : List (String × CriterionDatabase)

/-- The call `refine_db->getAllKeys()`. -/
def RefinementDatabase.getAllKeys (refine_db : RefinementDatabase) : List String :=
  (match refine_db.refine_criteria with
    | some _ => ["refine_criteria"]
    | none => []) ++ refine_db.databases.map Prod.fst

/-- The call `refine_db->getDatabase(key)`. -/
def RefinementDatabase.getDatabase (refine_db : RefinementDatabase) (key : String) :
    Option CriterionDatabase :=
  refine_db.databases.lookup key

/-- The names of the sub-databases of `Refinement_data`: its keys other than
`refine_criteria`. -/
def RefinementDatabase.subDatabaseNames (refine_db : RefinementDatabase) : List String :=
  refine_db.getAllKeys.filter (fun key => key ≠ "refine_criteria")

/-- The loop over `refinement_keys` in `getFromInput`: the state is the object and the
keys stored in `ref_keys_defined` so far. -/
def refinementKeyLoop (refine_db : RefinementDatabase) :
    List String → EulerObject × List String → Except String (EulerObject × List String)
  | [], st => pure st
  | error_key :: rest, (E, ref_keys_defined) =>
    if ¬ (error_key = "refine_criteria") then
      if ¬ (error_key = "DENSITY_SHOCK" ∨ error_key = "PRESSURE_SHOCK") then
        throw ("Unknown refinement criteria: " ++ error_key ++ "\nin input.")
      else
        match refine_db.getDatabase error_key with
        | none => throw ("Key=" ++ error_key ++ " is not a database.")
        | some error_db =>
          Except.bind
            (if error_key = "DENSITY_SHOCK" then
              (match error_db.shock_tol with
                | some tol => pure { E with d_density_shock_tol := tol }
                | none => throw ("No key 'shock_tol' found in data for " ++ error_key ++ "."))
            else pure E)
            (fun E1 => Except.bind
              (if error_key = "PRESSURE_SHOCK" then
                (match error_db.shock_tol with
                  | some tol => pure { E1 with d_pressure_shock_tol := tol }
                  | none =>
                    throw ("No key 'shock_tol' found in data for " ++ error_key ++ "."))
              else pure E1)
              (fun E2 =>
                refinementKeyLoop refine_db rest (E2, ref_keys_defined ++ [error_key])))
    else refinementKeyLoop refine_db rest (E, ref_keys_defined)

/-- The loop over `d_refinement_criteria` in `getFromInput`: every entry has to be one of
the keys stored in `ref_keys_defined`. -/
def checkRefinementCriteria (ref_keys_defined : List String) :
    List String → Except String Unit
  | [] => pure ()
  | use_key :: rest =>
    let key_found := ref_keys_defined.any (fun def_key => decide (def_key = use_key))
    if ¬ key_found then
      throw ("No input found for specified refine criteria: " ++ use_key ++ ".")
    else checkRefinementCriteria ref_keys_defined rest

/-- The block of `Euler::getFromInput` on the key `Refinement_data` of the input
(`none`: the key is absent). -/
def getFromInput_refinement (Refinement_data : Option RefinementDatabase) (E : EulerObject) :
    Except String EulerObject :=
  match Refinement_data with
  | none => pure E
  | some refine_db =>
    let refinement_keys := refine_db.getAllKeys
    let E0 := match refine_db.refine_criteria with
      | some criteria => { E with d_refinement_criteria := criteria }
      | none => E
    Except.bind (refinementKeyLoop refine_db refinement_keys (E0, [])) (fun st =>
      Except.bind (checkRefinementCriteria st.2 st.1.d_refinement_criteria)
        (fun _ => pure st.1))

/-! ## The derived plot data -/

/-- The calls of `packDerivedDataIntoDoubleBuffer` into the equation of state. The arguments
are the density (for `FIVE_EQN_ALLAIRE` the partial densities), the momentum components,
the total energy and the first `N - 1` mass or volume fractions of one cell. -/
structure DerivedEquationOfState where
  getPressure : ℚ → List ℚ → ℚ → ℚ
  getPressureWithMassFraction : ℚ → List ℚ → ℚ → List ℚ → ℚ
  getPressureWithVolumeFraction : List ℚ → List ℚ → ℚ → List ℚ → ℚ
  getSoundSpeed : ℚ → List ℚ → ℚ → ℚ
  getSoundSpeedWithMassFraction : ℚ → List ℚ → ℚ → List ℚ → ℚ
  getSoundSpeedWithVolumeFraction : List ℚ → List ℚ → ℚ → List ℚ → ℚ
  getTotalDensity : List ℚ → ℚ

/-- The call `s.substr(pos)` of the C++ library: the characters of `s` from position `pos`
on; the call throws `std::out_of_range` when `pos > s.size()` (`none`). -/
def substr (s : String) (pos : Nat) : Option String :=
  if pos ≤ s.length then some (String.mk (s.data.drop pos)) else none

/-- The linear index `idx_region` of the cell `(i, j, k)` of the region in the buffer. -/
def idx_region (E : Euler) (region_dims : Nat → Nat) (i j k : Nat) : Nat :=
  if E.d_dim = 1 then i
  else if E.d_dim = 2 then i + j * region_dims 0
  else i + j * region_dims 0 + k * region_dims 0 * region_dims 1

/-- The linear index `idx_data` of the cell `(i, j, k)` of the region in the patch data;
`offset_data` is `data_box.offset(region.lower())`. -/
def idx_data (E : Euler) (data_dims : Nat → Nat) (offset_data i j k : Nat) : Nat :=
  if E.d_dim = 1 then offset_data + i
  else if E.d_dim = 2 then offset_data + i + j * data_dims 0
  else offset_data + i + j * data_dims 0 + k * data_dims 0 * data_dims 1

/-- The loop nest over the cells of the region: `i` in 1D, `j` then `i` in 2D, `k`, `j` then
`i` in 3D; no cell is visited for another dimension. -/
def regionLoop {σ : Type} (E : Euler) (region_dims : Nat → Nat)
    (body : Nat → Nat → Nat → σ → σ) (s : σ) : σ :=
  if E.d_dim = 1 then
    forLoop (region_dims 0) (fun i => body i 0 0) s
  else if E.d_dim = 2 then
    forLoop (region_dims 1) (fun j => forLoop (region_dims 0) (fun i => body i j 0)) s
  else if E.d_dim = 3 then
    forLoop (region_dims 2) (fun k =>
      forLoop (region_dims 1) (fun j =>
        forLoop (region_dims 0) (fun i => body i j k))) s
  else s

/-- The loops of one branch of `packDerivedDataIntoDoubleBuffer`: for every cell of the
region, `buffer[idx_region] = value(idx_data)`, where `value` is the expression of the
branch on the data of the cell. -/
def packRegion (E : Euler) (data_dims region_dims : Nat → Nat) (offset_data : Nat)
    (value : Nat → ℚ) (buffer : Nat → ℚ) : Nat → ℚ :=
  regionLoop E region_dims (fun i j k buffer =>
    let idx_data := idx_data E data_dims offset_data i j k
    let idx_region := idx_region E region_dims i j k
    fun n => if n = idx_region then value idx_data else buffer n) buffer

/-- The routine `Euler::packDerivedDataIntoDoubleBuffer`: the result is the buffer and the
value `data_on_patch` returned. `U` is the data of the plot context, `stoi` the C++ library
function (`none` when it throws). The assertions of debug builds are left out; an index
`species_idx` outside `Z_rho` is an error. -/
def packDerivedDataIntoDoubleBuffer (E : Euler) (eos : DerivedEquationOfState)
    (stoi : String → Option Int) (U : CellFields) (data_dims region_dims : Nat → Nat)
    (offset_data : Nat) (variable_name : String) (depth_id : Nat) (buffer : Nat → ℚ) :
    Except String ((Nat → ℚ) × Bool) :=
  let pack := packRegion E data_dims region_dims offset_data
  let m_ptr := fun idx => (List.range E.d_dim).map (fun di => U.momentum di idx)
  let Y_ptr := fun idx => (List.range (E.d_num_species - 1)).map (fun si => U.mass_fraction si idx)
  let Z_ptr := fun idx =>
    (List.range (E.d_num_species - 1)).map (fun si => U.volume_fraction si idx)
  let Z_rho_ptr := fun idx =>
    (List.range E.d_num_species).map (fun si => U.partial_density si idx)
  if variable_name = "pressure" then
    match E.d_flow_model with
    | SINGLE_SPECIES =>
        pure (pack (fun idx =>
          eos.getPressure (U.density idx) (m_ptr idx) (U.total_energy idx)) buffer, true)
    | FOUR_EQN_SHYUE =>
        pure (pack (fun idx => eos.getPressureWithMassFraction (U.density idx) (m_ptr idx)
          (U.total_energy idx) (Y_ptr idx)) buffer, true)
    | FIVE_EQN_ALLAIRE =>
        pure (pack (fun idx => eos.getPressureWithVolumeFraction (Z_rho_ptr idx) (m_ptr idx)
          (U.total_energy idx) (Z_ptr idx)) buffer, true)
  else if variable_name = "sound speed" then
    match E.d_flow_model with
    | SINGLE_SPECIES =>
        pure (pack (fun idx =>
          eos.getSoundSpeed (U.density idx) (m_ptr idx) (U.total_energy idx)) buffer, true)
    | FOUR_EQN_SHYUE =>
        pure (pack (fun idx => eos.getSoundSpeedWithMassFraction (U.density idx) (m_ptr idx)
          (U.total_energy idx) (Y_ptr idx)) buffer, true)
    | FIVE_EQN_ALLAIRE =>
        pure (pack (fun idx => eos.getSoundSpeedWithVolumeFraction (Z_rho_ptr idx) (m_ptr idx)
          (U.total_energy idx) (Z_ptr idx)) buffer, true)
  else if variable_name = "velocity" then
    match E.d_flow_model with
    | SINGLE_SPECIES =>
        pure (pack (fun idx => U.momentum depth_id idx / U.density idx) buffer, true)
    | FOUR_EQN_SHYUE =>
        pure (pack (fun idx => U.momentum depth_id idx / U.density idx) buffer, true)
    | FIVE_EQN_ALLAIRE =>
        pure (pack (fun idx =>
          let rho := eos.getTotalDensity (Z_rho_ptr idx)
          U.momentum depth_id idx / rho) buffer, true)
  else if variable_name = "density" then
    match E.d_flow_model with
    | SINGLE_SPECIES => throw "'Density' is already registered."
    | FOUR_EQN_SHYUE => throw "'Density' is already registered."
    | FIVE_EQN_ALLAIRE =>
        pure (pack (fun idx => eos.getTotalDensity (Z_rho_ptr idx)) buffer, true)
  else if "mass fraction".data <:+: variable_name.data then
    match E.d_flow_model with
    | SINGLE_SPECIES => throw "'Mass fraction' of single-species cannot be registered."
    | FOUR_EQN_SHYUE => throw "'Mass fraction' is already registered."
    | FIVE_EQN_ALLAIRE =>
        match substr variable_name 14 with
        | none => throw "std::out_of_range"
        | some digits =>
          match stoi digits with
          | none => throw "std::invalid_argument"
          | some species_idx =>
            if 0 ≤ species_idx ∧ species_idx < E.d_num_species then
              pure (pack (fun idx =>
                let rho := eos.getTotalDensity (Z_rho_ptr idx)
                U.partial_density species_idx.toNat idx / rho) buffer, true)
            else throw "species_idx outside Z_rho"
  else throw ("unknown variable_name " ++ variable_name)

/-- The cell `(i, j, k)` lies in the region (the unused coordinates are zero in 1D and
2D). -/
def regionCell (E : Euler) (region_dims : Nat → Nat) (i j k : Nat) : Prop :=
  (E.d_dim = 1 ∧ i < region_dims 0 ∧ j = 0 ∧ k = 0) ∨
  (E.d_dim = 2 ∧ i < region_dims 0 ∧ j < region_dims 1 ∧ k = 0) ∨
  (E.d_dim = 3 ∧ i < region_dims 0 ∧ j < region_dims 1 ∧ k < region_dims 2)

instance (E : Euler) (region_dims : Nat → Nat) (i j k : Nat) :
    Decidable (regionCell E region_dims i j k) := by
  unfold regionCell; infer_instance

/-- The position, in an array that holds the cells of a box of `dims` cells with the first
index running fastest (the layout of the plot buffer and of SAMRAI's cell data), of the
cell that lies `x`, `y` and `z` cells from the lower corner of the box. Written from the
layout of the arrays, not from the code. -/
def boxPosition (dims : Nat → Nat) (x y z : Nat) : Nat :=
  x + dims 0 * (y + dims 1 * z)

/-! ## Concrete inputs -/

/-- A 1D object with two species in the four-equation model and one ghost cell. -/
def exEuler1D : Euler :=
  { d_dim := 1, d_flow_model := FOUR_EQN_SHYUE, d_num_species := 2, d_num_eqn := 4,
    d_num_ghosts := fun _ => 1 }

/-- A patch with two interior cells in every direction and unit grid spacing. -/
def exPatch : Patch :=
  { interior_dims := fun _ => 2, dx := fun _ => 1 }

/-- Patch data holding one half in every cell variable, and zero flux and source. -/
def exHalf : PatchData :=
  { Q := fun _ _ => 1 / 2, F := fun _ _ _ => 0, S := fun _ _ => 0 }

/-- A 3D single-species object with one ghost cell in every direction. -/
def exEuler3D : Euler :=
  { d_dim := 3, d_flow_model := SINGLE_SPECIES, d_num_species := 1, d_num_eqn := 5,
    d_num_ghosts := fun _ => 1 }

/-- A patch with a single interior cell and unit grid spacing. -/
def exPatchUnit : Patch :=
  { interior_dims := fun _ => 1, dx := fun _ => 1 }

/-- Patch data holding zero everywhere. -/
def exZero : PatchData :=
  { Q := fun _ _ => 0, F := fun _ _ _ => 0, S := fun _ _ => 0 }

/-- Patch data holding one everywhere. -/
def exOnes : PatchData :=
  { Q := fun _ _ => 1, F := fun _ _ _ => 1, S := fun _ _ => 1 }

/-- A 1D single-species object with the default boundary data, one refinement criterion
and its tolerance. -/
def exObject : EulerObject :=
  { setDefaultBoundaryConditions (EulerObject.fresh 1 SINGLE_SPECIES 1 3) with
    d_project_name := "shock tube",
    d_num_ghosts := [4],
    d_refinement_criteria := ["DENSITY_SHOCK"],
    d_density_shock_tol := [DoubleValue.value (1 / 2)] }

/-- The root restart database holding what `putToRestart` writes for the object `E` under
the name `d_object_name`, with empty sub-databases of the collaborators. -/
def restartOf (d_object_name : String) (E : EulerObject) : Database :=
  Database.put [] d_object_name (DbValue.database (putToRestart E [] [] []))

/-- A boundary state database with one momentum component and three fraction values. -/
def exStateDb : StateDatabase :=
  { density := some 1, partial_density := some [1 / 2, 1 / 2, 1 / 4], momentum := some [0],
    total_energy := some (5 / 2), mass_fraction := some [1 / 4, 1 / 2, 7],
    volume_fraction := some [1 / 8, 1 / 8, 9] }

/-- Boundary state vectors of a 1D object with three species (two boundary nodes), filled
with the signaling NaN. -/
def exStateVectors : StateVectors :=
  { density := List.replicate 2 DoubleValue.signalingNaN,
    partial_density := List.replicate 6 DoubleValue.signalingNaN,
    momentum := List.replicate 2 DoubleValue.signalingNaN,
    total_energy := List.replicate 2 DoubleValue.signalingNaN,
    mass_fraction := List.replicate 6 DoubleValue.signalingNaN,
    volume_fraction := List.replicate 6 DoubleValue.signalingNaN }

/-- An ideal-gas-like equation of state for the examples: the total density is the sum of
the partial densities and the sound speed is one. -/
def exEos : EquationOfState :=
  { getSoundSpeed := fun _ _ _ => 1,
    getSoundSpeedWithMassFraction := fun _ _ _ _ => 1,
    getTotalDensity := fun l => l.sum,
    getSoundSpeedWithVolumeFraction := fun _ _ _ _ => 1 }

/-- Cell data with unit density, momentum two in every direction and unit fractions. -/
def exFields : CellFields :=
  { density := fun _ => 1, partial_density := fun _ _ => 1, momentum := fun _ _ => 2,
    total_energy := fun _ => 5, mass_fraction := fun _ _ => 1, volume_fraction := fun _ _ => 1 }

/-- A stand-in for the C library `atoi` on the example command lines: the decimal value of
the string, zero when it is not a number. -/
def exAtoi (s : String) : Int :=
  s.toInt?.getD 0

/-- An ideal gas with `γ = 7/5` for the examples, the sound speed replaced by the rational
`1 + p/ρ` (positive for positive pressure and density). -/
def exRiemannEOS : RiemannEOS :=
  { soundSpeed := fun W => 1 + W.p / W.rho,
    totalEnergy := fun W => W.p / (7 / 5 - 1) + W.rho * W.u * W.u / 2 }

/-- A 1D patch of three cells with spacing `1/2`. -/
def exPatch3 : Patch :=
  { interior_dims := fun _ => 3, dx := fun _ => 1 / 2 }

/-- Patch data with different values in every entry. -/
def exRamp : PatchData :=
  { Q := fun e c => (e : ℚ) + 10 * c,
    F := fun _ e c => (e : ℚ) + (c : ℚ) ^ 2,
    S := fun e c => (e : ℚ) * c }

/-- A 3D object of the five-equation model with two species. -/
def exEuler3DFive : Euler :=
  { d_dim := 3, d_flow_model := FIVE_EQN_ALLAIRE, d_num_species := 2, d_num_eqn := 7,
    d_num_ghosts := fun _ => 2 }

/-- A 3D patch of `2 x 3 x 4` cells. -/
def exPatch234 : Patch :=
  { interior_dims := fun d => d + 2, dx := fun _ => 1 }

/-- State vectors of one entry each, as left by `setVectorToSignalingNaN`. -/
def exShortVectors : StateVectors :=
  { density := [DoubleValue.signalingNaN], partial_density := [],
    momentum := [DoubleValue.signalingNaN], total_energy := [DoubleValue.signalingNaN],
    mass_fraction := [DoubleValue.signalingNaN], volume_fraction := [] }

/-- State vectors for two boundary locations in 2D with two species. -/
def exLongVectors : StateVectors :=
  { density := List.replicate 2 DoubleValue.signalingNaN, partial_density := [],
    momentum := List.replicate 4 DoubleValue.signalingNaN,
    total_energy := List.replicate 2 DoubleValue.signalingNaN,
    mass_fraction := List.replicate 4 DoubleValue.signalingNaN, volume_fraction := [] }

/-- A boundary state database holding every key, with two momentum components and two mass
fractions. -/
def exFullStateDb : StateDatabase :=
  { density := some 1, partial_density := some [1 / 2, 1 / 2], momentum := some [2, 3],
    total_energy := some 4, mass_fraction := some [1 / 4, 3 / 4],
    volume_fraction := some [1 / 4, 3 / 4] }

/-- A `Refinement_data` database with the criterion `DENSITY_SHOCK` and its
sub-database. -/
def exRefinementDb : RefinementDatabase :=
  { refine_criteria := some ["DENSITY_SHOCK"],
    databases := [("DENSITY_SHOCK", { shock_tol := some [DoubleValue.value (1 / 2)] })] }

/-- An equation of state for the examples of the plot data: the total density is the sum of
the partial densities, the pressure and the sound speed are one. -/
def exDerivedEos : DerivedEquationOfState :=
  { getPressure := fun _ _ _ => 1,
    getPressureWithMassFraction := fun _ _ _ _ => 1,
    getPressureWithVolumeFraction := fun _ _ _ _ => 1,
    getSoundSpeed := fun _ _ _ => 1,
    getSoundSpeedWithMassFraction := fun _ _ _ _ => 1,
    getSoundSpeedWithVolumeFraction := fun _ _ _ _ => 1,
    getTotalDensity := fun l => l.sum }

/-- A stand-in for the C++ library `std::stoi` on the example names: the decimal value of
a non-empty string of digits, `none` for another string. -/
def exStoi (s : String) : Option Int :=
  match s.data with
  | [] => none
  | c :: cs =>
    if (c :: cs).all Char.isDigit then
      some (((c :: cs).foldl (fun n d => 10 * n + (d.toNat - 48)) 0 : Nat) : Int)
    else none

/-- The decimal digits of `n`, most significant first, computed in at most `fuel` steps. -/
def exDigits : Nat → Nat → List Char
  | 0, _ => []
  | fuel + 1, n =>
    if n < 10 then [Char.ofNat (48 + n)]
    else exDigits fuel (n / 10) ++ [Char.ofNat (48 + n % 10)]

/-- A stand-in for `tbox::Utilities::intToString` on the example species: the decimal
digits of `n`. -/
def exIntToString (n : Nat) : String :=
  String.mk (exDigits (n + 1) n)

/-- Cell data whose partial densities are `1` for the first species and `3` for the
second. -/
def exPartialFields : CellFields :=
  { density := fun _ => 0, partial_density := fun si _ => 2 * (si : ℚ) + 1,
    momentum := fun _ _ => 2, total_energy := fun _ => 5, mass_fraction := fun _ _ => 0,
    volume_fraction := fun _ _ => 1 / 2 }

/-- A 2D object of the five-equation model with two species, without ghost cells in the
plot data. -/
def exEuler2DFive : Euler :=
  { d_dim := 2, d_flow_model := FIVE_EQN_ALLAIRE, d_num_species := 2, d_num_eqn := 6,
    d_num_ghosts := fun _ => 0 }

/-- A boundary state database whose mass and volume fractions are the doubles nearest to
`0.3` and `0.6`. -/
def exDoubleStateDb : StateDatabase :=
  { density := some 1, partial_density := some [1 / 2, 1 / 4, 1 / 4], momentum := some [0],
    total_energy := some (5 / 2),
    mass_fraction := some [roundToDouble (3 / 10), roundToDouble (6 / 10)],
    volume_fraction := some [roundToDouble (3 / 10), roundToDouble (6 / 10)] }

/-- State vectors of one entry each. -/
def exOneSlotVectors : StateVectors :=
  { density := [DoubleValue.signalingNaN], partial_density := [DoubleValue.signalingNaN],
    momentum := [DoubleValue.signalingNaN], total_energy := [DoubleValue.signalingNaN],
    mass_fraction := [DoubleValue.signalingNaN], volume_fraction := [DoubleValue.signalingNaN] }

/-! ## Loops -/

theorem forLoop_zero {σ : Type} (body : Nat → σ → σ) (s : σ) : forLoop 0 body s = s := rfl

theorem forLoop_succ {σ : Type} (n : Nat) (body : Nat → σ → σ) (s : σ) :
    forLoop (n + 1) body s = body n (forLoop n body s) := rfl

/-- A projection that commutes with every pass commutes with the loop. -/
theorem forLoop_map {σ τ : Type} (π : σ → τ) (body : Nat → σ → σ) (body2 : Nat → τ → τ)
    (n : Nat) (h : ∀ t, t < n → ∀ s, π (body t s) = body2 t (π s)) (s : σ) :
    π (forLoop n body s) = forLoop n body2 (π s) := by
  induction n with
  | zero => rfl
  | succ m ih =>
    rw [forLoop_succ, forLoop_succ, h m (Nat.lt_succ_self m),
      ih (fun t ht => h t (Nat.lt_succ_of_lt ht))]

/-- Two loops whose passes agree in the range of the counter are equal. -/
theorem forLoop_congr {σ : Type} (body body2 : Nat → σ → σ) (n : Nat)
    (h : ∀ t, t < n → ∀ s, body t s = body2 t s) (s : σ) :
    forLoop n body s = forLoop n body2 s := by
  have := forLoop_map (fun x : σ => x) body body2 n h s
  simpa using this

/-- A loop that acts in a single pass `t0` only. -/
theorem forLoop_single {σ : Type} (f : σ → σ) (t0 n : Nat) (s : σ) :
    forLoop n (fun t x => if t = t0 then f x else x) s = if t0 < n then f s else s := by
  induction n with
  | zero => simp [forLoop]
  | succ m ih =>
    rw [forLoop_succ, ih]
    by_cases h1 : m = t0
    · subst h1; simp
    · by_cases h2 : t0 < m
      · have : t0 < m + 1 := Nat.lt_succ_of_lt h2
        simp [h1, h2, this]
      · have : ¬ t0 < m + 1 := by omega
        simp [h1, h2, this]

/-- A loop none of whose passes changes the state. -/
theorem forLoop_id {σ : Type} (body : Nat → σ → σ) (n : Nat)
    (h : ∀ t, t < n → ∀ s, body t s = s) (s : σ) : forLoop n body s = s := by
  induction n with
  | zero => rfl
  | succ m ih =>
    rw [forLoop_succ, h m (Nat.lt_succ_self m), ih (fun t ht => h t (Nat.lt_succ_of_lt ht))]

/-- A loop that acts in the pass `t0` only, the other passes keeping the state. -/
theorem forLoop_select {σ : Type} (body : Nat → σ → σ) (f : σ → σ) (t0 n : Nat) (ht : t0 < n)
    (h0 : ∀ s, body t0 s = f s) (hne : ∀ t, t < n → t ≠ t0 → ∀ s, body t s = s) (s : σ) :
    forLoop n body s = f s := by
  rw [forLoop_congr body (fun t x => if t = t0 then f x else x) n, forLoop_single, if_pos ht]
  intro t htn x
  by_cases h : t = t0
  · subst h; simp [h0]
  · simp [h, hne t htn h]

theorem cellLoop_map {σ τ : Type} (E : Euler) (P : Patch) (π : σ → τ)
    (body : Nat → Nat → Nat → σ → σ) (body2 : Nat → Nat → Nat → τ → τ)
    (h : ∀ i j k s, π (body i j k s) = body2 i j k (π s)) (s : σ) :
    π (cellLoop E P body s) = cellLoop E P body2 (π s) := by
  unfold cellLoop
  split_ifs
  · exact forLoop_map π _ _ _ (fun i _ x => h i 0 0 x) s
  · exact forLoop_map π _ _ _
      (fun j _ x => forLoop_map π _ _ _ (fun i _ y => h i j 0 y) x) s
  · exact forLoop_map π _ _ _
      (fun k _ x => forLoop_map π _ _ _
        (fun j _ y => forLoop_map π _ _ _ (fun i _ z => h i j k z) y) x) s
  · rfl

/-- A cell loop whose body acts in the interior cell `(i0, j0, k0)` only. -/
theorem cellLoop_select {σ : Type} (E : Euler) (P : Patch) (body : Nat → Nat → Nat → σ → σ)
    (f : σ → σ) (i0 j0 k0 : Nat) (hc : interiorCell E P i0 j0 k0)
    (h0 : ∀ s, body i0 j0 k0 s = f s)
    (hne : ∀ i j k, interiorCell E P i j k → ¬ (i = i0 ∧ j = j0 ∧ k = k0) →
      ∀ s, body i j k s = s) (s : σ) :
    cellLoop E P body s = f s := by
  unfold cellLoop
  rcases hc with ⟨hd, hi, hj, hk⟩ | ⟨hd, hi, hj, hk⟩ | ⟨hd, hi, hj, hk⟩
  · subst hj hk
    rw [if_pos hd]
    refine forLoop_select _ f i0 _ hi h0 (fun i hin hi0 x => ?_) s
    exact hne i 0 0 (Or.inl ⟨hd, hin, rfl, rfl⟩) (fun h => hi0 h.1) x
  · subst hk
    have h1 : ¬ E.d_dim = 1 := by omega
    rw [if_neg h1, if_pos hd]
    refine forLoop_select _ f j0 _ hj (fun x => ?_) (fun j hjn hj0 x => ?_) s
    · refine forLoop_select _ f i0 _ hi h0 (fun i hin hi0 y => ?_) x
      exact hne i j0 0 (Or.inr (Or.inl ⟨hd, hin, hj, rfl⟩)) (fun h => hi0 h.1) y
    · refine forLoop_id _ _ (fun i hin y => ?_) x
      exact hne i j 0 (Or.inr (Or.inl ⟨hd, hin, hjn, rfl⟩)) (fun h => hj0 h.2.1) y
  · have h1 : ¬ E.d_dim = 1 := by omega
    have h2 : ¬ E.d_dim = 2 := by omega
    rw [if_neg h1, if_neg h2, if_pos hd]
    refine forLoop_select _ f k0 _ hk (fun x => ?_) (fun k hkn hk0 x => ?_) s
    · refine forLoop_select _ f j0 _ hj (fun y => ?_) (fun j hjn hj0 y => ?_) x
      · refine forLoop_select _ f i0 _ hi h0 (fun i hin hi0 z => ?_) y
        exact hne i j0 k0 (Or.inr (Or.inr ⟨hd, hin, hj, hk⟩)) (fun h => hi0 h.1) z
      · refine forLoop_id _ _ (fun i hin z => ?_) y
        exact hne i j k0 (Or.inr (Or.inr ⟨hd, hin, hjn, hk⟩)) (fun h => hj0 h.2.1) z
    · refine forLoop_id _ _ (fun j hjn y => ?_) x
      refine forLoop_id _ _ (fun i hin z => ?_) y
      exact hne i j k (Or.inr (Or.inr ⟨hd, hin, hjn, hkn⟩)) (fun h => hk0 h.2.2) z

/-! ## Linear indices -/

theorem radix_inj (G a b a2 b2 : Nat) (ha : a < G) (ha2 : a2 < G)
    (h : a + b * G = a2 + b2 * G) : a = a2 ∧ b = b2 := by
  have h1 : (a + b * G) % G = (a2 + b2 * G) % G := by rw [h]
  rw [Nat.add_mul_mod_self_right, Nat.add_mul_mod_self_right, Nat.mod_eq_of_lt ha,
    Nat.mod_eq_of_lt ha2] at h1
  subst h1
  have h2 : b * G = b2 * G := by omega
  exact ⟨rfl, Nat.eq_of_mul_eq_mul_right (by omega : 0 < G) h2⟩

/-- Distinct interior cells have distinct linear indices in the ghosted cell arrays. -/
theorem idx_cell_inj (E : Euler) (P : Patch) (i j k i0 j0 k0 : Nat)
    (hc : interiorCell E P i j k) (hc0 : interiorCell E P i0 j0 k0)
    (h : idx_cell E P i j k = idx_cell E P i0 j0 k0) : i = i0 ∧ j = j0 ∧ k = k0 := by
  unfold idx_cell at h
  rcases hc with ⟨hd, hi, hj, hk⟩ | ⟨hd, hi, hj, hk⟩ | ⟨hd, hi, hj, hk⟩ <;>
  rcases hc0 with ⟨hd0, hi0, hj0, hk0⟩ | ⟨hd0, hi0, hj0, hk0⟩ | ⟨hd0, hi0, hj0, hk0⟩ <;>
  try omega
  · subst hj hk hj0 hk0
    simp only [hd, if_true, idx_cell_1D] at h
    omega
  · subst hk hk0
    have h1 : ¬ E.d_dim = 1 := by omega
    simp only [h1, hd, if_true, if_false, idx_cell_2D, ghostcell_dims] at h
    have := radix_inj _ _ _ _ _ (by omega) (by omega) h
    omega
  · have h1 : ¬ E.d_dim = 1 := by omega
    have h2 : ¬ E.d_dim = 2 := by omega
    simp only [h1, h2, if_false, idx_cell_3D] at h
    have e1 : ∀ a b c G0 G1 : Nat, a + b * G0 + c * G0 * G1 = a + (b + c * G1) * G0 := by
      intro a b c G0 G1; ring
    rw [e1, e1] at h
    have r1 := radix_inj _ _ _ _ _ (by unfold ghostcell_dims; omega)
      (by unfold ghostcell_dims; omega) h
    have r2 := radix_inj _ _ _ _ _ (by unfold ghostcell_dims; omega)
      (by unfold ghostcell_dims; omega) r1.2
    omega

/-- A cell loop whose body writes the column of its own cell acts on the column of the
interior cell `(i0, j0, k0)` as the body of that cell does. -/
theorem cellLoop_writeCol (E : Euler) (P : Patch)
    (U : Nat → Nat → Nat → (Nat → ℚ) → Nat → ℚ) (body : Nat → Nat → Nat → CellArr → CellArr)
    (hb : ∀ i j k Q, body i j k Q = writeCol (idx_cell E P i j k) (U i j k) Q)
    (i0 j0 k0 : Nat) (hc : interiorCell E P i0 j0 k0) (Q : CellArr) :
    (fun e => cellLoop E P body Q e (idx_cell E P i0 j0 k0))
      = U i0 j0 k0 (fun e => Q e (idx_cell E P i0 j0 k0)) := by
  have hmap := cellLoop_map E P (fun (Q : CellArr) => fun e => Q e (idx_cell E P i0 j0 k0))
    body (fun i j k col =>
      if idx_cell E P i j k = idx_cell E P i0 j0 k0 then U i j k col else col)
    (fun i j k Q => by
      funext e
      by_cases h : idx_cell E P i j k = idx_cell E P i0 j0 k0
      · simp [hb, writeCol, h]
      · have h2 : ¬ idx_cell E P i0 j0 k0 = idx_cell E P i j k := fun x => h x.symm
        simp [hb, writeCol, h, h2]) Q
  simp only at hmap
  rw [hmap]
  refine cellLoop_select E P _ _ i0 j0 k0 hc (fun s => by simp) (fun i j k hijk hne s => ?_) _
  have : ¬ idx_cell E P i j k = idx_cell E P i0 j0 k0 :=
    fun h => hne (idx_cell_inj E P i j k i0 j0 k0 hijk hc h)
  simp [this]

/-! ## The update of one cell -/

theorem setQ_apply (Q : CellArr) (e idx : Nat) (v : ℚ) (e2 idx2 : Nat) :
    setQ Q e idx v e2 idx2 = if e2 = e ∧ idx2 = idx then v else Q e2 idx2 := rfl

/-- The loop of `lastSpeciesUpdate` after `m` passes. -/
theorem lastSpecies_loop (dn c : Nat) (hdn : 0 < dn) (Q : CellArr) (m : Nat) :
    forLoop m (fun si Q => setQ Q dn c (Q dn c - Q (dn - 1 - si) c)) (setQ Q dn c 1)
      = setQ Q dn c (1 - ∑ si ∈ Finset.range m, Q (dn - 1 - si) c) := by
  induction m with
  | zero => simp [forLoop]
  | succ m ih =>
    rw [forLoop_succ, ih, Finset.sum_range_succ]
    funext e idx
    have hne : ¬ dn - 1 - m = dn := by omega
    simp only [setQ_apply, hne, false_and, if_false, and_self, if_true]
    by_cases h : e = dn ∧ idx = c
    · simp only [h, and_self, if_true]; ring
    · simp only [h, if_false]

theorem lastSpeciesUpdate_eq (E : Euler) (hdn : 0 < E.d_num_eqn) (c : Nat) (Q : CellArr) :
    lastSpeciesUpdate E c Q = writeCol c (lastSpeciesCol E) Q := by
  unfold lastSpeciesUpdate lastSpeciesCol writeCol
  cases hfm : E.d_flow_model
  · simp only
    funext e idx
    by_cases h : idx = c
    · simp [h]
    · simp [h]
  · simp only
    rw [lastSpecies_loop _ _ hdn]
    funext e idx
    by_cases h : idx = c
    · by_cases h2 : e = E.d_num_eqn
      · simp [setQ_apply, h, h2]
      · simp [setQ_apply, h, h2]
    · simp [setQ_apply, h]
  · simp only
    rw [lastSpecies_loop _ _ hdn]
    funext e idx
    by_cases h : idx = c
    · by_cases h2 : e = E.d_num_eqn
      · simp [setQ_apply, h, h2]
      · simp [setQ_apply, h, h2]
    · simp [setQ_apply, h]

/-- The loop over the equations of `advanceSingleStep` in one cell, after `n` passes. The
tests on the coefficients do not show in the result. -/
theorem eqn_loop (a b : ℚ) (qn r : Nat → ℚ) (c : Nat) (Q : CellArr) (n : Nat) :
    forLoop n (fun ei Q =>
      let Qa := if a ≠ 0 then setQ Q ei c (Q ei c + a * qn ei) else Q
      if b ≠ 0 then setQ Qa ei c (Qa ei c + b * r ei) else Qa) Q
      = fun e idx => if idx = c ∧ e < n then Q e c + a * qn e + b * r e else Q e idx := by
  induction n with
  | zero => simp [forLoop]
  | succ n ih =>
    rw [forLoop_succ, ih]
    funext e idx
    by_cases hi : idx = c
    · by_cases he : e = n
      · have h1 : ¬ n < n := Nat.lt_irrefl n
        by_cases ha : a = 0 <;> by_cases hb : b = 0 <;>
          simp [setQ_apply, ha, hb, hi, he, h1]
      · have h1 : (e < n + 1) ↔ e < n := by omega
        by_cases ha : a = 0 <;> by_cases hb : b = 0 <;>
          simp [setQ_apply, ha, hb, hi, he, h1]
    · by_cases ha : a = 0 <;> by_cases hb : b = 0 <;>
        simp [setQ_apply, ha, hb, hi]

theorem advanceCell_eq (E : Euler) (P : Patch) (hdn : 0 < E.d_num_eqn) (a b : ℚ)
    (I : PatchData) (i j k : Nat) (Q : CellArr) :
    advanceCell E P a b I i j k Q
      = writeCol (idx_cell E P i j k) (fun col =>
          lastSpeciesCol E (eqnCol E a b (fun e => I.Q e (idx_cell E P i j k))
            (rhs E P I.F I.S i j k) col)) Q := by
  unfold advanceCell
  simp only
  rw [eqn_loop a b (fun e => I.Q e (idx_cell E P i j k)) (rhs E P I.F I.S i j k),
    lastSpeciesUpdate_eq E hdn]
  funext e idx
  simp only [writeCol]
  by_cases h : idx = idx_cell E P i j k
  · simp only [h, if_true, true_and]
    rfl
  · simp [h]

/-! ## The layout of `Q` -/

theorem indexOf_map_range (f : Nat → Field) (hf : Function.Injective f) (N s : Nat)
    (h : s < N) : ((List.range N).map f).indexOf (f s) = s := by
  induction N with
  | zero => omega
  | succ N ih =>
    rw [List.range_succ, List.map_append]
    by_cases hs : s < N
    · rw [List.indexOf_append_of_mem, ih hs]
      exact List.mem_map.mpr ⟨s, List.mem_range.mpr hs, rfl⟩
    · have hsN : s = N := by omega
      subst hsN
      rw [List.indexOf_append_of_not_mem]
      · simp
      · intro hmem
        obtain ⟨t, ht, hft⟩ := List.mem_map.mp hmem
        have := hf hft
        have := List.mem_range.mp ht
        omega

theorem buildQ_length (E : Euler) (hE : E.wellFormed) :
    (buildQ E).length =
      if E.d_flow_model = SINGLE_SPECIES then E.d_num_eqn else E.d_num_eqn + 1 := by
  unfold Euler.wellFormed at hE
  unfold buildQ
  rw [hE]
  cases E.d_flow_model <;> simp [numEqn] <;> omega

theorem num_eqn_le_length (E : Euler) (hE : E.wellFormed) :
    E.d_num_eqn ≤ (buildQ E).length := by
  rw [buildQ_length E hE]
  split_ifs <;> omega

/-- The fraction of species `s` is the entry `d_num_eqn + 1 - N + s` of `Q`. -/
theorem fractionIndex_eq (E : Euler) (hE : E.wellFormed)
    (hfm : E.d_flow_model ≠ SINGLE_SPECIES) (s : Nat) (hs : s < E.d_num_species) :
    fractionIndex E s = E.d_num_eqn + 1 - E.d_num_species + s := by
  unfold Euler.wellFormed at hE
  unfold fractionIndex buildQ fractionField
  rw [hE]
  cases hm : E.d_flow_model
  · exact absurd hm hfm
  · simp only [numEqn]
    rw [List.indexOf_append_of_not_mem, indexOf_map_range _ _ _ _ hs]
    · simp; omega
    · intro a b hab; injection hab
    · simp
  · simp only [numEqn]
    rw [List.indexOf_append_of_not_mem, indexOf_map_range _ _ _ _ hs]
    · simp; omega
    · intro a b hab; injection hab
    · simp

/-! ## The update of the patch -/

theorem fill_loop (c : Nat) (Q : CellArr) (n : Nat) :
    forLoop n (fun p Q => setQ Q p c 0) Q
      = writeCol c (fun col e => if e < n then 0 else col e) Q := by
  induction n with
  | zero =>
    funext e idx
    by_cases h : idx = c
    · simp [forLoop, writeCol, h]
    · simp [forLoop, writeCol, h]
  | succ n ih =>
    rw [forLoop_succ, ih]
    funext e idx
    simp only [setQ_apply, writeCol]
    by_cases hi : idx = c
    · by_cases he : e = n
      · simp [hi, he]
      · have h1 : (e < n + 1) ↔ e < n := by omega
        simp [hi, he, h1]
    · simp [hi]

theorem fillInterior_col (E : Euler) (P : Patch) (i j k : Nat) (hc : interiorCell E P i j k)
    (Q : CellArr) :
    (fun e => fillInterior E P Q e (idx_cell E P i j k))
      = fun e => if e < (buildQ E).length then 0 else Q e (idx_cell E P i j k) := by
  unfold fillInterior
  exact cellLoop_writeCol E P (fun _ _ _ col e => if e < (buildQ E).length then 0 else col e)
    _ (fun i j k Q => fill_loop _ Q _) i j k hc Q

theorem advanceStage_col (E : Euler) (P : Patch) (hdn : 0 < E.d_num_eqn) (a b g : ℚ)
    (I : PatchData) (i j k : Nat) (hc : interiorCell E P i j k) (s : PatchData) :
    (fun e => (advanceStage E P a b g I s).Q e (idx_cell E P i j k))
      = stageCol E P a b g I i j k (fun e => s.Q e (idx_cell E P i j k)) := by
  have hcell := cellLoop_writeCol E P
    (fun i j k col => lastSpeciesCol E (eqnCol E a b (fun e => I.Q e (idx_cell E P i j k))
      (rhs E P I.F I.S i j k) col))
    (advanceCell E P a b I) (fun i j k Q => advanceCell_eq E P hdn a b I i j k Q) i j k hc s.Q
  unfold advanceStage stageCol
  by_cases h : a = 0 ∧ b = 0 ∧ g = 0
  · rw [if_neg (not_not_intro h), if_neg (not_not_intro h)]
  · rw [if_pos h, if_pos h]
    by_cases hg : g = 0
    · simp only [hg, ne_eq, not_true_eq_false, if_false]
      exact hcell
    · simp only [hg, ne_eq, not_false_eq_true, if_true]
      exact hcell

theorem advanceSingleStep_col (E : Euler) (P : Patch) (hdn : 0 < E.d_num_eqn)
    (alpha beta gamma : List ℚ) (inter : Nat → PatchData) (s : PatchData) (i j k : Nat)
    (hc : interiorCell E P i j k) :
    (fun e => (advanceSingleStep E P alpha beta gamma inter s).Q e (idx_cell E P i j k))
      = forLoop alpha.length (fun n col =>
          stageCol E P (alpha.getD n 0) (beta.getD n 0) (gamma.getD n 0) (inter n) i j k col)
          (fun e => if e < (buildQ E).length then 0 else s.Q e (idx_cell E P i j k)) := by
  unfold advanceSingleStep
  simp only
  rw [forLoop_map (fun (s : PatchData) => fun e => s.Q e (idx_cell E P i j k)) _
    (fun n col =>
      stageCol E P (alpha.getD n 0) (beta.getD n 0) (gamma.getD n 0) (inter n) i j k col)
    alpha.length (fun n _ x => advanceStage_col E P hdn _ _ _ _ i j k hc x)]
  simp only
  rw [fillInterior_col E P i j k hc]

theorem lastSpeciesCol_of_ne (E : Euler) (col : Nat → ℚ) (e : Nat) (he : e ≠ E.d_num_eqn) :
    lastSpeciesCol E col e = col e := by
  unfold lastSpeciesCol
  cases E.d_flow_model <;> simp [he]

theorem lastSpeciesCol_last (E : Euler) (hfm : E.d_flow_model ≠ SINGLE_SPECIES)
    (col : Nat → ℚ) :
    lastSpeciesCol E col E.d_num_eqn
      = 1 - ∑ si ∈ Finset.range (E.d_num_species - 1), col (E.d_num_eqn - 1 - si) := by
  unfold lastSpeciesCol
  cases hm : E.d_flow_model
  · exact absurd hm hfm
  · simp
  · simp

theorem stageCol_of_lt (E : Euler) (P : Patch) (a b g : ℚ) (I : PatchData) (i j k : Nat)
    (col : Nat → ℚ) (e : Nat) (he : e < E.d_num_eqn) :
    stageCol E P a b g I i j k col e
      = col e + (a * I.Q e (idx_cell E P i j k) + b * rhs E P I.F I.S i j k e) := by
  unfold stageCol
  by_cases h : a = 0 ∧ b = 0 ∧ g = 0
  · rw [if_neg (not_not_intro h)]
    obtain ⟨ha, hb, _⟩ := h
    simp [ha, hb]
  · rw [if_pos h]
    rw [lastSpeciesCol_of_ne E _ e (by omega)]
    simp only [eqnCol, he, if_true]
    ring

theorem rhs_eq_fluxBalance (E : Euler) (P : Patch) (F : FaceArr) (S : CellArr)
    (i j k ei : Nat) (hc : interiorCell E P i j k) :
    rhs E P F S i j k ei = fluxBalance E P F S i j k ei := by
  unfold rhs fluxBalance idx_flux idx_source
  rcases hc with ⟨hd, _, _, _⟩ | ⟨hd, _, _, _⟩ | ⟨hd, _, _, _⟩
  · simp [hd, rhs_1D, Finset.sum_range_succ]
    ring
  · simp [hd, rhs_2D, Finset.sum_range_succ]
    ring
  · simp [hd, rhs_3D, Finset.sum_range_succ]
    ring

theorem wellFormed_pos (E : Euler) (P : Patch) (hE : E.wellFormed) (i j k : Nat)
    (hc : interiorCell E P i j k) : 0 < E.d_num_eqn := by
  unfold Euler.wellFormed at hE
  rw [hE]
  have hd : 0 < E.d_dim := by
    rcases hc with ⟨hd, _⟩ | ⟨hd, _⟩ | ⟨hd, _⟩ <;> omega
  cases E.d_flow_model
  · simp [numEqn]
  · simp only [numEqn]; omega
  · simp only [numEqn]; omega

/-- The column of an interior cell after `n` passes of the loop over the coefficients:
every equation holds the sum of the stage contributions. -/
theorem stage_loop_value (E : Euler) (P : Patch) (al be ga : Nat → ℚ)
    (inter : Nat → PatchData) (i j k : Nat) (col : Nat → ℚ) (e : Nat)
    (he : e < E.d_num_eqn) (n : Nat) :
    forLoop n (fun t c => stageCol E P (al t) (be t) (ga t) (inter t) i j k c) col e
      = col e + ∑ t ∈ Finset.range n,
          (al t * (inter t).Q e (idx_cell E P i j k)
            + be t * rhs E P (inter t).F (inter t).S i j k e) := by
  induction n with
  | zero => simp [forLoop]
  | succ n ih =>
    rw [forLoop_succ, stageCol_of_lt E P _ _ _ _ i j k _ e he, ih, Finset.sum_range_succ]
    ring

/-- After a pass that is not skipped, the last entry of the column is one minus the sum of
the `N - 1` entries before it; a skipped pass keeps the column. -/
theorem stage_loop_last (E : Euler) (P : Patch) (hfm : E.d_flow_model ≠ SINGLE_SPECIES)
    (hdn : 0 < E.d_num_eqn) (al be ga : Nat → ℚ) (inter : Nat → PatchData) (i j k : Nat)
    (col : Nat → ℚ) (n : Nat)
    (hex : ∃ t, t < n ∧ ¬ (al t = 0 ∧ be t = 0 ∧ ga t = 0)) :
    forLoop n (fun t c => stageCol E P (al t) (be t) (ga t) (inter t) i j k c) col
        E.d_num_eqn
      = 1 - ∑ si ∈ Finset.range (E.d_num_species - 1),
          forLoop n (fun t c => stageCol E P (al t) (be t) (ga t) (inter t) i j k c) col
            (E.d_num_eqn - 1 - si) := by
  induction n with
  | zero => obtain ⟨t, ht, _⟩ := hex; omega
  | succ n ih =>
    rw [forLoop_succ]
    by_cases h : al n = 0 ∧ be n = 0 ∧ ga n = 0
    · have hskip : ∀ c : Nat → ℚ,
          stageCol E P (al n) (be n) (ga n) (inter n) i j k c = c := by
        intro c; unfold stageCol; rw [if_neg (not_not_intro h)]
      rw [hskip]
      apply ih
      obtain ⟨t, ht, hne⟩ := hex
      have htn : t ≠ n := fun x => hne (x ▸ h)
      exact ⟨t, by omega, hne⟩
    · have hrun : ∀ c : Nat → ℚ,
          stageCol E P (al n) (be n) (ga n) (inter n) i j k c
            = lastSpeciesCol E (eqnCol E (al n) (be n)
                (fun e => (inter n).Q e (idx_cell E P i j k))
                (rhs E P (inter n).F (inter n).S i j k) c) := by
        intro c; unfold stageCol; rw [if_pos h]
      rw [hrun, lastSpeciesCol_last E hfm]
      congr 1
      refine Finset.sum_congr rfl (fun si _ => ?_)
      rw [lastSpeciesCol_of_ne E _ _ (by omega)]

/-- The sum of the `N` fractions of a column whose last entry is one minus the sum of the
`N - 1` entries before it. -/
theorem fraction_sum_of_last (dn N : Nat) (hN : 1 ≤ N) (hle : N ≤ dn) (col : Nat → ℚ)
    (h : col dn = 1 - ∑ si ∈ Finset.range (N - 1), col (dn - 1 - si)) :
    ∑ s ∈ Finset.range N, col (dn + 1 - N + s) = 1 := by
  obtain ⟨M, rfl⟩ : ∃ M, N = M + 1 := ⟨N - 1, by omega⟩
  simp only [Nat.add_sub_cancel] at h
  rw [Finset.sum_range_succ]
  have e1 : dn + 1 - (M + 1) + M = dn := by omega
  rw [e1, h]
  have e2 : ∑ s ∈ Finset.range M, col (dn + 1 - (M + 1) + s)
      = ∑ si ∈ Finset.range M, col (dn - 1 - si) := by
    rw [← Finset.sum_range_reflect]
    refine Finset.sum_congr rfl (fun si hsi => ?_)
    have := Finset.mem_range.mp hsi
    congr 1
    omega
  rw [e2]
  ring

theorem species_le_num_eqn (E : Euler) (hE : E.wellFormed)
    (hfm : E.d_flow_model ≠ SINGLE_SPECIES) : E.d_num_species ≤ E.d_num_eqn := by
  unfold Euler.wellFormed at hE
  rw [hE]
  cases hm : E.d_flow_model
  · exact absurd hm hfm
  · simp only [numEqn]; omega
  · simp only [numEqn]; omega

/-! ## The cell update of `synchronizeHyperbolicFlux` -/

theorem forLoop_writeCol (c : Nat) (u : Nat → (Nat → ℚ) → Nat → ℚ) (n : Nat) (Q : CellArr) :
    forLoop n (fun t Q => writeCol c (u t) Q) Q = writeCol c (fun col => forLoop n u col) Q := by
  induction n with
  | zero =>
    funext e idx
    by_cases h : idx = c
    · simp [forLoop, writeCol, h]
    · simp [forLoop, writeCol, h]
  | succ n ih =>
    rw [forLoop_succ, ih]
    funext e idx
    by_cases h : idx = c
    · simp [forLoop, writeCol, h]
    · simp [forLoop, writeCol, h]

theorem setQ_eq_writeCol (Q : CellArr) (ei c : Nat) (r : Nat → ℚ) :
    setQ Q ei c (Q ei c + r ei)
      = writeCol c (fun col e => if e = ei then col ei + r ei else col e) Q := by
  funext e idx
  by_cases h : idx = c
  · by_cases h2 : e = ei
    · simp [setQ_apply, writeCol, h, h2]
    · simp [setQ_apply, writeCol, h, h2]
  · simp [setQ_apply, writeCol, h]

theorem writeCol_writeCol (c : Nat) (u v : (Nat → ℚ) → Nat → ℚ) (Q : CellArr) :
    writeCol c u (writeCol c v Q) = writeCol c (fun col => u (v col)) Q := by
  funext e idx
  by_cases h : idx = c
  · simp [writeCol, h]
  · simp [writeCol, h]

/-- The plain loop over the equations on a column, after `n` passes. -/
theorem sync_plain_col (r : Nat → ℚ) (col : Nat → ℚ) (n : Nat) :
    forLoop n (fun ei (col : Nat → ℚ) e => if e = ei then col ei + r ei else col e) col
      = fun e => if e < n then col e + r e else col e := by
  induction n with
  | zero => simp [forLoop]
  | succ n ih =>
    rw [forLoop_succ, ih]
    funext e
    by_cases he : e = n
    · simp [he]
    · have h1 : (e < n + 1) ↔ e < n := by omega
      simp [he, h1]

/-- The loop over the equations that recomputes the last species in every pass, on a
column, after `n ≤ d_num_eqn` passes: only the last recomputation shows. -/
theorem sync_inside_col (E : Euler) (r : Nat → ℚ) (col : Nat → ℚ) (n : Nat)
    (hn : n ≤ E.d_num_eqn) :
    forLoop n (fun ei (col : Nat → ℚ) =>
        lastSpeciesCol E (fun e => if e = ei then col ei + r ei else col e)) col
      = if n = 0 then col
        else lastSpeciesCol E (fun e => if e < n then col e + r e else col e) := by
  induction n with
  | zero => simp [forLoop]
  | succ n ih =>
    rw [forLoop_succ, ih (by omega)]
    simp only [Nat.succ_ne_zero, if_false]
    have hn2 : n ≠ E.d_num_eqn := by omega
    by_cases h0 : n = 0
    · subst h0
      simp only [if_true, zero_add, Nat.lt_one_iff]
      have hfun : (fun e => if e = 0 then col 0 + r 0 else col e)
          = (fun e => if e = 0 then col e + r e else col e) := by
        funext e
        by_cases he : e = 0
        · simp [he]
        · simp [he]
      rw [hfun]
    · simp only [h0, if_false]
      rw [lastSpeciesCol_of_ne E _ n hn2]
      simp only [Nat.lt_irrefl, if_false]
      unfold lastSpeciesCol
      cases E.d_flow_model
      · simp only
        funext e
        by_cases he : e = n
        · simp [he]
        · have h1 : (e < n + 1) ↔ e < n := by omega
          simp [he, h1]
      all_goals
        simp only
        funext e
        by_cases hd : e = E.d_num_eqn
        · simp only [hd, if_true]
          congr 1
          refine Finset.sum_congr rfl (fun si _ => ?_)
          have hne : ¬ E.d_num_eqn - 1 - si = E.d_num_eqn := by omega
          by_cases he : E.d_num_eqn - 1 - si = n
          · simp [he, hne, hn2]
          · have h1 : (E.d_num_eqn - 1 - si < n + 1) ↔ E.d_num_eqn - 1 - si < n := by omega
            simp [he, hne, h1]
        · by_cases he : e = n
          · simp [he, hd, hn2]
          · have h1 : (e < n + 1) ↔ e < n := by omega
            simp [he, hd, h1]

/-- The loop over the equations followed by one recomputation of the last species. -/
theorem sync_after_eq (E : Euler) (hdn : 0 < E.d_num_eqn) (r : Nat → ℚ) (c : Nat)
    (Q : CellArr) :
    lastSpeciesUpdate E c (forLoop E.d_num_eqn (fun ei Q => setQ Q ei c (Q ei c + r ei)) Q)
      = writeCol c (syncCol E r) Q := by
  unfold syncCol
  rw [forLoop_congr _ (fun ei Q => writeCol c
      (fun col e => if e = ei then col ei + r ei else col e) Q) _
    (fun ei _ Q => setQ_eq_writeCol Q ei _ r),
    forLoop_writeCol, lastSpeciesUpdate_eq E hdn, writeCol_writeCol]
  simp only [sync_plain_col]

theorem synchronizeCell_eq (E : Euler) (P : Patch) (hdn : 0 < E.d_num_eqn) (F : FaceArr)
    (S : CellArr) (i j k : Nat) (Q : CellArr) :
    synchronizeCell E P F S i j k Q
      = writeCol (idx_cell E P i j k) (syncCol E (rhs E P F S i j k)) Q := by
  unfold synchronizeCell
  simp only
  by_cases h3 : E.d_dim = 3
  · rw [if_pos h3]
    exact sync_after_eq E hdn (rhs E P F S i j k) _ Q
  · rw [if_neg h3]
    unfold syncCol
    rw [forLoop_congr _ (fun ei Q => writeCol (idx_cell E P i j k)
        (fun col => lastSpeciesCol E
          (fun e => if e = ei then col ei + rhs E P F S i j k ei else col e)) Q) _
      (fun ei _ Q => by
        rw [setQ_eq_writeCol Q ei _ (rhs E P F S i j k), lastSpeciesUpdate_eq E hdn,
          writeCol_writeCol]),
      forLoop_writeCol]
    simp only [sync_inside_col E _ _ _ (le_refl _)]
    have : ¬ E.d_num_eqn = 0 := by omega
    simp only [this, if_false]

theorem synchronizeHyperbolicFlux_col (E : Euler) (P : Patch) (hdn : 0 < E.d_num_eqn)
    (s : PatchData) (i j k : Nat) (hc : interiorCell E P i j k) :
    (fun e => (synchronizeHyperbolicFlux E P s).Q e (idx_cell E P i j k))
      = syncCol E (rhs E P s.F s.S i j k) (fun e => s.Q e (idx_cell E P i j k)) := by
  unfold synchronizeHyperbolicFlux
  exact cellLoop_writeCol E P (fun i j k => syncCol E (rhs E P s.F s.S i j k)) _
    (fun i j k Q => synchronizeCell_eq E P hdn s.F s.S i j k Q) i j k hc s.Q

theorem syncCol_of_lt (E : Euler) (r col : Nat → ℚ) (e : Nat) (he : e < E.d_num_eqn) :
    syncCol E r col e = col e + r e := by
  unfold syncCol
  rw [lastSpeciesCol_of_ne E _ e (by omega)]
  simp [he]

/-! ## Claims on `advanceSingleStep` -/

/-- Claim C1 as stated fails: with a single stage whose coefficients are all zero the pass
is skipped, the interior keeps the zero fill, and the two stored mass fractions of the
interior cell sum to zero, not one. -/
theorem advanceSingleStep_fractionSum_counterexample :
    exEuler1D.wellFormed ∧ exEuler1D.d_flow_model = FOUR_EQN_SHYUE ∧
    1 ≤ exEuler1D.d_num_species ∧ interiorCell exEuler1D exPatch 0 0 0 ∧
    fractionSum exEuler1D
      (advanceSingleStep exEuler1D exPatch [0] [0] [0] (fun _ => exHalf) exHalf).Q
      (idx_cell exEuler1D exPatch 0 0 0) = 0 ∧
    fractionSum exEuler1D
      (advanceSingleStep exEuler1D exPatch [0] [0] [0] (fun _ => exHalf) exHalf).Q
      (idx_cell exEuler1D exPatch 0 0 0) ≠ 1 := by
  have h3 : fractionIndex exEuler1D 0 = 3 := by decide
  have h4 : fractionIndex exEuler1D 1 = 4 := by decide
  have hN : exEuler1D.d_num_species = 2 := rfl
  have h0 : fractionSum exEuler1D
      (advanceSingleStep exEuler1D exPatch [0] [0] [0] (fun _ => exHalf) exHalf).Q
      (idx_cell exEuler1D exPatch 0 0 0) = 0 := by
    simp only [fractionSum, hN, Finset.sum_range_succ, Finset.sum_range_zero, h3, h4]
    simp [advanceSingleStep, advanceStage, forLoop,
      fillInterior, cellLoop, exEuler1D, exPatch, idx_cell, idx_cell_1D, buildQ, setQ]
  refine ⟨by decide, rfl, by decide, by decide, h0, ?_⟩
  rw [h0]
  norm_num

/-- Claim C1, amended: for the multi-species models with `N ≥ 1` species, if at least one
stage `n` has `alpha[n]`, `beta[n]`, `gamma[n]` not all zero, then after `advanceSingleStep`
the `N` stored fractions of every interior cell sum to exactly one, whatever the
intermediate data and the data held before the call. -/
theorem advanceSingleStep_fractionSum (E : Euler) (P : Patch) (hE : E.wellFormed)
    (hfm : E.d_flow_model ≠ SINGLE_SPECIES) (hN : 1 ≤ E.d_num_species)
    (alpha beta gamma : List ℚ) (_hb : beta.length = alpha.length)
    (_hg : gamma.length = alpha.length) (inter : Nat → PatchData) (s : PatchData)
    (i j k : Nat) (hc : interiorCell E P i j k)
    (hrun : ∃ n, n < alpha.length ∧
      ¬ (alpha.getD n 0 = 0 ∧ beta.getD n 0 = 0 ∧ gamma.getD n 0 = 0)) :
    fractionSum E (advanceSingleStep E P alpha beta gamma inter s).Q (idx_cell E P i j k)
      = 1 := by
  have hdn := wellFormed_pos E P hE i j k hc
  have hcol := advanceSingleStep_col E P hdn alpha beta gamma inter s i j k hc
  have hlast := stage_loop_last E P hfm hdn (fun n => alpha.getD n 0)
    (fun n => beta.getD n 0) (fun n => gamma.getD n 0) inter i j k
    (fun e => if e < (buildQ E).length then 0 else s.Q e (idx_cell E P i j k))
    alpha.length hrun
  simp only [← hcol] at hlast
  unfold fractionSum
  rw [Finset.sum_congr rfl (fun si hsi => by
    rw [fractionIndex_eq E hE hfm si (Finset.mem_range.mp hsi)])]
  exact fraction_sum_of_last E.d_num_eqn E.d_num_species hN (species_le_num_eqn E hE hfm)
    (fun e => (advanceSingleStep E P alpha beta gamma inter s).Q e (idx_cell E P i j k))
    hlast

/-- Witness for the amended claim C1: one stage with `alpha = beta = 1` on the 1D patch. -/
theorem advanceSingleStep_fractionSum_witness :
    fractionSum exEuler1D
      (advanceSingleStep exEuler1D exPatch [1] [1] [0] (fun _ => exHalf) exHalf).Q
      (idx_cell exEuler1D exPatch 1 0 0) = 1 :=
  advanceSingleStep_fractionSum exEuler1D exPatch (by decide) (by decide) (by decide)
    [1] [1] [0] rfl rfl (fun _ => exHalf) exHalf 1 0 0 (by decide)
    ⟨0, by decide, by norm_num⟩

/-- Claim C3: for every interior cell and every equation `ei < d_num_eqn`, the value left by
`advanceSingleStep` in the current context is the sum over the stages `n` of
`alpha[n]*Q_n[ei][c] + beta[n]*(-(sum over the directions of the flux differences across
the cell divided by dx) + S_n[ei][c])`; the value held before the call does not appear. -/
theorem advanceSingleStep_value (E : Euler) (P : Patch) (hE : E.wellFormed)
    (alpha beta gamma : List ℚ) (_hb : beta.length = alpha.length)
    (_hg : gamma.length = alpha.length) (inter : Nat → PatchData) (s : PatchData)
    (i j k : Nat) (hc : interiorCell E P i j k) (ei : Nat) (hei : ei < E.d_num_eqn) :
    (advanceSingleStep E P alpha beta gamma inter s).Q ei (idx_cell E P i j k)
      = ∑ n ∈ Finset.range alpha.length,
          (alpha.getD n 0 * (inter n).Q ei (idx_cell E P i j k)
            + beta.getD n 0 * fluxBalance E P (inter n).F (inter n).S i j k ei) := by
  have hdn := wellFormed_pos E P hE i j k hc
  have hcol := congrFun (advanceSingleStep_col E P hdn alpha beta gamma inter s i j k hc) ei
  simp only at hcol
  rw [hcol, stage_loop_value E P (fun n => alpha.getD n 0) (fun n => beta.getD n 0)
    (fun n => gamma.getD n 0) inter i j k _ ei hei]
  have hlen : ei < (buildQ E).length := lt_of_lt_of_le hei (num_eqn_le_length E hE)
  simp only [hlen, if_true, zero_add]
  refine Finset.sum_congr rfl (fun n _ => ?_)
  rw [rhs_eq_fluxBalance E P _ _ i j k ei hc]

/-- Witness for claim C3: the first equation in the second cell of the 1D patch. -/
theorem advanceSingleStep_value_witness :
    (advanceSingleStep exEuler1D exPatch [1] [1] [0] (fun _ => exHalf) exHalf).Q 0
        (idx_cell exEuler1D exPatch 1 0 0)
      = ∑ n ∈ Finset.range [(1 : ℚ)].length,
          (([1] : List ℚ).getD n 0 * exHalf.Q 0 (idx_cell exEuler1D exPatch 1 0 0)
            + ([1] : List ℚ).getD n 0 * fluxBalance exEuler1D exPatch exHalf.F exHalf.S 1 0 0 0) :=
  advanceSingleStep_value exEuler1D exPatch (by decide) [1] [1] [0] rfl rfl
    (fun _ => exHalf) exHalf 1 0 0 (by decide) 0 (by decide)

/-! ## Claims on `synchronizeHyperbolicFlux` -/

/-- Claim C2: for the multi-species models, after `synchronizeHyperbolicFlux` every equation
`e < d_num_eqn` of an interior cell holds its updated value, the fractions of the first
`N - 1` species are among these equations, and the fraction of the last species equals one
minus the sum of these `N - 1` updated fractions, in 1D, 2D and 3D alike; in every dimension
the cell body acts as the 3D text does (loop over the equations, then one recomputation),
so recomputing inside the loop (1D, 2D) gives the same final value. -/
theorem synchronizeHyperbolicFlux_last_fraction (E : Euler) (P : Patch) (hE : E.wellFormed)
    (hfm : E.d_flow_model ≠ SINGLE_SPECIES) (hN : 1 ≤ E.d_num_species) (s : PatchData)
    (i j k : Nat) (hc : interiorCell E P i j k) :
    (∀ e, e < E.d_num_eqn →
      (synchronizeHyperbolicFlux E P s).Q e (idx_cell E P i j k)
        = s.Q e (idx_cell E P i j k) + fluxBalance E P s.F s.S i j k e) ∧
    (∀ si, si < E.d_num_species - 1 → fractionIndex E si < E.d_num_eqn) ∧
    fractionIndex E (E.d_num_species - 1) = E.d_num_eqn ∧
    (synchronizeHyperbolicFlux E P s).Q (fractionIndex E (E.d_num_species - 1))
        (idx_cell E P i j k)
      = 1 - ∑ si ∈ Finset.range (E.d_num_species - 1),
          (synchronizeHyperbolicFlux E P s).Q (fractionIndex E si) (idx_cell E P i j k) ∧
    (∀ Q, synchronizeCell E P s.F s.S i j k Q
      = lastSpeciesUpdate E (idx_cell E P i j k)
          (forLoop E.d_num_eqn (fun ei Q => setQ Q ei (idx_cell E P i j k)
            (Q ei (idx_cell E P i j k) + rhs E P s.F s.S i j k ei)) Q)) := by
  have hdn := wellFormed_pos E P hE i j k hc
  have hle := species_le_num_eqn E hE hfm
  have hcol := synchronizeHyperbolicFlux_col E P hdn s i j k hc
  have hval : ∀ e, (synchronizeHyperbolicFlux E P s).Q e (idx_cell E P i j k)
      = syncCol E (rhs E P s.F s.S i j k) (fun e => s.Q e (idx_cell E P i j k)) e :=
    fun e => congrFun hcol e
  have hidx : ∀ si, si < E.d_num_species →
      fractionIndex E si = E.d_num_eqn + 1 - E.d_num_species + si :=
    fun si hsi => fractionIndex_eq E hE hfm si hsi
  refine ⟨fun e he => ?_, fun si hsi => ?_, ?_, ?_, fun Q => ?_⟩
  · rw [hval, syncCol_of_lt E _ _ e he, rhs_eq_fluxBalance E P _ _ i j k e hc]
  · rw [hidx si (by omega)]; omega
  · rw [hidx _ (by omega)]; omega
  · have hlast : fractionIndex E (E.d_num_species - 1) = E.d_num_eqn := by
      rw [hidx _ (by omega)]; omega
    rw [hlast, hval E.d_num_eqn]
    unfold syncCol
    rw [lastSpeciesCol_last E hfm]
    congr 1
    rw [← Finset.sum_range_reflect]
    refine Finset.sum_congr rfl (fun si hsi => ?_)
    have hsi2 := Finset.mem_range.mp hsi
    rw [hidx _ (by omega), hval]
    unfold syncCol
    have e1 : E.d_num_eqn - 1 - (E.d_num_species - 1 - 1 - si)
        = E.d_num_eqn + 1 - E.d_num_species + si := by omega
    rw [e1, lastSpeciesCol_of_ne E _ _ (by omega)]
  · rw [synchronizeCell_eq E P hdn, sync_after_eq E hdn]

/-- Witness for claim C2: the second cell of the 1D patch with two species. -/
theorem synchronizeHyperbolicFlux_last_fraction_witness :
    (synchronizeHyperbolicFlux exEuler1D exPatch exHalf).Q
        (fractionIndex exEuler1D (exEuler1D.d_num_species - 1))
        (idx_cell exEuler1D exPatch 1 0 0)
      = 1 - ∑ si ∈ Finset.range (exEuler1D.d_num_species - 1),
          (synchronizeHyperbolicFlux exEuler1D exPatch exHalf).Q (fractionIndex exEuler1D si)
            (idx_cell exEuler1D exPatch 1 0 0) :=
  (synchronizeHyperbolicFlux_last_fraction exEuler1D exPatch (by decide) (by decide)
    (by decide) exHalf 1 0 0 (by decide)).2.2.2.1

/-! ## The flux accumulation of `advanceSingleStep` -/

/-- Claim C4, the code at the failing input: in 3D, on a patch of one cell, one stage with
`gamma = 1` and intermediate flux one everywhere, starting from zero accumulated flux. The
upper faces in x and y and the lower face in z receive `gamma*F_n = 1`, but the upper face
in z (position `k = N_2`, linear index 1) keeps the value zero: the z loop stops at
`k < interior_dims[2]`. -/
theorem advanceSingleStep_flux_z_upper_face :
    (advanceSingleStep exEuler3D exPatchUnit [0] [0] [1] (fun _ => exOnes) exZero).F 0 0 1 = 1 ∧
    (advanceSingleStep exEuler3D exPatchUnit [0] [0] [1] (fun _ => exOnes) exZero).F 1 0 1 = 1 ∧
    (advanceSingleStep exEuler3D exPatchUnit [0] [0] [1] (fun _ => exOnes) exZero).F 2 0 0 = 1 ∧
    (advanceSingleStep exEuler3D exPatchUnit [0] [0] [1] (fun _ => exOnes) exZero).F 2 0 1 = 0 := by
  simp [advanceSingleStep, advanceStage, accumulateFlux, forLoop, exEuler3D, exPatchUnit,
    exOnes, exZero, setF]


/-! ## Input -/

/-- The outcome of the block `if (!is_from_restart)` of `getFromInput` on an input in which
`num_species` and `flow_model` are present. -/
theorem getFromInput_flowModel_some (pn : Option String) (n : Int) (str : String)
    (eos scs : Option Database) (E : EulerObject) :
    getFromInput_flowModel
        { project_name := pn, num_species := some n, flow_model := some str,
          Equation_of_state := eos, Shock_capturing_scheme := scs } E
      = if n ≤ 0 then Except.error "Non-positive number of species is specified."
        else if str = "SINGLE_SPECIES" then
          if 1 < n then
            Except.error "Number of species > 1 shouldn't use single-species model."
          else match eos, scs with
            | some d1, some d2 => Except.ok { E with
                d_project_name := pn.getD "Unnamed", d_num_species := n,
                d_flow_model := SINGLE_SPECIES, d_num_eqn := 2 + (E.d_dim : Int),
                d_equation_of_state_db := d1, d_shock_capturing_scheme_db := d2 }
            | none, _ => Except.error "Key data 'Equation_of_state' not found in input."
            | some _, none =>
                Except.error "Key data 'Shock_capturing_scheme' not found in input."
        else if str = "FOUR_EQN_SHYUE" then
          match eos, scs with
            | some d1, some d2 => Except.ok { E with
                d_project_name := pn.getD "Unnamed", d_num_species := n,
                d_flow_model := FOUR_EQN_SHYUE, d_num_eqn := 1 + (E.d_dim : Int) + n,
                d_equation_of_state_db := d1, d_shock_capturing_scheme_db := d2 }
            | none, _ => Except.error "Key data 'Equation_of_state' not found in input."
            | some _, none =>
                Except.error "Key data 'Shock_capturing_scheme' not found in input."
        else if str = "FIVE_EQN_ALLAIRE" then
          match eos, scs with
            | some d1, some d2 => Except.ok { E with
                d_project_name := pn.getD "Unnamed", d_num_species := n,
                d_flow_model := FIVE_EQN_ALLAIRE, d_num_eqn := (E.d_dim : Int) + 2 * n,
                d_equation_of_state_db := d1, d_shock_capturing_scheme_db := d2 }
            | none, _ => Except.error "Key data 'Equation_of_state' not found in input."
            | some _, none =>
                Except.error "Key data 'Shock_capturing_scheme' not found in input."
        else Except.error "Unknown flow_model string found in input." := by
  unfold getFromInput_flowModel
  by_cases hn : n ≤ 0
  · simp [hn, bind, Except.bind, throw, throwThe, MonadExceptOf.throw]
  · have hn2 : ¬ (n ≤ 0) := hn
    by_cases h1 : str = "SINGLE_SPECIES"
    · by_cases hgt : 1 < n
      · simp [hn, h1, hgt, bind, Except.bind, pure, Except.pure, throw, throwThe,
          MonadExceptOf.throw]
      · cases pn <;> cases eos <;> cases scs <;>
          simp [hn, h1, hgt, bind, Except.bind, pure, Except.pure, throw, throwThe,
            MonadExceptOf.throw]
    · by_cases h2 : str = "FOUR_EQN_SHYUE"
      · cases pn <;> cases eos <;> cases scs <;>
          simp [hn, h2, bind, Except.bind, pure, Except.pure, throw, throwThe,
            MonadExceptOf.throw]
      · by_cases h3 : str = "FIVE_EQN_ALLAIRE"
        · cases pn <;> cases eos <;> cases scs <;>
            simp [hn, h3, bind, Except.bind, pure, Except.pure, throw, throwThe,
              MonadExceptOf.throw]
        · simp [hn, h1, h2, h3, bind, Except.bind, pure, Except.pure, throw, throwThe,
            MonadExceptOf.throw]

/-- Claim C8: when not restarting, the flow-model part of `getFromInput` succeeds if and only
if `num_species` is present with a positive value, `flow_model` is present with one of the
three model names, the combination is not the single-species model with more than one
species, and `Equation_of_state` and `Shock_capturing_scheme` are present; otherwise it
raises an error. A multi-species model with one species is accepted. -/
theorem getFromInput_flowModel_ok_iff (input_db : InputDatabase) (E : EulerObject) :
    ((∃ E2, getFromInput_flowModel input_db E = Except.ok E2) ↔
      ((∃ n, input_db.num_species = some n ∧ 0 < n ∧
        ∃ str, input_db.flow_model = some str ∧
          (str = "SINGLE_SPECIES" ∨ str = "FOUR_EQN_SHYUE" ∨ str = "FIVE_EQN_ALLAIRE") ∧
          ¬ (str = "SINGLE_SPECIES" ∧ 1 < n)) ∧
        input_db.Equation_of_state ≠ none ∧ input_db.Shock_capturing_scheme ≠ none)) ∧
    ((¬ ∃ E2, getFromInput_flowModel input_db E = Except.ok E2) →
      ∃ msg, getFromInput_flowModel input_db E = Except.error msg) ∧
    (∀ eos scs, ∃ E2, getFromInput_flowModel
        { project_name := input_db.project_name, num_species := some 1,
          flow_model := some "FOUR_EQN_SHYUE", Equation_of_state := some eos,
          Shock_capturing_scheme := some scs } E = Except.ok E2) ∧
    (∀ eos scs, ∃ E2, getFromInput_flowModel
        { project_name := input_db.project_name, num_species := some 1,
          flow_model := some "FIVE_EQN_ALLAIRE", Equation_of_state := some eos,
          Shock_capturing_scheme := some scs } E = Except.ok E2) := by
  refine ⟨?_, ?_, ?_, ?_⟩
  · obtain ⟨pn, ns, fmo, eos, scs⟩ := input_db
    cases ns with
    | none =>
      simp [getFromInput_flowModel, bind, Except.bind, throw, throwThe, MonadExceptOf.throw]
    | some n =>
      cases fmo with
      | none =>
        by_cases hn : n ≤ 0 <;>
          simp [getFromInput_flowModel, hn, bind, Except.bind, pure, Except.pure, throw,
            throwThe, MonadExceptOf.throw]
      | some str =>
        rw [getFromInput_flowModel_some]
        by_cases hn : n ≤ 0
        · have : ¬ 0 < n := by omega
          simp [hn, this]
        · have hpos : 0 < n := by omega
          by_cases h1 : str = "SINGLE_SPECIES"
          · by_cases hgt : 1 < n
            · simp [hn, h1, hgt]
            · have hle : n ≤ 1 := by omega
              cases eos <;> cases scs <;> simp [hn, h1, hgt, hpos, hle]
          · by_cases h2 : str = "FOUR_EQN_SHYUE"
            · cases eos <;> cases scs <;> simp [hn, h2, hpos]
            · by_cases h3 : str = "FIVE_EQN_ALLAIRE"
              · cases eos <;> cases scs <;> simp [hn, h3, hpos]
              · simp [hn, h1, h2, h3]
  · intro h
    cases hr : getFromInput_flowModel input_db E with
    | error msg => exact ⟨msg, rfl⟩
    | ok E2 => exact absurd ⟨E2, hr⟩ h
  · intro eos scs
    rw [getFromInput_flowModel_some]
    simp
  · intro eos scs
    rw [getFromInput_flowModel_some]
    simp

/-- Witness for claim C8: a five-equation input with two species and both sub-databases is
accepted. -/
theorem getFromInput_flowModel_ok_iff_witness :
    ∃ E2, getFromInput_flowModel
      { project_name := none, num_species := some 2, flow_model := some "FIVE_EQN_ALLAIRE",
        Equation_of_state := some [], Shock_capturing_scheme := some [] }
      (EulerObject.fresh 2 SINGLE_SPECIES 0 0) = Except.ok E2 :=
  (getFromInput_flowModel_ok_iff
    { project_name := none, num_species := some 2, flow_model := some "FIVE_EQN_ALLAIRE",
      Equation_of_state := some [], Shock_capturing_scheme := some [] }
    (EulerObject.fresh 2 SINGLE_SPECIES 0 0)).1.mpr
    ⟨⟨2, rfl, by norm_num, "FIVE_EQN_ALLAIRE", rfl, Or.inr (Or.inr rfl), by decide⟩,
      by simp, by simp⟩

/-! ## Restart -/

theorem bind_ok_iff {ε α β : Type} (x : Except ε α) (f : α → Except ε β) (b : β) :
    (x >>= f) = Except.ok b ↔ ∃ a, x = Except.ok a ∧ f a = Except.ok b := by
  cases x with
  | error e => simp [bind, Except.bind]
  | ok a => simp [bind, Except.bind]

theorem pure_ok_iff {ε α : Type} (a b : α) :
    (pure a : Except ε α) = Except.ok b ↔ a = b := by
  simp [pure, Except.pure]

/-- The members that `setDefaultBoundaryConditions` does not touch. -/
theorem setDefaultBoundaryConditions_keeps (E : EulerObject) :
    (setDefaultBoundaryConditions E).d_dim = E.d_dim ∧
    (setDefaultBoundaryConditions E).d_project_name = E.d_project_name ∧
    (setDefaultBoundaryConditions E).d_num_species = E.d_num_species ∧
    (setDefaultBoundaryConditions E).d_flow_model = E.d_flow_model ∧
    (setDefaultBoundaryConditions E).d_num_eqn = E.d_num_eqn ∧
    (setDefaultBoundaryConditions E).d_num_ghosts = E.d_num_ghosts ∧
    (setDefaultBoundaryConditions E).d_refinement_criteria = E.d_refinement_criteria ∧
    (setDefaultBoundaryConditions E).d_density_shock_tol = E.d_density_shock_tol ∧
    (setDefaultBoundaryConditions E).d_pressure_shock_tol = E.d_pressure_shock_tol := by
  unfold setDefaultBoundaryConditions
  simp only
  split_ifs <;> cases E.d_flow_model <;> exact ⟨rfl, rfl, rfl, rfl, rfl, rfl, rfl, rfl, rfl⟩

theorem getFromRestart_boundary_keeps (db : Database) (E0 E3 : EulerObject)
    (h : getFromRestart_boundary db E0 = Except.ok E3) :
    E3.d_dim = E0.d_dim ∧ E3.d_project_name = E0.d_project_name ∧
    E3.d_num_species = E0.d_num_species ∧ E3.d_flow_model = E0.d_flow_model ∧
    E3.d_num_eqn = E0.d_num_eqn ∧ E3.d_num_ghosts = E0.d_num_ghosts ∧
    E3.d_refinement_criteria = E0.d_refinement_criteria ∧
    E3.d_density_shock_tol = E0.d_density_shock_tol ∧
    E3.d_pressure_shock_tol = E0.d_pressure_shock_tol := by
  obtain ⟨k1, k2, k3, k4, k5, k6, k7, k8, k9⟩ := setDefaultBoundaryConditions_keeps E0
  unfold getFromRestart_boundary at h
  obtain ⟨_, _, h⟩ := (bind_ok_iff _ _ _).1 h
  simp only [k1, k4] at h
  split_ifs at h
  all_goals
    repeat (obtain ⟨_, _, h⟩ := (bind_ok_iff _ _ _).1 h)
  all_goals
    first
    | (have h2 := (pure_ok_iff _ _).1 h
       subst h2
       simp [k1, k2, k3, k4, k5, k6, k7, k8, k9])
    | (cases hfm : E0.d_flow_model <;> simp only [hfm] at h <;>
        (repeat (obtain ⟨_, _, h⟩ := (bind_ok_iff _ _ _).1 h)) <;>
        (have h2 := (pure_ok_iff _ _).1 h
         subst h2
         simp [k1, k2, k3, k4, k5, k6, k7, k8, k9]))

theorem getFromRestart_refinement_keeps (db : Database) (E3 E2 : EulerObject)
    (h : getFromRestart_refinement db E3 = Except.ok E2) :
    E2.d_dim = E3.d_dim ∧ E2.d_project_name = E3.d_project_name ∧
    E2.d_num_species = E3.d_num_species ∧ E2.d_flow_model = E3.d_flow_model ∧
    E2.d_num_eqn = E3.d_num_eqn ∧ E2.d_num_ghosts = E3.d_num_ghosts ∧
    E2.d_refinement_criteria = E3.d_refinement_criteria := by
  unfold getFromRestart_refinement at h
  generalize E3.d_refinement_criteria.length = n at h
  induction n generalizing E2 with
  | zero =>
    have h2 := (pure_ok_iff _ _).1 h
    subst h2
    exact ⟨rfl, rfl, rfl, rfl, rfl, rfl, rfl⟩
  | succ n ih =>
    rw [forLoop_succ] at h
    obtain ⟨Ei, hEi, h⟩ := (bind_ok_iff _ _ _).1 h
    have hi := ih Ei hEi
    split_ifs at h
    all_goals
      repeat (obtain ⟨_, _, h⟩ := (bind_ok_iff _ _ _).1 h)
    all_goals
      have h2 := (pure_ok_iff _ _).1 h
      subst h2
      simpa using hi

/-- On an object without refinement criteria the last block reads nothing. -/
theorem getFromRestart_refinement_nil (db : Database) (E3 : EulerObject)
    (h : E3.d_refinement_criteria = []) :
    getFromRestart_refinement db E3 = Except.ok E3 := by
  unfold getFromRestart_refinement
  rw [h]
  rfl

theorem getFromRestart_flowModel_eqn (d_object_name : String) (root_db db : Database)
    (E E1 : EulerObject)
    (h : getFromRestart_flowModel d_object_name root_db E = Except.ok (db, E1)) :
    E1.d_dim = E.d_dim ∧
    E1.d_num_eqn = conservedFieldCount E1.d_flow_model E.d_dim E1.d_num_species ∧
    Database.getString db "d_flow_model" = Except.ok (flowModelName E1.d_flow_model) ∧
    Database.getInteger db "d_num_species" = Except.ok E1.d_num_species ∧
    root_db.find d_object_name = some (DbValue.database db) := by
  unfold getFromRestart_flowModel at h
  obtain ⟨db0, hdb0, h⟩ := (bind_ok_iff _ _ _).1 h
  have hfind : root_db.find d_object_name = some (DbValue.database db0) := by
    split at hdb0
    · rename_i d hd
      have := (pure_ok_iff _ _).1 hdb0
      subst this
      exact hd
    · cases hdb0
  obtain ⟨pn, _, h⟩ := (bind_ok_iff _ _ _).1 h
  obtain ⟨n, hn, h⟩ := (bind_ok_iff _ _ _).1 h
  obtain ⟨str, hstr, h⟩ := (bind_ok_iff _ _ _).1 h
  obtain ⟨fm, hfm, h⟩ := (bind_ok_iff _ _ _).1 h
  obtain ⟨_, _, h⟩ := (bind_ok_iff _ _ _).1 h
  obtain ⟨_, _, h⟩ := (bind_ok_iff _ _ _).1 h
  obtain ⟨_, _, h⟩ := (bind_ok_iff _ _ _).1 h
  have h2 := (pure_ok_iff _ _).1 h
  injection h2 with hdb hE
  subst hdb hE
  split_ifs at hfm with s1 s2 s3
  · have h3 := (pure_ok_iff _ _).1 hfm
    subst h3 s1
    refine ⟨rfl, ?_, hstr, hn, hfind⟩
    simp only [conservedFieldCount]; ring
  · have h3 := (pure_ok_iff _ _).1 hfm
    subst h3 s2
    refine ⟨rfl, ?_, hstr, hn, hfind⟩
    simp only [conservedFieldCount]; ring
  · have h3 := (pure_ok_iff _ _).1 hfm
    subst h3 s3
    refine ⟨rfl, ?_, hstr, hn, hfind⟩
    simp only [conservedFieldCount]; ring

theorem getFromRestart_eqn (d_object_name : String) (root_db : Database) (E E2 : EulerObject)
    (h : getFromRestart d_object_name root_db E = Except.ok E2) :
    E2.d_num_eqn = conservedFieldCount E2.d_flow_model E.d_dim E2.d_num_species ∧
    ∃ db, root_db.find d_object_name = some (DbValue.database db) ∧
      Database.getString db "d_flow_model" = Except.ok (flowModelName E2.d_flow_model) ∧
      Database.getInteger db "d_num_species" = Except.ok E2.d_num_species := by
  unfold getFromRestart at h
  obtain ⟨r, h1, h⟩ := (bind_ok_iff _ _ _).1 h
  obtain ⟨E3, h2, h3⟩ := (bind_ok_iff _ _ _).1 h
  obtain ⟨db, E1⟩ := r
  obtain ⟨_, a2, a3, a4, a5⟩ := getFromRestart_flowModel_eqn d_object_name root_db db E E1 h1
  obtain ⟨_, _, b3, b4, b5, _⟩ := getFromRestart_boundary_keeps db E1 E3 h2
  obtain ⟨_, _, c3, c4, c5, _⟩ := getFromRestart_refinement_keeps db E3 E2 h3
  refine ⟨?_, db, a5, ?_, ?_⟩
  · rw [c5, b5, a2, c4, b4, c3, b3]
  · rw [c4, b4]; exact a3
  · rw [c3, b3]; exact a4

/-! ## Claims on the input and restart of the object -/

/-- Claim C5: the equation count set by `getFromInput` on a valid input is the number of
independent conserved fields of the chosen model, `2 + D`, `1 + D + 1 + (N - 1)` or
`N + D + 1 + (N - 1)`; and whenever `getFromRestart` returns, the equation count it has set
is the same function of the flow-model string and the number of species it has read. -/
theorem num_eqn_from_input_and_restart :
    (∀ (input_db : InputDatabase) (E : EulerObject) (n : Int) (fm : FLOW_MODEL),
      input_db.num_species = some n → 0 < n →
      input_db.flow_model = some (flowModelName fm) → ¬ (fm = SINGLE_SPECIES ∧ 1 < n) →
      input_db.Equation_of_state ≠ none → input_db.Shock_capturing_scheme ≠ none →
      ∃ E2, getFromInput_flowModel input_db E = Except.ok E2 ∧
        E2.d_flow_model = fm ∧ E2.d_num_species = n ∧
        E2.d_num_eqn = conservedFieldCount fm E.d_dim n ∧
        E2.d_num_eqn = match fm with
          | SINGLE_SPECIES => 2 + (E.d_dim : Int)
          | FOUR_EQN_SHYUE => 1 + (E.d_dim : Int) + n
          | FIVE_EQN_ALLAIRE => (E.d_dim : Int) + 2 * n) ∧
    (∀ (d_object_name : String) (root_db : Database) (E E2 : EulerObject),
      getFromRestart d_object_name root_db E = Except.ok E2 →
      E2.d_num_eqn = conservedFieldCount E2.d_flow_model E.d_dim E2.d_num_species ∧
      ∃ db, root_db.find d_object_name = some (DbValue.database db) ∧
        Database.getString db "d_flow_model"
          = Except.ok (flowModelName E2.d_flow_model) ∧
        Database.getInteger db "d_num_species" = Except.ok E2.d_num_species) := by
  refine ⟨?_, fun name root_db E E2 h => getFromRestart_eqn name root_db E E2 h⟩
  intro input_db E n fm hn hpos hfm hsingle heos hscs
  obtain ⟨pn, ns, fmo, eos, scs⟩ := input_db
  simp only at hn hfm heos hscs
  subst hn hfm
  obtain ⟨d1, rfl⟩ := Option.ne_none_iff_exists'.mp heos
  obtain ⟨d2, rfl⟩ := Option.ne_none_iff_exists'.mp hscs
  rw [getFromInput_flowModel_some]
  have hn0 : ¬ n ≤ 0 := by omega
  cases fm with
  | SINGLE_SPECIES =>
    have hle : ¬ 1 < n := fun h => hsingle ⟨rfl, h⟩
    simp [flowModelName, hn0, hle, conservedFieldCount]
    ring
  | FOUR_EQN_SHYUE =>
    simp [flowModelName, hn0, conservedFieldCount]
  | FIVE_EQN_ALLAIRE =>
    simp [flowModelName, hn0, conservedFieldCount]
    ring

/-- Witness for claim C5: a 3D five-equation input with two species gives seven equations,
and the restart of the 1D single-species object gives three. -/
theorem num_eqn_from_input_and_restart_witness :
    (∃ E2, getFromInput_flowModel
        { project_name := none, num_species := some 2, flow_model := some "FIVE_EQN_ALLAIRE",
          Equation_of_state := some [], Shock_capturing_scheme := some [] }
        (EulerObject.fresh 3 SINGLE_SPECIES 0 0) = Except.ok E2 ∧ E2.d_num_eqn = 7) ∧
    (∃ E2, getFromRestart "Euler" (restartOf "Euler" exObject)
        (EulerObject.fresh 1 SINGLE_SPECIES 0 0) = Except.ok E2 ∧ E2.d_num_eqn = 3) := by
  constructor
  · obtain ⟨E2, h1, _, _, _, h5⟩ := num_eqn_from_input_and_restart.1
      { project_name := none, num_species := some 2, flow_model := some "FIVE_EQN_ALLAIRE",
        Equation_of_state := some [], Shock_capturing_scheme := some [] }
      (EulerObject.fresh 3 SINGLE_SPECIES 0 0) 2 FIVE_EQN_ALLAIRE rfl (by norm_num) rfl
      (by simp) (by simp) (by simp)
    exact ⟨E2, h1, by rw [h5]; rfl⟩
  · exact ⟨_, rfl, (num_eqn_from_input_and_restart.2 "Euler" (restartOf "Euler" exObject)
      (EulerObject.fresh 1 SINGLE_SPECIES 0 0) _ rfl).1.trans rfl⟩

/-- Claim C9, the code at the failing input: the 1D single-species object with
`d_refinement_criteria = ["DENSITY_SHOCK"]` and `d_density_shock_tol = [0.5]` is written by
`putToRestart` and read by `getFromRestart` on a newly constructed object. The read
succeeds and restores the project name, the number of species, the flow model, the equation
count, the ghost widths, the master boundary conditions and the boundary state vectors; the
database holds the criteria and the tolerance, but the criteria are never read, so both stay
empty in the restored object. -/
theorem getFromRestart_drops_refinement_criteria :
    ∃ E2, getFromRestart "Euler" (restartOf "Euler" exObject)
        (EulerObject.fresh 1 SINGLE_SPECIES 0 0) = Except.ok E2 ∧
      E2.d_project_name = exObject.d_project_name ∧
      E2.d_num_species = exObject.d_num_species ∧
      E2.d_flow_model = exObject.d_flow_model ∧
      E2.d_num_eqn = exObject.d_num_eqn ∧
      E2.d_num_ghosts = exObject.d_num_ghosts ∧
      E2.d_master_bdry_node_conds = exObject.d_master_bdry_node_conds ∧
      E2.d_bdry_node_density = exObject.d_bdry_node_density ∧
      E2.d_bdry_node_momentum = exObject.d_bdry_node_momentum ∧
      E2.d_bdry_node_total_energy = exObject.d_bdry_node_total_energy ∧
      Database.find (putToRestart exObject [] [] []) "d_refinement_criteria"
        = some (DbValue.stringArray ["DENSITY_SHOCK"]) ∧
      Database.find (putToRestart exObject [] [] []) "d_density_shock_tol"
        = some (DbValue.doubleArray [DoubleValue.value (1 / 2)]) ∧
      exObject.d_refinement_criteria = ["DENSITY_SHOCK"] ∧
      E2.d_refinement_criteria = [] ∧
      exObject.d_density_shock_tol = [DoubleValue.value (1 / 2)] ∧
      E2.d_density_shock_tol = [] :=
  ⟨_, rfl, rfl, rfl, rfl, rfl, rfl, rfl, rfl, rfl, rfl, rfl, rfl, rfl, rfl, rfl, rfl⟩

/-! ## Claims on the boundary defaults -/

/-- Claim C10, the code at the failing inputs: on a newly constructed five-equation object
with two species, `setDefaultBoundaryConditions` sets the boundary-condition vectors to
`BOGUS_BDRY_DATA`, but in 3D the four face state vectors are only resized and hold zeros
(the signaling NaN is written to the edge vectors instead), and in 2D the edge partial
density is only resized and holds zeros (the signaling NaN is written to the edge density
instead). The four-equation model in 3D sets its face vectors to the signaling NaN. -/
theorem setDefaultBoundaryConditions_five_eqn :
    (setDefaultBoundaryConditions
        (EulerObject.fresh 3 FIVE_EQN_ALLAIRE 2 7)).d_master_bdry_face_conds
      = List.replicate 6 (-9999) ∧
    (setDefaultBoundaryConditions
        (EulerObject.fresh 3 FIVE_EQN_ALLAIRE 2 7)).d_bdry_face_partial_density
      = List.replicate 12 (DoubleValue.value 0) ∧
    (setDefaultBoundaryConditions
        (EulerObject.fresh 3 FIVE_EQN_ALLAIRE 2 7)).d_bdry_face_momentum
      = List.replicate 18 (DoubleValue.value 0) ∧
    (setDefaultBoundaryConditions
        (EulerObject.fresh 3 FIVE_EQN_ALLAIRE 2 7)).d_bdry_face_total_energy
      = List.replicate 6 (DoubleValue.value 0) ∧
    (setDefaultBoundaryConditions
        (EulerObject.fresh 3 FIVE_EQN_ALLAIRE 2 7)).d_bdry_face_volume_fraction
      = List.replicate 12 (DoubleValue.value 0) ∧
    (setDefaultBoundaryConditions
        (EulerObject.fresh 2 FIVE_EQN_ALLAIRE 2 6)).d_master_bdry_edge_conds
      = List.replicate 4 (-9999) ∧
    (setDefaultBoundaryConditions
        (EulerObject.fresh 2 FIVE_EQN_ALLAIRE 2 6)).d_bdry_edge_partial_density
      = List.replicate 8 (DoubleValue.value 0) ∧
    (setDefaultBoundaryConditions
        (EulerObject.fresh 2 FIVE_EQN_ALLAIRE 2 6)).d_bdry_edge_volume_fraction
      = List.replicate 8 DoubleValue.signalingNaN ∧
    (setDefaultBoundaryConditions
        (EulerObject.fresh 3 FOUR_EQN_SHYUE 2 6)).d_bdry_face_density
      = List.replicate 6 DoubleValue.signalingNaN ∧
    (setDefaultBoundaryConditions
        (EulerObject.fresh 3 FOUR_EQN_SHYUE 2 6)).d_bdry_face_mass_fraction
      = List.replicate 12 DoubleValue.signalingNaN :=
  ⟨rfl, rfl, rfl, rfl, rfl, rfl, rfl, rfl, rfl, rfl⟩

/-! ## The stable time step -/

/-- A loop of passes that each raise the running value to at least the values of the
pass: the result bounds the start value and all values, and is the start value or one of
the values. -/
theorem forLoop_sup (S : Nat → ℚ → Prop) (body : Nat → ℚ → ℚ) (n : Nat)
    (h : ∀ t, t < n → ∀ m, m ≤ body t m ∧ (∀ v, S t v → v ≤ body t m) ∧
      (body t m = m ∨ S t (body t m))) (m0 : ℚ) :
    m0 ≤ forLoop n body m0 ∧ (∀ t, t < n → ∀ v, S t v → v ≤ forLoop n body m0) ∧
    (forLoop n body m0 = m0 ∨ ∃ t, t < n ∧ S t (forLoop n body m0)) := by
  induction n with
  | zero => exact ⟨le_refl _, fun t ht => absurd ht (Nat.not_lt_zero t), Or.inl rfl⟩
  | succ n ih =>
    obtain ⟨i1, i2, i3⟩ := ih (fun t ht => h t (Nat.lt_succ_of_lt ht))
    obtain ⟨b1, b2, b3⟩ := h n (Nat.lt_succ_self n) (forLoop n body m0)
    rw [forLoop_succ]
    refine ⟨le_trans i1 b1, fun t ht v hv => ?_, ?_⟩
    · by_cases htn : t = n
      · subst htn; exact b2 v hv
      · exact le_trans (i2 t (by omega) v hv) b1
    · rcases b3 with b3 | b3
      · rw [b3]
        rcases i3 with i3 | ⟨t, ht, hS⟩
        · exact Or.inl i3
        · exact Or.inr ⟨t, Nat.lt_succ_of_lt ht, hS⟩
      · exact Or.inr ⟨n, Nat.lt_succ_self n, b3⟩

theorem max_pass (x m : ℚ) :
    m ≤ max m x ∧ (∀ v, v = x → v ≤ max m x) ∧ (max m x = m ∨ max m x = x) :=
  ⟨le_max_left m x, fun _ hv => hv ▸ le_max_right m x, max_choice m x⟩

/-- The running maximum over the interior cells. -/
theorem cellLoop_max (E : Euler) (P : Patch) (g : Nat → Nat → Nat → ℚ) (m0 : ℚ) :
    m0 ≤ cellLoop E P (fun i j k m => max m (g i j k)) m0 ∧
    (∀ i j k, interiorCell E P i j k →
      g i j k ≤ cellLoop E P (fun i j k m => max m (g i j k)) m0) ∧
    (cellLoop E P (fun i j k m => max m (g i j k)) m0 = m0 ∨
      ∃ i j k, interiorCell E P i j k ∧
        cellLoop E P (fun i j k m => max m (g i j k)) m0 = g i j k) := by
  unfold cellLoop
  by_cases h1 : E.d_dim = 1
  · simp only [h1, if_true]
    obtain ⟨a1, a2, a3⟩ := forLoop_sup (fun i v => v = g i 0 0)
      (fun i m => max m (g i 0 0)) (P.interior_dims 0) (fun i _ m => max_pass _ m) m0
    refine ⟨a1, fun i j k hc => ?_, ?_⟩
    · rcases hc with ⟨_, hi, rfl, rfl⟩ | ⟨hd, _⟩ | ⟨hd, _⟩
      · exact a2 i hi _ rfl
      · omega
      · omega
    · rcases a3 with a3 | ⟨i, hi, hS⟩
      · exact Or.inl a3
      · exact Or.inr ⟨i, 0, 0, Or.inl ⟨h1, hi, rfl, rfl⟩, hS⟩
  · by_cases h2 : E.d_dim = 2
    · simp only [h1, h2, if_true, if_false]
      have hin : ∀ j, j < P.interior_dims 1 → ∀ m,
          m ≤ forLoop (P.interior_dims 0) (fun i m => max m (g i j 0)) m ∧
          (∀ v, (∃ i, i < P.interior_dims 0 ∧ v = g i j 0) →
            v ≤ forLoop (P.interior_dims 0) (fun i m => max m (g i j 0)) m) ∧
          (forLoop (P.interior_dims 0) (fun i m => max m (g i j 0)) m = m ∨
            ∃ i, i < P.interior_dims 0 ∧
              forLoop (P.interior_dims 0) (fun i m => max m (g i j 0)) m = g i j 0) := by
        intro j _ m
        obtain ⟨a1, a2, a3⟩ := forLoop_sup (fun i v => v = g i j 0)
          (fun i m => max m (g i j 0)) (P.interior_dims 0) (fun i _ m => max_pass _ m) m
        exact ⟨a1, fun v ⟨i, hi, hv⟩ => a2 i hi v hv, a3⟩
      obtain ⟨a1, a2, a3⟩ := forLoop_sup
        (fun j v => ∃ i, i < P.interior_dims 0 ∧ v = g i j 0)
        (fun j => forLoop (P.interior_dims 0) (fun i m => max m (g i j 0)))
        (P.interior_dims 1) hin m0
      refine ⟨a1, fun i j k hc => ?_, ?_⟩
      · rcases hc with ⟨hd, _⟩ | ⟨_, hi, hj, rfl⟩ | ⟨hd, _⟩
        · omega
        · exact a2 j hj _ ⟨i, hi, rfl⟩
        · omega
      · rcases a3 with a3 | ⟨j, hj, i, hi, hS⟩
        · exact Or.inl a3
        · exact Or.inr ⟨i, j, 0, Or.inr (Or.inl ⟨h2, hi, hj, rfl⟩), hS⟩
    · by_cases h3 : E.d_dim = 3
      · simp only [h1, h2, h3, if_true, if_false]
        have hin : ∀ k j, j < P.interior_dims 1 → ∀ m,
            m ≤ forLoop (P.interior_dims 0) (fun i m => max m (g i j k)) m ∧
            (∀ v, (∃ i, i < P.interior_dims 0 ∧ v = g i j k) →
              v ≤ forLoop (P.interior_dims 0) (fun i m => max m (g i j k)) m) ∧
            (forLoop (P.interior_dims 0) (fun i m => max m (g i j k)) m = m ∨
              ∃ i, i < P.interior_dims 0 ∧
                forLoop (P.interior_dims 0) (fun i m => max m (g i j k)) m = g i j k) := by
          intro k j _ m
          obtain ⟨a1, a2, a3⟩ := forLoop_sup (fun i v => v = g i j k)
            (fun i m => max m (g i j k)) (P.interior_dims 0) (fun i _ m => max_pass _ m) m
          exact ⟨a1, fun v ⟨i, hi, hv⟩ => a2 i hi v hv, a3⟩
        have hmid : ∀ k, k < P.interior_dims 2 → ∀ m,
            m ≤ forLoop (P.interior_dims 1) (fun j =>
              forLoop (P.interior_dims 0) (fun i m => max m (g i j k))) m ∧
            (∀ v, (∃ j, j < P.interior_dims 1 ∧ ∃ i, i < P.interior_dims 0 ∧ v = g i j k) →
              v ≤ forLoop (P.interior_dims 1) (fun j =>
                forLoop (P.interior_dims 0) (fun i m => max m (g i j k))) m) ∧
            (forLoop (P.interior_dims 1) (fun j =>
                forLoop (P.interior_dims 0) (fun i m => max m (g i j k))) m = m ∨
              ∃ j, j < P.interior_dims 1 ∧ ∃ i, i < P.interior_dims 0 ∧
                forLoop (P.interior_dims 1) (fun j =>
                  forLoop (P.interior_dims 0) (fun i m => max m (g i j k))) m = g i j k) := by
          intro k _ m
          obtain ⟨a1, a2, a3⟩ := forLoop_sup
            (fun j v => ∃ i, i < P.interior_dims 0 ∧ v = g i j k)
            (fun j => forLoop (P.interior_dims 0) (fun i m => max m (g i j k)))
            (P.interior_dims 1) (hin k) m
          exact ⟨a1, fun v ⟨j, hj, hv⟩ => a2 j hj v hv, a3⟩
        obtain ⟨a1, a2, a3⟩ := forLoop_sup
          (fun k v => ∃ j, j < P.interior_dims 1 ∧ ∃ i, i < P.interior_dims 0 ∧ v = g i j k)
          (fun k => forLoop (P.interior_dims 1) (fun j =>
            forLoop (P.interior_dims 0) (fun i m => max m (g i j k))))
          (P.interior_dims 2) hmid m0
        refine ⟨a1, fun i j k hc => ?_, ?_⟩
        · rcases hc with ⟨hd, _⟩ | ⟨hd, _⟩ | ⟨_, hi, hj, hk⟩
          · omega
          · omega
          · exact a2 k hk _ ⟨j, hj, i, hi, rfl⟩
        · rcases a3 with a3 | ⟨k, hk, j, hj, i, hi, hS⟩
          · exact Or.inl a3
          · exact Or.inr ⟨i, j, k, Or.inr (Or.inr ⟨h3, hi, hj, hk⟩), hS⟩
      · simp only [h1, h2, h3, if_false]
        refine ⟨le_refl _, fun i j k hc => ?_, Or.inl trivial⟩
        rcases hc with ⟨hd, _⟩ | ⟨hd, _⟩ | ⟨hd, _⟩ <;> omega

/-- Two cell loops whose bodies agree on the interior cells are equal. -/
theorem cellLoop_congr {σ : Type} (E : Euler) (P : Patch)
    (body body2 : Nat → Nat → Nat → σ → σ)
    (h : ∀ i j k, interiorCell E P i j k → ∀ s, body i j k s = body2 i j k s) (s : σ) :
    cellLoop E P body s = cellLoop E P body2 s := by
  unfold cellLoop
  by_cases h1 : E.d_dim = 1
  · simp only [h1, if_true]
    exact forLoop_congr _ _ _ (fun i hi x => h i 0 0 (Or.inl ⟨h1, hi, rfl, rfl⟩) x) s
  · by_cases h2 : E.d_dim = 2
    · simp only [h1, h2, if_true, if_false]
      exact forLoop_congr _ _ _ (fun j hj x => forLoop_congr _ _ _
        (fun i hi y => h i j 0 (Or.inr (Or.inl ⟨h2, hi, hj, rfl⟩)) y) x) s
    · by_cases h3 : E.d_dim = 3
      · simp only [h1, h2, h3, if_true, if_false]
        exact forLoop_congr _ _ _ (fun k hk x => forLoop_congr _ _ _
          (fun j hj y => forLoop_congr _ _ _
            (fun i hi z => h i j k (Or.inr (Or.inr ⟨h3, hi, hj, hk⟩)) z) y) x) s
      · simp only [h1, h2, h3, if_false]

theorem interiorCell_dim (E : Euler) (P : Patch) (i j k : Nat) (hc : interiorCell E P i j k) :
    E.d_dim = 1 ∨ E.d_dim = 2 ∨ E.d_dim = 3 := by
  rcases hc with ⟨hd, _⟩ | ⟨hd, _⟩ | ⟨hd, _⟩
  · exact Or.inl hd
  · exact Or.inr (Or.inl hd)
  · exact Or.inr (Or.inr hd)

/-! ## Claim on the stable time step -/

/-- The quotient by a divisor that is not zero. -/
theorem quotient_some (x y : ℚ) (hy : y ≠ 0) : quotient x y = some (x / y) := by
  unfold quotient
  rw [if_neg hy]

/-- The density of the code is the density of the claim. -/
theorem cellDensity_eq_claimDensity (E : Euler) (eos : EquationOfState) (U : CellFields)
    (idx : Nat) : cellDensity E eos U idx = claimDensity E eos U idx := by
  unfold cellDensity claimDensity
  cases E.d_flow_model <;> simp

/-- The sound speed of the code is the sound speed of the claim. -/
theorem cellSoundSpeed_eq_claimSoundSpeed (E : Euler) (eos : EquationOfState)
    (U : CellFields) (idx : Nat) :
    cellSoundSpeed E eos U idx = claimSoundSpeed E eos U idx := by
  unfold cellSoundSpeed claimSoundSpeed cellDensity
  cases E.d_flow_model <;> simp

/-- Where the density and the grid spacings are not zero, the `spectral_radius` of the code
is the quantity `r(c)` of the claim. -/
theorem spectral_radius_eq_claimRate (E : Euler) (P : Patch) (eos : EquationOfState)
    (U : CellFields) (idx : Nat) (hD : E.d_dim = 1 ∨ E.d_dim = 2 ∨ E.d_dim = 3)
    (hdx : ∀ d, d < E.d_dim → P.dx d ≠ 0) (hrho : claimDensity E eos U idx ≠ 0) :
    spectral_radius E P eos U idx = some (claimRate E P eos U idx) := by
  unfold spectral_radius claimRate
  rw [cellDensity_eq_claimDensity, cellSoundSpeed_eq_claimSoundSpeed]
  rcases hD with h | h | h
  · have h0 := hdx 0 (by omega)
    simp [h, Finset.sum_range_succ, quotient_some _ _ hrho, quotient_some _ _ h0]
  · have h0 := hdx 0 (by omega)
    have h1 := hdx 1 (by omega)
    simp [h, Finset.sum_range_succ, quotient_some _ _ hrho, quotient_some _ _ h0,
      quotient_some _ _ h1]
  · have h0 := hdx 0 (by omega)
    have h1 := hdx 1 (by omega)
    have h2 := hdx 2 (by omega)
    simp [h, Finset.sum_range_succ, quotient_some _ _ hrho, quotient_some _ _ h0,
      quotient_some _ _ h1, quotient_some _ _ h2]

/-- The quantity `r(c)` of the claim is the same for data that agree in the cell. -/
theorem claimRate_sameCell (E : Euler) (P : Patch) (eos : EquationOfState)
    (U U2 : CellFields) (idx : Nat) (h : sameCell U U2 idx) :
    claimDensity E eos U2 idx = claimDensity E eos U idx ∧
    claimRate E P eos U2 idx = claimRate E P eos U idx := by
  obtain ⟨h1, h2, h3, h4, h5, h6⟩ := h
  have hrho : claimDensity E eos U2 idx = claimDensity E eos U idx := by
    unfold claimDensity
    simp only [h1, h3]
  have hc : claimSoundSpeed E eos U2 idx = claimSoundSpeed E eos U idx := by
    unfold claimSoundSpeed
    simp only [h1, h2, h3, h4, h5, h6]
  refine ⟨hrho, ?_⟩
  unfold claimRate
  simp only [hrho, hc, h4]

/-- Where the grid spacings and the densities of the interior cells are not zero, the
running maximum of `computeStableDtOnPatch` is the running maximum of `r(c)`. -/
theorem computeStableDtOnPatch_eq (E : Euler) (P : Patch) (eos : EquationOfState)
    (U : CellFields) (hdx : ∀ d, d < E.d_dim → P.dx d ≠ 0)
    (hrho : ∀ i j k, interiorCell E P i j k →
      claimDensity E eos U (idx_cell E P i j k) ≠ 0) :
    computeStableDtOnPatch E P eos U
      = quotient 1 (cellLoop E P (fun i j k m =>
          max m (claimRate E P eos U (idx_cell E P i j k))) 0) := by
  unfold computeStableDtOnPatch
  rw [cellLoop_congr E P _ (fun i j k (ssr : Option ℚ) =>
      ssr.map (fun m => max m (claimRate E P eos U (idx_cell E P i j k))))
    (fun i j k hc ssr => by
      rw [spectral_radius_eq_claimRate E P eos U _ (interiorCell_dim E P i j k hc) hdx
        (hrho i j k hc)]
      cases ssr <;> rfl)]
  rw [← cellLoop_map E P (some : ℚ → Option ℚ)
    (fun i j k m => max m (claimRate E P eos U (idx_cell E P i j k))) _
    (fun i j k s => rfl) 0]
  rfl

/-- Claim C6: with positive grid spacings, a density that is not zero in the interior
cells and some interior cell with `r > 0`, `computeStableDtOnPatch` returns
`dt = 1/r(c*)` for an interior cell `c*` at which `r` is largest, where `r(c)` is the sum
over the directions `d < D` of `(|m_d(c)/rho(c)| + c_s(c))/dx[d]` and `c_s` is the sound
speed returned by the equation of state; hence `dt*r(c) ≤ 1` in every interior cell with
equality at `c*`, and data that agree on the interior cells (whatever the ghost cells
hold) give the same result. -/
theorem computeStableDtOnPatch_cfl (E : Euler) (P : Patch) (eos : EquationOfState)
    (U : CellFields) (i0 j0 k0 : Nat) (hc0 : interiorCell E P i0 j0 k0)
    (hdx : ∀ d, d < E.d_dim → 0 < P.dx d)
    (hrho : ∀ i j k, interiorCell E P i j k →
      claimDensity E eos U (idx_cell E P i j k) ≠ 0)
    (hpos : 0 < claimRate E P eos U (idx_cell E P i0 j0 k0)) :
    ∃ dt, computeStableDtOnPatch E P eos U = some dt ∧
      (∃ i j k, interiorCell E P i j k ∧
        (∀ i2 j2 k2, interiorCell E P i2 j2 k2 →
          claimRate E P eos U (idx_cell E P i2 j2 k2)
            ≤ claimRate E P eos U (idx_cell E P i j k)) ∧
        dt = 1 / claimRate E P eos U (idx_cell E P i j k) ∧
        dt * claimRate E P eos U (idx_cell E P i j k) = 1) ∧
      (∀ i j k, interiorCell E P i j k →
        dt * claimRate E P eos U (idx_cell E P i j k) ≤ 1) ∧
      (∀ U2 : CellFields,
        (∀ i j k, interiorCell E P i j k → sameCell U U2 (idx_cell E P i j k)) →
        computeStableDtOnPatch E P eos U2 = some dt) := by
  have hdx0 : ∀ d, d < E.d_dim → P.dx d ≠ 0 := fun d hd => ne_of_gt (hdx d hd)
  obtain ⟨_, m2, m3⟩ := cellLoop_max E P
    (fun i j k => claimRate E P eos U (idx_cell E P i j k)) 0
  have hRpos : 0 < cellLoop E P (fun i j k m =>
      max m (claimRate E P eos U (idx_cell E P i j k))) 0 :=
    lt_of_lt_of_le hpos (m2 i0 j0 k0 hc0)
  have hR : computeStableDtOnPatch E P eos U
      = some (1 / cellLoop E P (fun i j k m =>
          max m (claimRate E P eos U (idx_cell E P i j k))) 0) := by
    rw [computeStableDtOnPatch_eq E P eos U hdx0 hrho, quotient_some _ _ (ne_of_gt hRpos)]
  refine ⟨_, hR, ?_, fun i j k hc => ?_, fun U2 hU => ?_⟩
  · rcases m3 with m3 | ⟨i, j, k, hc, hmax⟩
    · rw [m3] at hRpos
      exact absurd hRpos (lt_irrefl 0)
    · refine ⟨i, j, k, hc, fun i2 j2 k2 hc2 => ?_, ?_, ?_⟩
      · rw [← hmax]; exact m2 i2 j2 k2 hc2
      · rw [hmax]
      · rw [hmax]
        rw [hmax] at hRpos
        exact one_div_mul_cancel (ne_of_gt hRpos)
  · rw [one_div, inv_mul_eq_div]
    exact (div_le_one hRpos).mpr (m2 i j k hc)
  · have hrho2 : ∀ i j k, interiorCell E P i j k →
        claimDensity E eos U2 (idx_cell E P i j k) ≠ 0 := by
      intro i j k hc
      rw [(claimRate_sameCell E P eos U U2 _ (hU i j k hc)).1]
      exact hrho i j k hc
    rw [computeStableDtOnPatch_eq E P eos U2 hdx0 hrho2,
      cellLoop_congr E P _ (fun i j k m =>
        max m (claimRate E P eos U (idx_cell E P i j k)))
      (fun i j k hc m => by
        rw [(claimRate_sameCell E P eos U U2 _ (hU i j k hc)).2]),
      quotient_some _ _ (ne_of_gt hRpos)]

/-- Witness for claim C6: the 3D patch of one cell with unit density, momentum two and
sound speed one in every direction and unit grid spacing, where `r = 9` and the stable
time step is `1/9`. -/
theorem computeStableDtOnPatch_cfl_witness :
    ∃ dt, computeStableDtOnPatch exEuler3D exPatchUnit exEos exFields = some dt ∧
      dt * claimRate exEuler3D exPatchUnit exEos exFields
        (idx_cell exEuler3D exPatchUnit 0 0 0) ≤ 1 := by
  obtain ⟨dt, h1, _, h3, _⟩ :=
    computeStableDtOnPatch_cfl exEuler3D exPatchUnit exEos exFields 0 0 0 (by decide)
      (fun d _ => by norm_num [exPatchUnit])
      (fun i j k _ => by simp [claimDensity, exEuler3D, exFields])
      (by norm_num [claimRate, claimDensity, claimSoundSpeed, exEuler3D, exPatchUnit, exEos,
        exFields, Finset.sum_range_succ])
  exact ⟨dt, h1, h3 0 0 0 (by decide)⟩

/-! ## The command line -/

/-- C11: `main` accepts exactly the command lines with two and with four arguments. With
two, the second is the input file and the run is not from restart; with four, the third is
the restart directory, `restore_num` is `atoi` of the fourth and the run is from restart;
in both cases `main` goes on to parse the input file. For every other number of arguments
`main` prints the usage message, aborts and returns `-1`, and no input file is parsed. -/
theorem main_command_line (atoi : String → Int) :
    (∀ a0 a1 : String,
      (main atoi [a0, a1]).returned = none ∧
      (main atoi [a0, a1]).input_filename = a1 ∧
      (main atoi [a0, a1]).is_from_restart = false ∧
      MainEvent.parseInputFile a1 ∈ (main atoi [a0, a1]).events) ∧
    (∀ a0 a1 a2 a3 : String,
      (main atoi [a0, a1, a2, a3]).returned = none ∧
      (main atoi [a0, a1, a2, a3]).input_filename = a1 ∧
      (main atoi [a0, a1, a2, a3]).restart_read_dirname = a2 ∧
      (main atoi [a0, a1, a2, a3]).restore_num = atoi a3 ∧
      (main atoi [a0, a1, a2, a3]).is_from_restart = true ∧
      MainEvent.parseInputFile a1 ∈ (main atoi [a0, a1, a2, a3]).events) ∧
    (∀ argv : List String, argv.length ≠ 2 → argv.length ≠ 4 →
      (main atoi argv).returned = some (-1) ∧
      (∃ text, (main atoi argv).events = [MainEvent.pout text, MainEvent.abort]) ∧
      (main atoi argv).is_from_restart = false ∧
      ∀ f, MainEvent.parseInputFile f ∉ (main atoi argv).events) := by
  refine ⟨?_, ?_, ?_⟩
  · intro a0 a1
    simp [main]
  · intro a0 a1 a2 a3
    simp [main]
  · intro argv h2 h4
    have h2i : ¬ ((argv.length : Int) = 2) := by exact_mod_cast h2
    have h4i : ¬ ((argv.length : Int) = 4) := by exact_mod_cast h4
    simp [main, h2i, h4i]

/-- C11, on concrete command lines: three arguments are refused, four start a run from
restart number 7. -/
theorem main_command_line_witness :
    ((main exAtoi ["main", "input.txt", "restart"]).returned = some (-1) ∧
      (∃ text, (main exAtoi ["main", "input.txt", "restart"]).events
        = [MainEvent.pout text, MainEvent.abort]) ∧
      (main exAtoi ["main", "input.txt", "restart"]).is_from_restart = false ∧
      ∀ f, MainEvent.parseInputFile f ∉ (main exAtoi ["main", "input.txt", "restart"]).events) ∧
    (main exAtoi ["main", "input.txt", "restart", "7"]).restore_num = exAtoi "7" :=
  ⟨(main_command_line exAtoi).2.2 ["main", "input.txt", "restart"] (by decide) (by decide),
   ((main_command_line exAtoi).2.1 "main" "input.txt" "restart" "7").2.2.2.1⟩

/-! ## The WENO interpolation -/

theorem starFlux_contact (eos : RiemannEOS) (W : PrimitiveState) (S : ℚ) (hu : W.u = 0)
    (hr : W.rho ≠ 0) (hS : S ≠ 0) :
    starFlux eos W S 0 = { mass := 0, momentum := W.p, energy := 0 } := by
  simp only [starFlux, physicalFlux, conservedOf, starState, hu, mul_zero, zero_mul,
    sub_zero, zero_add, add_zero, InterfaceFlux.mk.injEq]
  refine ⟨?_, ?_, ?_⟩
  · field_simp
  · trivial
  · field_simp

/-- C14: for two states of equal pressure `p ≥ 0` and zero normal velocity with positive
densities (a stationary contact, the densities may differ) and positive sound speeds, the
solver returns a flux with zero mass and energy components and the momentum component
`p`. -/
theorem computeIntercellFlux_stationary_contact (eos : RiemannEOS) (L R : PrimitiveState)
    (hu_L : L.u = 0) (hu_R : R.u = 0) (hp : L.p = R.p) (hp0 : 0 ≤ L.p)
    (hrho_L : 0 < L.rho) (_hrho_R : 0 < R.rho)
    (hc_L : 0 < eos.soundSpeed L) (hc_R : 0 < eos.soundSpeed R) :
    ∃ S_max, computeIntercellFlux eos L R
      = Except.ok ({ mass := 0, momentum := L.p, energy := 0 }, S_max) := by
  unfold computeIntercellFlux
  simp only [hu_L, hu_R, zero_sub, zero_add]
  have hc : ¬ (eos.soundSpeed L ≤ 0 ∨ eos.soundSpeed R ≤ 0) := by
    intro h
    rcases h with h | h <;> linarith
  have hSL : min (-eos.soundSpeed L) (-eos.soundSpeed R) < 0 :=
    lt_of_le_of_lt (min_le_left _ _) (by linarith)
  have hSR : 0 < max (eos.soundSpeed L) (eos.soundSpeed R) :=
    lt_of_lt_of_le hc_L (le_max_left _ _)
  rw [if_neg hc, if_neg (not_le.mpr hSL), if_neg (not_le.mpr hSR)]
  have hstar : (R.p - L.p + L.rho * 0 * (min (-eos.soundSpeed L) (-eos.soundSpeed R))
      - R.rho * 0 * (max (eos.soundSpeed L) (eos.soundSpeed R)))
      / (L.rho * (min (-eos.soundSpeed L) (-eos.soundSpeed R))
        - R.rho * (max (eos.soundSpeed L) (eos.soundSpeed R))) = 0 := by
    rw [hp]
    simp
  simp only [sub_zero] at hstar ⊢
  rw [hstar]
  simp only [sub_zero, mul_zero, add_zero, le_refl, true_and, if_true]
  rw [if_pos ⟨hp0, le_of_lt hSL, le_of_lt hSR⟩]
  have hS : min (-eos.soundSpeed L) (-eos.soundSpeed R) ≠ 0 := ne_of_lt hSL
  rw [starFlux_contact eos L _ hu_L (ne_of_gt hrho_L) hS]
  exact ⟨_, rfl⟩

/-- C14 on the contact between the densities `1` and `1/8` at pressure `1`. -/
theorem computeIntercellFlux_stationary_contact_witness :
    ∃ S_max, computeIntercellFlux exRiemannEOS { rho := 1, u := 0, p := 1 }
        { rho := 1 / 8, u := 0, p := 1 }
      = Except.ok ({ mass := 0, momentum := 1, energy := 0 }, S_max) :=
  computeIntercellFlux_stationary_contact exRiemannEOS { rho := 1, u := 0, p := 1 }
    { rho := 1 / 8, u := 0, p := 1 } rfl rfl rfl (by norm_num) (by norm_num) (by norm_num)
    (by norm_num [exRiemannEOS]) (by norm_num [exRiemannEOS])

/-! ## The fractions in `Q` -/

theorem fractionField_mem (E : Euler) (hfm : E.d_flow_model ≠ SINGLE_SPECIES) (s : Nat)
    (hs : s < E.d_num_species) : fractionField E.d_flow_model s ∈ buildQ E := by
  unfold buildQ fractionField
  cases hm : E.d_flow_model
  · exact absurd hm hfm
  · simp only [List.mem_append, List.mem_map, List.mem_range]
    exact Or.inr ⟨s, hs, rfl⟩
  · simp only [List.mem_append, List.mem_map, List.mem_range]
    exact Or.inr ⟨s, hs, rfl⟩

theorem buildQ_fraction (E : Euler) (hE : E.wellFormed)
    (hfm : E.d_flow_model ≠ SINGLE_SPECIES) (s : Nat) (hs : s < E.d_num_species) :
    (buildQ E)[E.d_num_eqn + 1 - E.d_num_species + s]?
      = some (fractionField E.d_flow_model s) := by
  rw [← fractionIndex_eq E hE hfm s hs]
  exact List.getElem?_indexOf (fractionField_mem E hfm s hs)

/-- C15: for the two multi-species models, whatever the dimension, `Q` has exactly
`d_num_eqn + 1` entries, `Q[d_num_eqn]` is the fraction of the last species, and for
`si = 0 .. N - 2` the index `d_num_eqn - 1 - si` does not underflow and `Q[d_num_eqn - 1 - si]`
is the fraction of species `N - 2 - si`: the loop recomputing the last fraction reads only
fractions of the other species and stays inside `Q`. -/
theorem buildQ_fraction_layout (E : Euler) (hE : E.wellFormed)
    (hfm : E.d_flow_model ≠ SINGLE_SPECIES) (hN : 1 ≤ E.d_num_species) :
    (buildQ E).length = E.d_num_eqn + 1 ∧
    (buildQ E)[E.d_num_eqn]? = some (fractionField E.d_flow_model (E.d_num_species - 1)) ∧
    ∀ si, si < E.d_num_species - 1 →
      si + 1 ≤ E.d_num_eqn ∧
      (buildQ E)[E.d_num_eqn - 1 - si]?
        = some (fractionField E.d_flow_model (E.d_num_species - 2 - si)) := by
  have hle := species_le_num_eqn E hE hfm
  refine ⟨?_, ?_, fun si hsi => ⟨by omega, ?_⟩⟩
  · rw [buildQ_length E hE, if_neg hfm]
  · have h := buildQ_fraction E hE hfm (E.d_num_species - 1) (by omega)
    have e : E.d_num_eqn + 1 - E.d_num_species + (E.d_num_species - 1) = E.d_num_eqn := by
      omega
    rw [e] at h
    exact h
  · have h := buildQ_fraction E hE hfm (E.d_num_species - 2 - si) (by omega)
    have e : E.d_num_eqn + 1 - E.d_num_species + (E.d_num_species - 2 - si)
        = E.d_num_eqn - 1 - si := by omega
    rw [e] at h
    exact h

/-- C15 on the 3D five-equation object with two species: `Q` has eight entries, `Q[7]` is
the volume fraction of the last species and `Q[6]` that of the first. -/
theorem buildQ_fraction_layout_witness :
    (buildQ exEuler3DFive).length = 7 + 1 ∧
    (buildQ exEuler3DFive)[7]? = some (Field.volume_fraction 1) ∧
    (buildQ exEuler3DFive)[7 - 1 - 0]? = some (Field.volume_fraction 0) :=
  have h := buildQ_fraction_layout exEuler3DFive (by decide) (by decide) (by decide)
  ⟨h.1, h.2.1, (h.2.2 0 (by decide)).2⟩

/-! ## Conservation in 1D -/

/-- C16: in 1D, for every equation `ei < d_num_eqn`, `synchronizeHyperbolicFlux` changes the
sum of `Q[ei]` over the `N` interior cells by
`-(F_x[ei][N] - F_x[ei][0])/dx[0] + Σ_i S[ei][i]`: the interior face fluxes cancel. -/
theorem synchronizeHyperbolicFlux_conservation_1D (E : Euler) (P : Patch) (hD : E.d_dim = 1)
    (s : PatchData) (ei : Nat) (hei : ei < E.d_num_eqn) :
    (∑ i ∈ Finset.range (P.interior_dims 0),
        ((synchronizeHyperbolicFlux E P s).Q ei (idx_cell E P i 0 0)
          - s.Q ei (idx_cell E P i 0 0)))
      = -(s.F 0 ei (P.interior_dims 0) - s.F 0 ei 0) / P.dx 0
        + ∑ i ∈ Finset.range (P.interior_dims 0), s.S ei i := by
  have hdn : 0 < E.d_num_eqn := by omega
  have hterm : ∀ i ∈ Finset.range (P.interior_dims 0),
      (synchronizeHyperbolicFlux E P s).Q ei (idx_cell E P i 0 0) - s.Q ei (idx_cell E P i 0 0)
        = -((s.F 0 ei (i + 1) - s.F 0 ei i) / P.dx 0) + s.S ei i := by
    intro i hi
    have hc : interiorCell E P i 0 0 := Or.inl ⟨hD, Finset.mem_range.mp hi, rfl, rfl⟩
    have hcol := congrFun (synchronizeHyperbolicFlux_col E P hdn s i 0 0 hc) ei
    simp only at hcol
    rw [hcol, syncCol_of_lt E _ _ ei hei]
    simp only [rhs, hD, if_true, rhs_1D, Nat.add_sub_cancel]
    ring
  rw [Finset.sum_congr rfl hterm, Finset.sum_add_distrib, Finset.sum_neg_distrib,
    ← Finset.sum_div, Finset.sum_range_sub (fun i => s.F 0 ei i)]
  ring

/-- C16 on the 1D patch of three cells, for the equation `ei = 1`. -/
theorem synchronizeHyperbolicFlux_conservation_1D_witness :
    (∑ i ∈ Finset.range (exPatch3.interior_dims 0),
        ((synchronizeHyperbolicFlux exEuler1D exPatch3 exRamp).Q 1 (idx_cell exEuler1D exPatch3 i 0 0)
          - exRamp.Q 1 (idx_cell exEuler1D exPatch3 i 0 0)))
      = -(exRamp.F 0 1 (exPatch3.interior_dims 0) - exRamp.F 0 1 0) / exPatch3.dx 0
        + ∑ i ∈ Finset.range (exPatch3.interior_dims 0), exRamp.S 1 i :=
  synchronizeHyperbolicFlux_conservation_1D exEuler1D exPatch3 rfl exRamp 1 (by decide)

/-! ## One forward Euler stage -/

/-- C17: `advanceSingleStep` with `alpha = [1]`, `beta = [1]`, `gamma = [0]` and the
intermediate data `I = (Q0, F0, S0)` leaves in every interior cell, in every entry of `Q`
(the last fraction included), the value that `synchronizeHyperbolicFlux` produces on the
data `I`, for every flow model and dimension. -/
theorem advanceSingleStep_forward_euler (E : Euler) (P : Patch) (hE : E.wellFormed)
    (I s : PatchData) (i j k : Nat) (hc : interiorCell E P i j k) (e : Nat)
    (he : e < (buildQ E).length) :
    (advanceSingleStep E P [1] [1] [0] (fun _ => I) s).Q e (idx_cell E P i j k)
      = (synchronizeHyperbolicFlux E P I).Q e (idx_cell E P i j k) := by
  have hdn := wellFormed_pos E P hE i j k hc
  have hA := congrFun (advanceSingleStep_col E P hdn [1] [1] [0] (fun _ => I) s i j k hc) e
  have hS := congrFun (synchronizeHyperbolicFlux_col E P hdn I i j k hc) e
  simp only at hA hS
  rw [hA, hS]
  have hlen := buildQ_length E hE
  simp only [List.length_singleton, forLoop, List.getD_cons_zero]
  unfold stageCol syncCol
  have hne : ¬ ((1 : ℚ) = 0 ∧ (1 : ℚ) = 0 ∧ (0 : ℚ) = 0) := by
    intro h
    exact one_ne_zero h.1
  rw [if_pos hne]
  have hlow : ∀ e2, e2 < E.d_num_eqn →
      eqnCol E 1 1 (fun e => I.Q e (idx_cell E P i j k)) (rhs E P I.F I.S i j k)
        (fun e => if e < (buildQ E).length then 0 else s.Q e (idx_cell E P i j k)) e2
      = (fun e => if e < E.d_num_eqn then I.Q e (idx_cell E P i j k) + rhs E P I.F I.S i j k e
          else I.Q e (idx_cell E P i j k)) e2 := by
    intro e2 he2
    have hl2 : e2 < (buildQ E).length := lt_of_lt_of_le he2 (num_eqn_le_length E hE)
    simp only [eqnCol, he2, hl2, if_true]
    ring
  by_cases hfm : E.d_flow_model = SINGLE_SPECIES
  · rw [hlen, if_pos hfm] at he
    unfold lastSpeciesCol
    rw [hfm]
    exact hlow e he
  · rw [hlen, if_neg hfm] at he
    by_cases hlast : e = E.d_num_eqn
    · rw [hlast, lastSpeciesCol_last E hfm, lastSpeciesCol_last E hfm]
      congr 1
      refine Finset.sum_congr rfl (fun si _ => ?_)
      exact hlow _ (by omega)
    · rw [lastSpeciesCol_of_ne E _ e hlast, lastSpeciesCol_of_ne E _ e hlast]
      exact hlow e (by omega)

/-- C17 on the 1D two-species object: the last mass fraction (entry 4 of `Q`) of the second
cell. -/
theorem advanceSingleStep_forward_euler_witness :
    (advanceSingleStep exEuler1D exPatch [1] [1] [0] (fun _ => exRamp) exZero).Q 4
        (idx_cell exEuler1D exPatch 1 0 0)
      = (synchronizeHyperbolicFlux exEuler1D exPatch exRamp).Q 4
        (idx_cell exEuler1D exPatch 1 0 0) :=
  advanceSingleStep_forward_euler exEuler1D exPatch (by decide) exRamp exZero 1 0 0
    (by decide) 4 (by decide)

/-! ## The linear indices -/

theorem radix_lt (a A b B : Nat) (ha : a < A) (hb : b < B) : a + b * A < A * B := by
  calc a + b * A < A + b * A := by omega
    _ = A * (b + 1) := by ring
    _ ≤ A * B := Nat.mul_le_mul_left A hb

theorem radix_lt3 (a A b B c C : Nat) (ha : a < A) (hb : b < B) (hc : c < C) :
    a + b * A + c * A * B < A * B * C := by
  have h1 := radix_lt a A b B ha hb
  have h2 := radix_lt (a + b * A) (A * B) c C h1 hc
  calc a + b * A + c * A * B = a + b * A + c * (A * B) := by ring
    _ < A * B * C := h2

/-- C18: for an interior cell `(i, j, k)` of a patch in dimension one, two or three,
`idx_cell` is below the number of cells of the ghost box, `idx_source` is below the number
of interior cells, and for each direction `d` the index `idx_flux_d` is at least one (so
that `idx_flux_d - 1` is not negative) and below the number of faces normal to `d`. -/
theorem interior_indices_in_bounds (E : Euler) (P : Patch) (i j k : Nat)
    (hc : interiorCell E P i j k) :
    idx_cell E P i j k < ghostCellCount E P ∧
    idx_source E P i j k < interiorCellCount E P ∧
    ∀ d, d < E.d_dim →
      1 ≤ idx_flux E P d i j k ∧ idx_flux E P d i j k - 1 < faceCount E P d ∧
      idx_flux E P d i j k < faceCount E P d := by
  rcases hc with ⟨hD, hi, _, _⟩ | ⟨hD, hi, hj, _⟩ | ⟨hD, hi, hj, hk⟩
  · refine ⟨?_, ?_, ?_⟩
    · simp only [idx_cell, idx_cell_1D, ghostCellCount, ghostcell_dims, hD, if_true,
        Finset.prod_range_one]
      omega
    · simp only [idx_source, interiorCellCount, hD, if_true, Finset.prod_range_one]
      exact hi
    · intro d hd
      have hd0 : d = 0 := by omega
      subst hd0
      simp only [idx_flux, faceCount, hD, if_true, Finset.prod_range_one]
      omega
  · have hg0 : i + E.d_num_ghosts 0 < ghostcell_dims E P 0 := by
      unfold ghostcell_dims; omega
    have hg1 : j + E.d_num_ghosts 1 < ghostcell_dims E P 1 := by
      unfold ghostcell_dims; omega
    refine ⟨?_, ?_, ?_⟩
    · simp only [idx_cell, idx_cell_2D, ghostCellCount, hD, if_true, Finset.prod_range_succ,
        Finset.prod_range_zero, one_mul]
      norm_num
      exact radix_lt _ _ _ _ hg0 hg1
    · simp only [idx_source, interiorCellCount, hD, Finset.prod_range_succ,
        Finset.prod_range_zero, one_mul]
      norm_num
      exact radix_lt _ _ _ _ hi hj
    · intro d hd
      have hd01 : d = 0 ∨ d = 1 := by omega
      rcases hd01 with h0 | h1
      · subst h0
        simp only [idx_flux, faceCount, hD, Finset.prod_range_succ, Finset.prod_range_zero,
          one_mul]
        norm_num
        have := radix_lt (i + 1) (P.interior_dims 0 + 1) j (P.interior_dims 1) (by omega) hj
        omega
      · subst h1
        simp only [idx_flux, faceCount, hD, Finset.prod_range_succ, Finset.prod_range_zero,
          one_mul]
        norm_num
        have := radix_lt (j + 1) (P.interior_dims 1 + 1) i (P.interior_dims 0) (by omega) hi
        have e : P.interior_dims 0 * (P.interior_dims 1 + 1)
            = (P.interior_dims 1 + 1) * P.interior_dims 0 := Nat.mul_comm _ _
        omega
  · have hg0 : i + E.d_num_ghosts 0 < ghostcell_dims E P 0 := by
      unfold ghostcell_dims; omega
    have hg1 : j + E.d_num_ghosts 1 < ghostcell_dims E P 1 := by
      unfold ghostcell_dims; omega
    have hg2 : k + E.d_num_ghosts 2 < ghostcell_dims E P 2 := by
      unfold ghostcell_dims; omega
    refine ⟨?_, ?_, ?_⟩
    · simp only [idx_cell, idx_cell_3D, ghostCellCount, hD, Finset.prod_range_succ,
        Finset.prod_range_zero, one_mul]
      norm_num
      exact radix_lt3 _ _ _ _ _ _ hg0 hg1 hg2
    · simp only [idx_source, interiorCellCount, hD, Finset.prod_range_succ,
        Finset.prod_range_zero, one_mul]
      norm_num
      exact radix_lt3 _ _ _ _ _ _ hi hj hk
    · intro d hd
      have hd012 : d = 0 ∨ d = 1 ∨ d = 2 := by omega
      rcases hd012 with h0 | h1 | h2
      · subst h0
        simp only [idx_flux, faceCount, hD, Finset.prod_range_succ, Finset.prod_range_zero,
          one_mul]
        norm_num
        have := radix_lt3 (i + 1) (P.interior_dims 0 + 1) j (P.interior_dims 1) k
          (P.interior_dims 2) (by omega) hj hk
        omega
      · subst h1
        simp only [idx_flux, faceCount, hD, Finset.prod_range_succ, Finset.prod_range_zero,
          one_mul]
        norm_num
        have := radix_lt3 (j + 1) (P.interior_dims 1 + 1) k (P.interior_dims 2) i
          (P.interior_dims 0) (by omega) hk hi
        have e : P.interior_dims 0 * (P.interior_dims 1 + 1) * P.interior_dims 2
            = (P.interior_dims 1 + 1) * P.interior_dims 2 * P.interior_dims 0 := by ring
        omega
      · subst h2
        simp only [idx_flux, faceCount, hD, Finset.prod_range_succ, Finset.prod_range_zero,
          one_mul]
        norm_num
        have := radix_lt3 (k + 1) (P.interior_dims 2 + 1) i (P.interior_dims 0) j
          (P.interior_dims 1) (by omega) hi hj
        have e : P.interior_dims 0 * P.interior_dims 1 * (P.interior_dims 2 + 1)
            = (P.interior_dims 2 + 1) * P.interior_dims 0 * P.interior_dims 1 := by ring
        omega

/-- C18 on the cell `(1, 2, 3)` of the 3D patch of `2 x 3 x 4` cells with two ghost
cells. -/
theorem interior_indices_in_bounds_witness :
    idx_cell exEuler3DFive exPatch234 1 2 3 < ghostCellCount exEuler3DFive exPatch234 ∧
    idx_source exEuler3DFive exPatch234 1 2 3 < interiorCellCount exEuler3DFive exPatch234 ∧
    ∀ d, d < exEuler3DFive.d_dim →
      1 ≤ idx_flux exEuler3DFive exPatch234 d 1 2 3 ∧
      idx_flux exEuler3DFive exPatch234 d 1 2 3 - 1 < faceCount exEuler3DFive exPatch234 d ∧
      idx_flux exEuler3DFive exPatch234 d 1 2 3 < faceCount exEuler3DFive exPatch234 d :=
  interior_indices_in_bounds exEuler3DFive exPatch234 1 2 3 (by decide)

/-! ## The bounds of the boundary state vectors -/

theorem storeAt_ok (name : String) (vector : List DoubleValue) (index : Nat) (x : ℚ)
    (h : index < vector.length) :
    ∃ w, storeAt name vector index x = Except.ok w ∧ w.length = vector.length := by
  unfold storeAt
  rw [if_pos h]
  exact ⟨_, rfl, List.length_set _ _ _⟩

/-- With `momentum.size() >= (array_indx + 1)*d_dim` every write of the momentum loop is
inside the vector. -/
theorem storeMomentumChecked_ok (d_dim array_indx : Nat) (tmp_m : List ℚ)
    (momentum : List DoubleValue) (h : (array_indx + 1) * d_dim ≤ momentum.length) :
    ∃ w, storeMomentumChecked d_dim array_indx tmp_m momentum = Except.ok w
      ∧ w.length = momentum.length := by
  unfold storeMomentumChecked
  have hstep : ∀ n, n ≤ d_dim → ∃ w,
      forLoop n (fun di r => r.bind (fun m =>
        storeAt "momentum" m (array_indx * d_dim + di) (tmp_m.getD di 0)))
        (pure momentum : Except StateFault (List DoubleValue)) = Except.ok w
      ∧ w.length = momentum.length := by
    intro n
    induction n with
    | zero => intro _; exact ⟨momentum, rfl, rfl⟩
    | succ n ih =>
      intro hn
      obtain ⟨w, hw, hlen⟩ := ih (by omega)
      rw [forLoop_succ, hw]
      have hb : array_indx * d_dim + n < w.length := by
        rw [hlen]
        have : (array_indx + 1) * d_dim = array_indx * d_dim + d_dim := by ring
        omega
      obtain ⟨w2, hw2, hlen2⟩ := storeAt_ok "momentum" w _ (tmp_m.getD n 0) hb
      exact ⟨w2, hw2, by rw [hlen2, hlen]⟩
  exact hstep d_dim (le_refl _)

theorem storeFractionsChecked_ok (d_num_species array_indx : Nat) (tmp_Y : List ℚ)
    (fraction : List DoubleValue) (hN : 1 ≤ d_num_species)
    (h : (array_indx + 1) * d_num_species ≤ fraction.length) :
    ∃ w, storeFractionsChecked d_num_species array_indx tmp_Y fraction = Except.ok w
      ∧ w.length = fraction.length := by
  unfold storeFractionsChecked
  have hmul : (array_indx + 1) * d_num_species = array_indx * d_num_species + d_num_species := by
    ring
  have hstep : ∀ n, n ≤ d_num_species - 1 → ∃ st,
      forLoop n (fun si (r : Except StateFault (List DoubleValue × ℚ)) =>
        r.bind (fun st =>
          (storeAt "mass_fraction" st.1 (array_indx * d_num_species + si)
            (tmp_Y.getD si 0)).map (fun f => (f, st.2 - tmp_Y.getD si 0))))
        (pure (fraction, 1)) = Except.ok st
      ∧ st.1.length = fraction.length := by
    intro n
    induction n with
    | zero => intro _; exact ⟨(fraction, 1), rfl, rfl⟩
    | succ n ih =>
      intro hn
      obtain ⟨st, hst, hlen⟩ := ih (by omega)
      rw [forLoop_succ, hst]
      have hb : array_indx * d_num_species + n < st.1.length := by
        rw [hlen]
        omega
      obtain ⟨w2, hw2, hlen2⟩ := storeAt_ok "mass_fraction" st.1 _ (tmp_Y.getD n 0) hb
      refine ⟨(w2, st.2 - tmp_Y.getD n 0), ?_, by rw [hlen2, hlen]⟩
      show Except.map _ (storeAt "mass_fraction" st.1 _ _) = _
      rw [hw2]
      rfl
  obtain ⟨st, hst, hlen⟩ := hstep (d_num_species - 1) (le_refl _)
  rw [hst]
  have hb : (array_indx + 1) * d_num_species - 1 < st.1.length := by
    rw [hlen]
    omega
  obtain ⟨w, hw, hlenw⟩ := storeAt_ok "mass_fraction" st.1 _ st.2 hb
  exact ⟨w, hw, by rw [hlenw, hlen]⟩

/-- C19 as stated fails: with `array_indx = 0` and vectors of one entry every assertion
holds, yet in 2D `readStateDataEntryForSingleSpecies` writes `momentum[1]` outside the
vector of size one, and with two species `readStateDataEntryForFourEqnShyue` writes
`mass_fraction[1]` outside the vector of size one. -/
theorem readStateDataEntry_write_out_of_bounds :
    readStateDataEntryForSingleSpecies 2 exFullStateDb 0 exShortVectors
      = Except.error (StateFault.out_of_bounds "momentum" 1 1) ∧
    readStateDataEntryForFourEqnShyueChecked 1 2 exFullStateDb 0 exShortVectors
      = Except.error (StateFault.out_of_bounds "mass_fraction" 1 1) := by
  exact ⟨rfl, rfl⟩

/-- C19, amended: when `density` and `total_energy` have more than `array_indx` entries,
`momentum` has at least `(array_indx + 1)*D` entries and `mass_fraction` at least
`(array_indx + 1)*N` entries, and the database holds every key with at least `D` momentum
values and `N - 1` mass fractions, both routines return with every write inside its vector
and no assertion or error raised, for every `D` and every `N ≥ 1`. -/
theorem readStateDataEntry_writes_in_bounds (D N array_indx : Nat) (hN : 1 ≤ N)
    (x e : ℚ) (tmp_m tmp_Y : List ℚ) (db : StateDatabase) (v : StateVectors)
    (hdb_density : db.density = some x) (hdb_momentum : db.momentum = some tmp_m)
    (hdb_energy : db.total_energy = some e) (hdb_fraction : db.mass_fraction = some tmp_Y)
    (hm : D ≤ tmp_m.length) (hY : N - 1 ≤ tmp_Y.length)
    (hdensity : array_indx < v.density.length)
    (hmomentum : (array_indx + 1) * D ≤ v.momentum.length) (hD : 1 ≤ D)
    (henergy : array_indx < v.total_energy.length)
    (hfraction : (array_indx + 1) * N ≤ v.mass_fraction.length) :
    (∃ w, readStateDataEntryForSingleSpecies D db array_indx v = Except.ok w) ∧
    (∃ w, readStateDataEntryForFourEqnShyueChecked D N db array_indx v = Except.ok w) := by
  have hmulD : (array_indx + 1) * D = array_indx * D + D := by ring
  have hmulN : (array_indx + 1) * N = array_indx * N + N := by ring
  have ha1 : decide (v.density.length > array_indx) = true := decide_eq_true hdensity
  have ha2 : decide (v.momentum.length > array_indx * D) = true :=
    decide_eq_true (by omega)
  have ha3 : decide (v.total_energy.length > array_indx) = true := decide_eq_true henergy
  have ha4 : decide (v.mass_fraction.length > array_indx * N) = true :=
    decide_eq_true (by omega)
  have hlt : ¬ (tmp_m.length < D) := by omega
  have hltY : ¬ (tmp_Y.length < N - 1) := by omega
  obtain ⟨w1, hw1, _⟩ := storeAt_ok "density" v.density array_indx x hdensity
  obtain ⟨w2, hw2, _⟩ := storeMomentumChecked_ok D array_indx tmp_m v.momentum hmomentum
  obtain ⟨w3, hw3, _⟩ := storeAt_ok "total_energy" v.total_energy array_indx e henergy
  obtain ⟨w4, hw4, _⟩ := storeFractionsChecked_ok N array_indx tmp_Y v.mass_fraction hN
    hfraction
  constructor
  · unfold readStateDataEntryForSingleSpecies tboxAssert
    simp only [ha1, ha2, ha3, if_true, hdb_density, hdb_momentum, hdb_energy, hlt, if_false,
      hw1, hw2, hw3]
    exact ⟨_, rfl⟩
  · unfold readStateDataEntryForFourEqnShyueChecked tboxAssert
    simp only [ha1, ha2, ha3, ha4, if_true, hdb_density, hdb_momentum, hdb_energy,
      hdb_fraction, hlt, hltY, if_false, hw1, hw2, hw3, hw4]
    exact ⟨_, rfl⟩

/-- C19, amended, in 2D with two species at `array_indx = 1`, on vectors of the sizes
`2`, `4`, `2` and `4`. -/
theorem readStateDataEntry_writes_in_bounds_witness :
    (∃ w, readStateDataEntryForSingleSpecies 2 exFullStateDb 1 exLongVectors = Except.ok w) ∧
    (∃ w, readStateDataEntryForFourEqnShyueChecked 2 2 exFullStateDb 1 exLongVectors
      = Except.ok w) :=
  readStateDataEntry_writes_in_bounds 2 2 1 (by decide) 1 4 [2, 3] [1 / 4, 3 / 4]
    exFullStateDb exLongVectors rfl rfl rfl rfl (by decide) (by decide) (by decide)
    (by decide) (by decide) (by decide) (by decide)

/-! ## Boundary state entries in an arithmetic -/

/-- The loop of `storeFractions` after `m` passes, when the slots it writes lie in the
vector: no fault, the length is kept, `Y_last` has been reduced by the first `m` inputs and
the slots `a*N .. a*N + m - 1` hold them. -/
theorem fraction_loop (sub : ℚ → ℚ → ℚ) (name : String) (N a : Nat) (tmp : List ℚ)
    (v : List DoubleValue) (m : Nat) (hm : a * N + m ≤ v.length) :
    ∃ st, forLoop m (fun si (r : Except StateFault (List DoubleValue × ℚ)) =>
        r.bind (fun st =>
        (storeAt name st.1 (a * N + si) (tmp.getD si 0)).map
          (fun f => (f, sub st.2 (tmp.getD si 0))))) (pure (v, 1)) = Except.ok st ∧
      st.1.length = v.length ∧
      st.2 = forLoop m (fun si y => sub y (tmp.getD si 0)) 1 ∧
      ∀ idx, st.1[idx]?
        = if a * N ≤ idx ∧ idx < a * N + m then
            some (DoubleValue.value (tmp.getD (idx - a * N) 0))
          else v[idx]? := by
  induction m with
  | zero =>
    refine ⟨(v, 1), rfl, rfl, rfl, fun idx => ?_⟩
    have : ¬ (a * N ≤ idx ∧ idx < a * N + 0) := by omega
    rw [if_neg this]
  | succ m ih =>
    obtain ⟨st, hst, h1, h2, h3⟩ := ih (by omega)
    rw [forLoop_succ, hst]
    have hb : a * N + m < st.1.length := by rw [h1]; omega
    refine ⟨(st.1.set (a * N + m) (DoubleValue.value (tmp.getD m 0)),
      sub st.2 (tmp.getD m 0)), ?_, ?_, ?_, fun idx => ?_⟩
    · show Except.map _ (storeAt name st.1 (a * N + m) (tmp.getD m 0)) = _
      unfold storeAt
      rw [if_pos hb]
      rfl
    · simp only [List.length_set, h1]
    · rw [forLoop_succ, h2]
    · simp only [List.getElem?_set, h1, h3]
      by_cases hi : a * N + m = idx
      · subst hi
        have hl : a * N + m < v.length := by omega
        have c1 : a * N ≤ a * N + m ∧ a * N + m < a * N + (m + 1) := ⟨by omega, by omega⟩
        simp [-List.getD_eq_getElem?_getD, hl, c1]
      · have c1 : (a * N ≤ idx ∧ idx < a * N + (m + 1)) ↔ (a * N ≤ idx ∧ idx < a * N + m) := by
          omega
        simp only [hi, if_false, c1]

/-- In exact arithmetic `Y_last` is one minus the sum of the inputs read so far. -/
theorem exactSub_loop (tmp : List ℚ) (m : Nat) :
    forLoop m (fun si y => exactSub y (tmp.getD si 0)) 1
      = 1 - ∑ si ∈ Finset.range m, tmp.getD si 0 := by
  induction m with
  | zero => simp [forLoop]
  | succ m ih =>
    rw [forLoop_succ, ih, Finset.sum_range_succ]
    unfold exactSub
    ring

/-- The writes of `storeFractions` when the `N` slots of location `a` lie in the vector. -/
theorem storeFractions_spec (sub : ℚ → ℚ → ℚ) (name : String) (N a : Nat) (hN : 1 ≤ N)
    (tmp : List ℚ) (v : List DoubleValue) (hlen : (a + 1) * N ≤ v.length) :
    ∃ w, storeFractions sub name N a tmp v = Except.ok w ∧
      w.length = v.length ∧
      (∀ si, si < N - 1 → w[a * N + si]? = some (DoubleValue.value (tmp.getD si 0))) ∧
      w[(a + 1) * N - 1]?
        = some (DoubleValue.value (forLoop (N - 1) (fun si y => sub y (tmp.getD si 0)) 1)) ∧
      (∀ idx, idx < a * N ∨ (a + 1) * N ≤ idx → w[idx]? = v[idx]?) := by
  have hmul : (a + 1) * N = a * N + N := by ring
  obtain ⟨st, hst, h1, h2, h3⟩ := fraction_loop sub name N a tmp v (N - 1) (by omega)
  have hb : (a + 1) * N - 1 < st.1.length := by rw [h1]; omega
  refine ⟨st.1.set ((a + 1) * N - 1) (DoubleValue.value st.2), ?_, ?_, ?_, ?_, ?_⟩
  · unfold storeFractions
    rw [hst]
    show storeAt name st.1 ((a + 1) * N - 1) st.2 = _
    unfold storeAt
    rw [if_pos hb]
    rfl
  · simp only [List.length_set, h1]
  · intro si hsi
    simp only [List.getElem?_set, h1, h3]
    have c0 : ¬ (a + 1) * N - 1 = a * N + si := by omega
    have c1 : a * N ≤ a * N + si ∧ a * N + si < a * N + (N - 1) := ⟨by omega, by omega⟩
    simp [-List.getD_eq_getElem?_getD, c0, c1]
  · simp only [List.getElem?_set, h1, h2]
    have c1 : (a + 1) * N - 1 < v.length := by omega
    simp [-List.getD_eq_getElem?_getD, c1]
  · intro idx hidx
    simp only [List.getElem?_set, h1, h3]
    have c0 : ¬ (a + 1) * N - 1 = idx := by omega
    have c1 : ¬ (a * N ≤ idx ∧ idx < a * N + (N - 1)) := by omega
    simp only [c0, c1, if_false]

/-- The `N` fractions stored by `storeFractions` in exact arithmetic sum to one. -/
theorem storeFractions_sum (N a : Nat) (hN : 1 ≤ N) (tmp : List ℚ) (w : List DoubleValue)
    (hA : ∀ si, si < N - 1 → w[a * N + si]? = some (DoubleValue.value (tmp.getD si 0)))
    (hB : w[(a + 1) * N - 1]?
      = some (DoubleValue.value (1 - ∑ si ∈ Finset.range (N - 1), tmp.getD si 0))) :
    storedFractionSum N a w = 1 := by
  have hmul : (a + 1) * N = a * N + N := by ring
  have hlast : (a + 1) * N - 1 = a * N + (N - 1) := by omega
  unfold storedFractionSum
  obtain ⟨M, rfl⟩ : ∃ M, N = M + 1 := ⟨N - 1, by omega⟩
  simp only [Nat.add_sub_cancel] at hA hB hlast ⊢
  rw [Finset.sum_range_succ]
  rw [hlast] at hB
  have e1 : (w.getD (a * (M + 1) + M) DoubleValue.signalingNaN).toRat
      = 1 - ∑ si ∈ Finset.range M, tmp.getD si 0 := by
    rw [List.getD_eq_getElem?_getD, hB]
    rfl
  have e2 : ∀ s ∈ Finset.range M,
      (w.getD (a * (M + 1) + s) DoubleValue.signalingNaN).toRat = tmp.getD s 0 := by
    intro s hs
    rw [List.getD_eq_getElem?_getD, hA s (Finset.mem_range.mp hs)]
    rfl
  rw [e1, Finset.sum_congr rfl e2]
  ring

/-- Input values beyond the first `N - 1` do not show in the stored fractions. -/
theorem storeFractions_take (sub : ℚ → ℚ → ℚ) (name : String) (N a : Nat) (tmp : List ℚ)
    (v : List DoubleValue) :
    storeFractions sub name N a (tmp.take (N - 1)) v = storeFractions sub name N a tmp v := by
  unfold storeFractions
  have hget : ∀ si, si < N - 1 → (tmp.take (N - 1)).getD si 0 = tmp.getD si 0 := by
    intro si hsi
    rw [List.getD_eq_getElem?_getD, List.getD_eq_getElem?_getD, List.getElem?_take, if_pos hsi]
  rw [forLoop_congr _ (fun si (r : Except StateFault (List DoubleValue × ℚ)) =>
      r.bind (fun st =>
      (storeAt name st.1 (a * N + si) (tmp.getD si 0)).map
        (fun f => (f, sub st.2 (tmp.getD si 0)))))
    (N - 1) (fun si hsi st => by simp only [hget si hsi])]

/-- With `partial_density.size() >= (array_indx + 1)*N` every write of the loop of the
partial densities is inside the vector. -/
theorem storePartialDensities_ok (N a : Nat) (tmp : List ℚ) (pd : List DoubleValue)
    (h : (a + 1) * N ≤ pd.length) :
    ∃ w, storePartialDensities N a tmp pd = Except.ok w ∧ w.length = pd.length := by
  unfold storePartialDensities
  have hmul : (a + 1) * N = a * N + N := by ring
  have hstep : ∀ n, n ≤ N → ∃ w,
      forLoop n (fun si r => r.bind (fun pd =>
        storeAt "partial_density" pd (a * N + si) (tmp.getD si 0)))
        (pure pd : Except StateFault (List DoubleValue)) = Except.ok w
      ∧ w.length = pd.length := by
    intro n
    induction n with
    | zero => intro _; exact ⟨pd, rfl, rfl⟩
    | succ n ih =>
      intro hn
      obtain ⟨w, hw, hlen⟩ := ih (by omega)
      rw [forLoop_succ, hw]
      have hb : a * N + n < w.length := by rw [hlen]; omega
      obtain ⟨w2, hw2, hlen2⟩ := storeAt_ok "partial_density" w _ (tmp.getD n 0) hb
      exact ⟨w2, hw2, by rw [hlen2, hlen]⟩
  exact hstep N (le_refl _)

/-- In exact arithmetic the four-equation routine is the routine of the claim on the bounds
of the vectors. -/
theorem readStateDataEntryForFourEqnShyue_exact :
    readStateDataEntryForFourEqnShyue exactSub = readStateDataEntryForFourEqnShyueChecked :=
  rfl

/-- The four-equation routine returns when every entry is there and the vectors have room
for location `a`; the mass fractions of the result are those of `storeFractions`. -/
theorem readStateDataEntryForFourEqnShyue_ok (sub : ℚ → ℚ → ℚ) (D N a : Nat) (hD : 1 ≤ D)
    (hN : 1 ≤ N) (x e : ℚ) (tmp_m tmp_Y : List ℚ) (db : StateDatabase) (v : StateVectors)
    (hd : db.density = some x) (hm : db.momentum = some tmp_m)
    (he : db.total_energy = some e) (hY : db.mass_fraction = some tmp_Y)
    (hlm : D ≤ tmp_m.length) (hlY : N - 1 ≤ tmp_Y.length)
    (hvd : a < v.density.length) (hvm : (a + 1) * D ≤ v.momentum.length)
    (hve : a < v.total_energy.length) (hvY : (a + 1) * N ≤ v.mass_fraction.length)
    (w : List DoubleValue)
    (hw : storeFractions sub "mass_fraction" N a tmp_Y v.mass_fraction = Except.ok w) :
    ∃ r, readStateDataEntryForFourEqnShyue sub D N db a v = Except.ok r ∧
      r.mass_fraction = w := by
  have hmulD : (a + 1) * D = a * D + D := by ring
  have hmulN : (a + 1) * N = a * N + N := by ring
  have ha1 : decide (v.density.length > a) = true := decide_eq_true hvd
  have ha2 : decide (v.momentum.length > a * D) = true := decide_eq_true (by omega)
  have ha3 : decide (v.total_energy.length > a) = true := decide_eq_true hve
  have ha4 : decide (v.mass_fraction.length > a * N) = true := decide_eq_true (by omega)
  have hlt : ¬ (tmp_m.length < D) := by omega
  have hltY : ¬ (tmp_Y.length < N - 1) := by omega
  obtain ⟨w1, hw1, _⟩ := storeAt_ok "density" v.density a x hvd
  obtain ⟨w2, hw2, _⟩ := storeMomentumChecked_ok D a tmp_m v.momentum hvm
  obtain ⟨w3, hw3, _⟩ := storeAt_ok "total_energy" v.total_energy a e hve
  unfold readStateDataEntryForFourEqnShyue tboxAssert
  simp only [ha1, ha2, ha3, ha4, if_true, hd, hm, he, hY, hlt, hltY, if_false,
    hw1, hw2, hw3, hw]
  exact ⟨_, rfl, rfl⟩

/-- The five-equation routine returns when every entry is there and the vectors have room
for location `a`; the volume fractions of the result are those of `storeFractions`. -/
theorem readStateDataEntryForFiveEqnAllaire_ok (sub : ℚ → ℚ → ℚ) (D N a : Nat) (hD : 1 ≤ D)
    (hN : 1 ≤ N) (e : ℚ) (tmp_Z_rho tmp_m tmp_Z : List ℚ) (db : StateDatabase)
    (v : StateVectors)
    (hp : db.partial_density = some tmp_Z_rho) (hm : db.momentum = some tmp_m)
    (he : db.total_energy = some e) (hZ : db.volume_fraction = some tmp_Z)
    (hlp : N ≤ tmp_Z_rho.length) (hlm : D ≤ tmp_m.length) (hlZ : N - 1 ≤ tmp_Z.length)
    (hvp : (a + 1) * N ≤ v.partial_density.length) (hvm : (a + 1) * D ≤ v.momentum.length)
    (hve : a < v.total_energy.length) (hvZ : (a + 1) * N ≤ v.volume_fraction.length)
    (w : List DoubleValue)
    (hw : storeFractions sub "volume_fraction" N a tmp_Z v.volume_fraction = Except.ok w) :
    ∃ r, readStateDataEntryForFiveEqnAllaire sub D N db a v = Except.ok r ∧
      r.volume_fraction = w := by
  have hmulD : (a + 1) * D = a * D + D := by ring
  have hmulN : (a + 1) * N = a * N + N := by ring
  have ha1 : decide (v.partial_density.length > a * N) = true := decide_eq_true (by omega)
  have ha2 : decide (v.momentum.length > a * D) = true := decide_eq_true (by omega)
  have ha3 : decide (v.total_energy.length > a) = true := decide_eq_true hve
  have ha4 : decide (v.volume_fraction.length > a * N) = true := decide_eq_true (by omega)
  have hltp : ¬ (tmp_Z_rho.length < N) := by omega
  have hlt : ¬ (tmp_m.length < D) := by omega
  have hltZ : ¬ (tmp_Z.length < N - 1) := by omega
  obtain ⟨w1, hw1, _⟩ := storePartialDensities_ok N a tmp_Z_rho v.partial_density hvp
  obtain ⟨w2, hw2, _⟩ := storeMomentumChecked_ok D a tmp_m v.momentum hvm
  obtain ⟨w3, hw3, _⟩ := storeAt_ok "total_energy" v.total_energy a e hve
  unfold readStateDataEntryForFiveEqnAllaire tboxAssert
  simp only [ha1, ha2, ha3, ha4, if_true, hp, hm, he, hZ, hltp, hlt, hltZ, if_false,
    hw1, hw2, hw3, hw]
  exact ⟨_, rfl, rfl⟩

/-- Mass fraction values beyond the first `N - 1` do not show in the result of the
four-equation routine. -/
theorem readStateDataEntryForFourEqnShyue_take (sub : ℚ → ℚ → ℚ) (D N a : Nat)
    (tmp_Y : List ℚ) (db : StateDatabase) (v : StateVectors)
    (hY : db.mass_fraction = some tmp_Y) (hlY : N - 1 ≤ tmp_Y.length) :
    readStateDataEntryForFourEqnShyue sub D N
        { db with mass_fraction := some (tmp_Y.take (N - 1)) } a v
      = readStateDataEntryForFourEqnShyue sub D N db a v := by
  have htY : ¬ ((tmp_Y.take (N - 1)).length < N - 1) := by
    rw [List.length_take]; omega
  have hltY : ¬ (tmp_Y.length < N - 1) := by omega
  unfold readStateDataEntryForFourEqnShyue
  simp only [hY, htY, hltY, if_false, storeFractions_take]

/-- Volume fraction values beyond the first `N - 1` do not show in the result of the
five-equation routine. -/
theorem readStateDataEntryForFiveEqnAllaire_take (sub : ℚ → ℚ → ℚ) (D N a : Nat)
    (tmp_Z : List ℚ) (db : StateDatabase) (v : StateVectors)
    (hZ : db.volume_fraction = some tmp_Z) (hlZ : N - 1 ≤ tmp_Z.length) :
    readStateDataEntryForFiveEqnAllaire sub D N
        { db with volume_fraction := some (tmp_Z.take (N - 1)) } a v
      = readStateDataEntryForFiveEqnAllaire sub D N db a v := by
  have htZ : ¬ ((tmp_Z.take (N - 1)).length < N - 1) := by
    rw [List.length_take]; omega
  have hltZ : ¬ (tmp_Z.length < N - 1) := by omega
  unfold readStateDataEntryForFiveEqnAllaire
  simp only [hZ, htZ, hltZ, if_false, storeFractions_take]

/-- C7 as stated fails. (1) In double arithmetic, with three species and the inputs `0.3`
and `0.6` (the doubles nearest to them), `Y_last -= 0.3` gives the double `0.7` and
`Y_last -= 0.6` gives `900719925474099/2^53`; the three stored fractions sum to
`1 - 2^-54`, and added in double arithmetic to `1 - 2^-53`, for both routines. (2) With an
input vector of `N - 1` values but no `density` (resp. `partial_density`) entry the routine
stops with an error. (3) With every entry there and every assertion true, a fraction vector
of one entry is too short for the two slots of location `0`: the write of the last slot
falls outside the vector. -/
theorem readStateDataEntry_sum_below_one :
    (∃ r, readStateDataEntryForFourEqnShyue doubleSub 1 3 exDoubleStateDb 0 exStateVectors
        = Except.ok r ∧
      r.mass_fraction.take 3
        = [DoubleValue.value (roundToDouble (3 / 10)),
           DoubleValue.value (roundToDouble (6 / 10)),
           DoubleValue.value (900719925474099 / 9007199254740992)] ∧
      storedFractionSum 3 0 r.mass_fraction = 1 - 1 / 18014398509481984) ∧
    (∃ r, readStateDataEntryForFiveEqnAllaire doubleSub 1 3 exDoubleStateDb 0 exStateVectors
        = Except.ok r ∧
      r.volume_fraction.take 3
        = [DoubleValue.value (roundToDouble (3 / 10)),
           DoubleValue.value (roundToDouble (6 / 10)),
           DoubleValue.value (900719925474099 / 9007199254740992)] ∧
      storedFractionSum 3 0 r.volume_fraction = 1 - 1 / 18014398509481984) ∧
    doubleAdd (doubleAdd (roundToDouble (3 / 10)) (roundToDouble (6 / 10)))
        (900719925474099 / 9007199254740992) = 1 - 1 / 9007199254740992 ∧
    readStateDataEntryForFourEqnShyue exactSub 1 3
        { exStateDb with density := none } 1 exStateVectors
      = Except.error (StateFault.tbox_error "'density' entry missing from input database.") ∧
    readStateDataEntryForFiveEqnAllaire exactSub 1 3
        { exStateDb with partial_density := none } 1 exStateVectors
      = Except.error
          (StateFault.tbox_error "'partial_density' entry missing from input database.") ∧
    readStateDataEntryForFourEqnShyue exactSub 1 2 exFullStateDb 0 exShortVectors
      = Except.error (StateFault.out_of_bounds "mass_fraction" 1 1) ∧
    readStateDataEntryForFiveEqnAllaire exactSub 1 2 exFullStateDb 0 exOneSlotVectors
      = Except.error (StateFault.out_of_bounds "partial_density" 1 1) := by
  refine ⟨⟨_, by with_unfolding_all rfl, by with_unfolding_all rfl, ?_⟩,
    ⟨_, by with_unfolding_all rfl, by with_unfolding_all rfl, ?_⟩,
    by with_unfolding_all rfl, rfl, rfl, rfl, rfl⟩
  · with_unfolding_all rfl
  · with_unfolding_all rfl

/-- Claim C7, amended: in exact arithmetic, for `D ≥ 1`, `N ≥ 1` species and a boundary
location `a`, when the database holds `D` momentum values and the total energy and the
vectors `momentum` and `total_energy` have room for location `a`, then
(four-equation model) with the `density` entry, at least `N - 1` mass fraction values,
`density.size() > a` and `mass_fraction.size() >= (a + 1)*N`, the routine
`readStateDataEntryForFourEqnShyue` returns, stores the first `N - 1` input values in the
slots `a*N .. a*N + N - 2` of `mass_fraction` and one minus their sum in the slot
`(a + 1)*N - 1`, leaves the slots of the other locations as they were, so that the `N`
stored fractions of the location sum to exactly one, and the input values beyond the first
`N - 1` are ignored; and (five-equation model) with at least `N` partial densities, at
least `N - 1` volume fraction values, `partial_density.size() >= (a + 1)*N` and
`volume_fraction.size() >= (a + 1)*N`, the same holds of
`readStateDataEntryForFiveEqnAllaire` and `volume_fraction`. -/
theorem readStateDataEntry_unit_sum_exact (D N a : Nat) (hD : 1 ≤ D) (hN : 1 ≤ N) (e : ℚ)
    (tmp_m : List ℚ) (db : StateDatabase) (v : StateVectors)
    (hm : db.momentum = some tmp_m) (he : db.total_energy = some e)
    (hlm : D ≤ tmp_m.length) (hvm : (a + 1) * D ≤ v.momentum.length)
    (hve : a < v.total_energy.length) :
    (∀ (x : ℚ) (tmp_Y : List ℚ), db.density = some x → db.mass_fraction = some tmp_Y →
      N - 1 ≤ tmp_Y.length → a < v.density.length →
      (a + 1) * N ≤ v.mass_fraction.length →
      ∃ r, readStateDataEntryForFourEqnShyue exactSub D N db a v = Except.ok r ∧
        r.mass_fraction.length = v.mass_fraction.length ∧
        (∀ si, si < N - 1 →
          r.mass_fraction[a * N + si]? = some (DoubleValue.value (tmp_Y.getD si 0))) ∧
        r.mass_fraction[(a + 1) * N - 1]?
          = some (DoubleValue.value (1 - ∑ si ∈ Finset.range (N - 1), tmp_Y.getD si 0)) ∧
        (∀ idx, idx < a * N ∨ (a + 1) * N ≤ idx →
          r.mass_fraction[idx]? = v.mass_fraction[idx]?) ∧
        storedFractionSum N a r.mass_fraction = 1 ∧
        readStateDataEntryForFourEqnShyue exactSub D N
          { db with mass_fraction := some (tmp_Y.take (N - 1)) } a v = Except.ok r) ∧
    (∀ (tmp_Z_rho tmp_Z : List ℚ), db.partial_density = some tmp_Z_rho →
      db.volume_fraction = some tmp_Z → N ≤ tmp_Z_rho.length → N - 1 ≤ tmp_Z.length →
      (a + 1) * N ≤ v.partial_density.length → (a + 1) * N ≤ v.volume_fraction.length →
      ∃ r, readStateDataEntryForFiveEqnAllaire exactSub D N db a v = Except.ok r ∧
        r.volume_fraction.length = v.volume_fraction.length ∧
        (∀ si, si < N - 1 →
          r.volume_fraction[a * N + si]? = some (DoubleValue.value (tmp_Z.getD si 0))) ∧
        r.volume_fraction[(a + 1) * N - 1]?
          = some (DoubleValue.value (1 - ∑ si ∈ Finset.range (N - 1), tmp_Z.getD si 0)) ∧
        (∀ idx, idx < a * N ∨ (a + 1) * N ≤ idx →
          r.volume_fraction[idx]? = v.volume_fraction[idx]?) ∧
        storedFractionSum N a r.volume_fraction = 1 ∧
        readStateDataEntryForFiveEqnAllaire exactSub D N
          { db with volume_fraction := some (tmp_Z.take (N - 1)) } a v = Except.ok r) := by
  constructor
  · intro x tmp_Y hd hY hlY hvd hvY
    obtain ⟨w, hw, s0, s1, s2, s3⟩ :=
      storeFractions_spec exactSub "mass_fraction" N a hN tmp_Y v.mass_fraction hvY
    rw [exactSub_loop] at s2
    obtain ⟨r, hr, hrw⟩ := readStateDataEntryForFourEqnShyue_ok exactSub D N a hD hN x e tmp_m
      tmp_Y db v hd hm he hY hlm hlY hvd hvm hve hvY w hw
    refine ⟨r, hr, by rw [hrw, s0], by rw [hrw]; exact s1, by rw [hrw]; exact s2,
      by rw [hrw]; exact s3,
      by rw [hrw]; exact storeFractions_sum N a hN tmp_Y w s1 s2, ?_⟩
    rw [readStateDataEntryForFourEqnShyue_take exactSub D N a tmp_Y db v hY hlY, hr]
  · intro tmp_Z_rho tmp_Z hp hZ hlp hlZ hvp hvZ
    obtain ⟨w, hw, s0, s1, s2, s3⟩ :=
      storeFractions_spec exactSub "volume_fraction" N a hN tmp_Z v.volume_fraction hvZ
    rw [exactSub_loop] at s2
    obtain ⟨r, hr, hrw⟩ := readStateDataEntryForFiveEqnAllaire_ok exactSub D N a hD hN e
      tmp_Z_rho tmp_m tmp_Z db v hp hm he hZ hlp hlm hlZ hvp hvm hve hvZ w hw
    refine ⟨r, hr, by rw [hrw, s0], by rw [hrw]; exact s1, by rw [hrw]; exact s2,
      by rw [hrw]; exact s3,
      by rw [hrw]; exact storeFractions_sum N a hN tmp_Z w s1 s2, ?_⟩
    rw [readStateDataEntryForFiveEqnAllaire_take exactSub D N a tmp_Z db v hZ hlZ, hr]

/-- Witness for claim C7, amended: one dimension, three species, the second boundary
location, three input values of which the third is ignored. -/
theorem readStateDataEntry_unit_sum_exact_witness :
    (∃ r, readStateDataEntryForFourEqnShyue exactSub 1 3 exStateDb 1 exStateVectors
        = Except.ok r ∧
      r.mass_fraction[5]? = some (DoubleValue.value (1 - ∑ si ∈ Finset.range 2,
        ([1 / 4, 1 / 2, 7] : List ℚ).getD si 0)) ∧
      storedFractionSum 3 1 r.mass_fraction = 1) ∧
    (∃ r, readStateDataEntryForFiveEqnAllaire exactSub 1 3 exStateDb 1 exStateVectors
        = Except.ok r ∧
      r.volume_fraction[5]? = some (DoubleValue.value (1 - ∑ si ∈ Finset.range 2,
        ([1 / 8, 1 / 8, 9] : List ℚ).getD si 0)) ∧
      storedFractionSum 3 1 r.volume_fraction = 1) := by
  have h := readStateDataEntry_unit_sum_exact 1 3 1 (by decide) (by decide) (5 / 2) [0]
    exStateDb exStateVectors rfl rfl (by decide) (by decide) (by decide)
  obtain ⟨r1, a1, _, _, a3, _, a5, _⟩ := h.1 1 [1 / 4, 1 / 2, 7] rfl rfl (by decide)
    (by decide) (by decide)
  obtain ⟨r2, b1, _, _, b3, _, b5, _⟩ := h.2 [1 / 2, 1 / 2, 1 / 4] [1 / 8, 1 / 8, 9] rfl rfl
    (by decide) (by decide) (by decide) (by decide)
  exact ⟨⟨r1, a1, a3, a5⟩, ⟨r2, b1, b3, b5⟩⟩

/-! ## The refinement data of the input -/

/-- What the key loop asks of a key other than `refine_criteria`. -/
theorem refinementKeyLoop_step (refine_db : RefinementDatabase) (error_key : String)
    (rest : List String) (E : EulerObject) (defined : List String)
    (hk : error_key ≠ "refine_criteria") :
    ((error_key = "DENSITY_SHOCK" ∨ error_key = "PRESSURE_SHOCK") ∧
      ∃ error_db tol, refine_db.getDatabase error_key = some error_db
        ∧ error_db.shock_tol = some tol ∧
        ∃ E2, E2.d_refinement_criteria = E.d_refinement_criteria ∧
          refinementKeyLoop refine_db (error_key :: rest) (E, defined)
            = refinementKeyLoop refine_db rest (E2, defined ++ [error_key])) ∨
    (¬ ((error_key = "DENSITY_SHOCK" ∨ error_key = "PRESSURE_SHOCK") ∧
      ∃ error_db tol, refine_db.getDatabase error_key = some error_db
        ∧ error_db.shock_tol = some tol) ∧
      ∃ msg, refinementKeyLoop refine_db (error_key :: rest) (E, defined)
        = Except.error msg) := by
  rw [refinementKeyLoop]
  rw [if_pos hk]
  by_cases hn : error_key = "DENSITY_SHOCK" ∨ error_key = "PRESSURE_SHOCK"
  · rw [if_neg (not_not_intro hn)]
    cases hdb : refine_db.getDatabase error_key with
    | none =>
      right
      refine ⟨?_, _, rfl⟩
      rintro ⟨_, error_db, tol, h, _⟩
      cases h
    | some error_db =>
      cases htol : error_db.shock_tol with
      | none =>
        right
        refine ⟨?_, ?_⟩
        · rintro ⟨_, error_db2, tol, h, h2⟩
          cases h
          rw [htol] at h2
          cases h2
        · rcases hn with h | h
          · simp only [h, htol, if_true]
            exact ⟨_, rfl⟩
          · have hne : ¬ (error_key = "DENSITY_SHOCK") := by
              rw [h]; decide
            simp only [hne, h, htol, if_true, if_false]
            exact ⟨_, rfl⟩
      | some tol =>
        left
        refine ⟨hn, error_db, tol, rfl, htol, ?_⟩
        rcases hn with h | h
        · have hne : ¬ ("DENSITY_SHOCK" = "PRESSURE_SHOCK") := by decide
          subst h
          simp only [htol, if_true, hne, if_false]
          exact ⟨{ E with d_density_shock_tol := tol }, rfl, rfl⟩
        · have hne : ¬ ("PRESSURE_SHOCK" = "DENSITY_SHOCK") := by decide
          subst h
          simp only [htol, if_true, hne, if_false]
          exact ⟨{ E with d_pressure_shock_tol := tol }, rfl, rfl⟩
  · rw [if_pos hn]
    right
    exact ⟨fun h => hn h.1, _, rfl⟩

/-- The key loop succeeds exactly when every key other than `refine_criteria` is one of
the two criteria with a sub-database holding `shock_tol`; it then has stored these keys in
`ref_keys_defined` and has kept `d_refinement_criteria`. -/
theorem refinementKeyLoop_ok_iff (refine_db : RefinementDatabase) (keys : List String) :
    ∀ (E : EulerObject) (defined : List String),
    ((∃ st, refinementKeyLoop refine_db keys (E, defined) = Except.ok st) ↔
      ∀ key, key ∈ keys → key ≠ "refine_criteria" →
        (key = "DENSITY_SHOCK" ∨ key = "PRESSURE_SHOCK") ∧
        ∃ error_db tol, refine_db.getDatabase key = some error_db
          ∧ error_db.shock_tol = some tol) ∧
    (∀ st, refinementKeyLoop refine_db keys (E, defined) = Except.ok st →
      st.2 = defined ++ keys.filter (fun key => key ≠ "refine_criteria") ∧
      st.1.d_refinement_criteria = E.d_refinement_criteria) := by
  induction keys with
  | nil =>
    intro E defined
    refine ⟨⟨fun _ key hkey => absurd hkey (List.not_mem_nil key), fun _ => ⟨_, rfl⟩⟩, ?_⟩
    intro st hst
    rw [refinementKeyLoop] at hst
    cases hst
    simp
  | cons error_key rest ih =>
    intro E defined
    by_cases hk : error_key = "refine_criteria"
    · have hstep : refinementKeyLoop refine_db (error_key :: rest) (E, defined)
          = refinementKeyLoop refine_db rest (E, defined) := by
        rw [refinementKeyLoop, if_neg (not_not_intro hk)]
      rw [hstep]
      obtain ⟨ih1, ih2⟩ := ih E defined
      refine ⟨?_, ?_⟩
      · rw [ih1]
        constructor
        · intro h key hkey hne
          rcases List.mem_cons.mp hkey with h1 | h1
          · exact absurd (h1.trans hk) hne
          · exact h key h1 hne
        · intro h key hkey hne
          exact h key (List.mem_cons_of_mem _ hkey) hne
      · intro st hst
        obtain ⟨h1, h2⟩ := ih2 st hst
        refine ⟨?_, h2⟩
        rw [h1, List.filter_cons_of_neg (by simpa using hk)]
    · rcases refinementKeyLoop_step refine_db error_key rest E defined hk with
        ⟨hn, error_db, tol, hdb, htol, E2, hE2, hstep⟩ | ⟨hbad, msg, herr⟩
      · rw [hstep]
        obtain ⟨ih1, ih2⟩ := ih E2 (defined ++ [error_key])
        refine ⟨?_, ?_⟩
        · rw [ih1]
          constructor
          · intro h key hkey hne
            rcases List.mem_cons.mp hkey with h1 | h1
            · rw [h1]
              exact ⟨hn, error_db, tol, hdb, htol⟩
            · exact h key h1 hne
          · intro h key hkey hne
            exact h key (List.mem_cons_of_mem _ hkey) hne
        · intro st hst
          obtain ⟨h1, h2⟩ := ih2 st hst
          refine ⟨?_, h2.trans hE2⟩
          rw [h1, List.filter_cons_of_pos (by simpa using hk), List.append_assoc]
          rfl
      · rw [herr]
        refine ⟨?_, ?_⟩
        · constructor
          · rintro ⟨st, hst⟩
            cases hst
          · intro h
            exact absurd (h error_key (List.mem_cons_self _ _) hk) hbad
        · intro st hst
          cases hst

theorem checkRefinementCriteria_ok_iff (defined : List String) (criteria : List String) :
    checkRefinementCriteria defined criteria = Except.ok () ↔
      ∀ use_key, use_key ∈ criteria → use_key ∈ defined := by
  induction criteria with
  | nil =>
    simp [checkRefinementCriteria]
    rfl
  | cons use_key rest ih =>
    rw [checkRefinementCriteria]
    by_cases hf : use_key ∈ defined
    · have hany : defined.any (fun def_key => decide (def_key = use_key)) = true := by
        rw [List.any_eq_true]
        exact ⟨use_key, hf, by simp⟩
      simp only [hany, not_true_eq_false, if_false]
      rw [ih]
      constructor
      · intro h key hkey
        rcases List.mem_cons.mp hkey with h1 | h1
        · rw [h1]; exact hf
        · exact h key h1
      · intro h key hkey
        exact h key (List.mem_cons_of_mem _ hkey)
    · have hany : ¬ (defined.any (fun def_key => decide (def_key = use_key)) = true) := by
        rw [List.any_eq_true]
        rintro ⟨x, hx, hxe⟩
        have : x = use_key := by simpa using hxe
        exact hf (this ▸ hx)
      simp only [hany, not_false_eq_true, if_true]
      constructor
      · intro h
        cases h
      · intro h
        exact absurd (h use_key (List.mem_cons_self _ _)) hf

/-- C20: on an object whose `d_refinement_criteria` is empty, as the constructor leaves it,
the block of `getFromInput` on a `Refinement_data` database completes without error if and
only if every key other than `refine_criteria` is `DENSITY_SHOCK` or `PRESSURE_SHOCK` and
its sub-database contains `shock_tol`, and every string listed under `refine_criteria` is
the name of one of the sub-databases present. -/
theorem getFromInput_refinement_ok_iff (refine_db : RefinementDatabase) (E : EulerObject)
    (hE : E.d_refinement_criteria = []) :
    (∃ E2, getFromInput_refinement (some refine_db) E = Except.ok E2) ↔
      (∀ key, key ∈ refine_db.getAllKeys → key ≠ "refine_criteria" →
        (key = "DENSITY_SHOCK" ∨ key = "PRESSURE_SHOCK") ∧
        ∃ error_db tol, refine_db.getDatabase key = some error_db
          ∧ error_db.shock_tol = some tol) ∧
      (∀ use_key, use_key ∈ refine_db.refine_criteria.getD [] →
        use_key ∈ refine_db.subDatabaseNames) := by
  have hcrit : (match refine_db.refine_criteria with
      | some criteria => { E with d_refinement_criteria := criteria }
      | none => E).d_refinement_criteria = refine_db.refine_criteria.getD [] := by
    cases refine_db.refine_criteria with
    | none => exact hE
    | some criteria => rfl
  obtain ⟨h1, h2⟩ := refinementKeyLoop_ok_iff refine_db refine_db.getAllKeys
    (match refine_db.refine_criteria with
      | some criteria => { E with d_refinement_criteria := criteria }
      | none => E) []
  unfold getFromInput_refinement
  simp only
  constructor
  · rintro ⟨E2, hok⟩
    cases hloop : refinementKeyLoop refine_db refine_db.getAllKeys
      (match refine_db.refine_criteria with
        | some criteria => { E with d_refinement_criteria := criteria }
        | none => E, []) with
    | error msg =>
      rw [hloop] at hok
      cases hok
    | ok st =>
      rw [hloop] at hok
      obtain ⟨hdef, hkeep⟩ := h2 st hloop
      refine ⟨h1.mp ⟨st, hloop⟩, ?_⟩
      cases hchk : checkRefinementCriteria st.2 st.1.d_refinement_criteria with
      | error msg =>
        simp only [Except.bind, hchk] at hok
        cases hok
      | ok u =>
        have hall := (checkRefinementCriteria_ok_iff _ _).mp hchk
        rw [hkeep, hcrit, hdef, List.nil_append] at hall
        exact hall
  · rintro ⟨hkeys, hcr⟩
    obtain ⟨st, hloop⟩ := h1.mpr hkeys
    obtain ⟨hdef, hkeep⟩ := h2 st hloop
    rw [hloop]
    have hchk : checkRefinementCriteria st.2 st.1.d_refinement_criteria = Except.ok () := by
      rw [checkRefinementCriteria_ok_iff, hkeep, hcrit, hdef, List.nil_append]
      exact hcr
    exact ⟨st.1, by simp only [Except.bind, hchk]; rfl⟩

/-- C20 on a fresh object and the `Refinement_data` database with the criterion
`DENSITY_SHOCK` and its sub-database: the input is accepted. -/
theorem getFromInput_refinement_ok_iff_witness :
    ∃ E2, getFromInput_refinement (some exRefinementDb)
      (EulerObject.fresh 1 SINGLE_SPECIES 1 3) = Except.ok E2 :=
  (getFromInput_refinement_ok_iff exRefinementDb (EulerObject.fresh 1 SINGLE_SPECIES 1 3)
    rfl).mpr (by
      refine ⟨?_, ?_⟩
      · intro key hkey hne
        have hk : key = "DENSITY_SHOCK" := by
          simp [RefinementDatabase.getAllKeys, exRefinementDb] at hkey
          rcases hkey with h | h
          · exact absurd h hne
          · exact h
        subst hk
        exact ⟨Or.inl rfl, _, _, rfl, rfl⟩
      · intro use_key huse
        have hk : use_key = "DENSITY_SHOCK" := by
          simpa [exRefinementDb] using huse
        subst hk
        decide)

/-! ## The derived plot data -/

theorem regionLoop_eq_cellLoop {σ : Type} (E : Euler) (region_dims : Nat → Nat)
    (body : Nat → Nat → Nat → σ → σ) (s : σ) :
    regionLoop E region_dims body s
      = cellLoop E { interior_dims := region_dims, dx := fun _ => 0 } body s := rfl

theorem regionCell_iff (E : Euler) (region_dims : Nat → Nat) (i j k : Nat) :
    regionCell E region_dims i j k
      ↔ interiorCell E { interior_dims := region_dims, dx := fun _ => 0 } i j k := Iff.rfl

/-- Distinct cells of the region have distinct positions in the buffer. -/
theorem idx_region_inj (E : Euler) (region_dims : Nat → Nat) (i j k i0 j0 k0 : Nat)
    (hc : regionCell E region_dims i j k) (hc0 : regionCell E region_dims i0 j0 k0)
    (h : idx_region E region_dims i j k = idx_region E region_dims i0 j0 k0) :
    i = i0 ∧ j = j0 ∧ k = k0 := by
  unfold idx_region at h
  rcases hc with ⟨hD, hi, hj, hk⟩ | ⟨hD, hi, hj, hk⟩ | ⟨hD, hi, hj, hk⟩
  · rcases hc0 with ⟨_, hi0, hj0, hk0⟩ | ⟨hD0, _⟩ | ⟨hD0, _⟩
    · simp only [hD, if_true] at h
      exact ⟨h, by omega, by omega⟩
    · omega
    · omega
  · rcases hc0 with ⟨hD0, _⟩ | ⟨_, hi0, hj0, hk0⟩ | ⟨hD0, _⟩
    · omega
    · have h1 : ¬ E.d_dim = 1 := by omega
      simp only [h1, hD, if_true, if_false] at h
      obtain ⟨e1, e2⟩ := radix_inj _ _ _ _ _ hi hi0 h
      exact ⟨e1, e2, by omega⟩
    · omega
  · rcases hc0 with ⟨hD0, _⟩ | ⟨hD0, _⟩ | ⟨_, hi0, hj0, hk0⟩
    · omega
    · omega
    · have h1 : ¬ E.d_dim = 1 := by omega
      have h2 : ¬ E.d_dim = 2 := by omega
      simp only [h1, h2, if_false] at h
      have h3 : (i + j * region_dims 0) + k * (region_dims 0 * region_dims 1)
          = (i0 + j0 * region_dims 0) + k0 * (region_dims 0 * region_dims 1) := by
        rw [← Nat.mul_assoc, ← Nat.mul_assoc]
        exact h
      have hlt : ∀ a b, a < region_dims 0 → b < region_dims 1 →
          a + b * region_dims 0 < region_dims 0 * region_dims 1 :=
        fun a b ha hb => radix_lt a _ b _ ha hb
      obtain ⟨e1, e2⟩ := radix_inj _ _ _ _ _ (hlt i j hi hj) (hlt i0 j0 hi0 hj0) h3
      obtain ⟨e3, e4⟩ := radix_inj _ _ _ _ _ hi hi0 e1
      exact ⟨e3, e4, e2⟩

/-- After the loops of a branch, the buffer holds at the position of a cell of the region
the value of the branch on the data of that cell. -/
theorem packRegion_apply (E : Euler) (data_dims region_dims : Nat → Nat) (offset_data : Nat)
    (value : Nat → ℚ) (buffer : Nat → ℚ) (i0 j0 k0 : Nat)
    (hc : regionCell E region_dims i0 j0 k0) :
    packRegion E data_dims region_dims offset_data value buffer
        (idx_region E region_dims i0 j0 k0)
      = value (idx_data E data_dims offset_data i0 j0 k0) := by
  unfold packRegion
  rw [regionLoop_eq_cellLoop]
  have hmap := cellLoop_map E { interior_dims := region_dims, dx := fun _ => 0 }
    (fun (b : Nat → ℚ) => b (idx_region E region_dims i0 j0 k0))
    (fun i j k (buffer : Nat → ℚ) => fun n =>
      if n = idx_region E region_dims i j k
      then value (idx_data E data_dims offset_data i j k) else buffer n)
    (fun i j k x =>
      if idx_region E region_dims i0 j0 k0 = idx_region E region_dims i j k
      then value (idx_data E data_dims offset_data i j k) else x)
    (fun i j k s => rfl) buffer
  simp only at hmap
  rw [hmap]
  refine cellLoop_select E _ _ (fun _ => value (idx_data E data_dims offset_data i0 j0 k0))
    i0 j0 k0 ((regionCell_iff E region_dims i0 j0 k0).mp hc) (fun s => by simp)
    (fun i j k hijk hne s => ?_) _
  have hn : ¬ idx_region E region_dims i0 j0 k0 = idx_region E region_dims i j k :=
    fun h => hne (idx_region_inj E region_dims i j k i0 j0 k0
      ((regionCell_iff E region_dims i j k).mpr hijk) hc h.symm)
  simp [hn]

theorem sum_map_range (f : Nat → ℚ) (n : Nat) :
    ((List.range n).map f).sum = ∑ t ∈ Finset.range n, f t := by
  induction n with
  | zero => simp
  | succ n ih =>
    rw [List.range_succ, List.map_append, List.sum_append, ih, Finset.sum_range_succ]
    simp

/-- The name `"mass fraction " ++ digits` is none of the four names tested first, it
contains `"mass fraction"`, and its characters from position 14 on are `digits`. -/
theorem massFractionName (digits : String) :
    "mass fraction " ++ digits ≠ "pressure" ∧
    "mass fraction " ++ digits ≠ "sound speed" ∧
    "mass fraction " ++ digits ≠ "velocity" ∧
    "mass fraction " ++ digits ≠ "density" ∧
    "mass fraction".data <:+: ("mass fraction " ++ digits).data ∧
    substr ("mass fraction " ++ digits) 14 = some digits := by
  have hdata : ("mass fraction " ++ digits).data = "mass fraction ".data ++ digits.data :=
    String.data_append _ _
  have hne : ∀ other : String, "mass fraction ".data.take 1 ≠ other.data.take 1 →
      "mass fraction " ++ digits ≠ other := by
    intro other hother heq
    apply hother
    have h1 := congrArg (fun s : String => s.data.take 1) heq
    simp only [hdata] at h1
    rw [List.take_append_of_le_length (by decide)] at h1
    exact h1
  refine ⟨hne _ (by decide), hne _ (by decide), hne _ (by decide), hne _ (by decide), ?_, ?_⟩
  · rw [hdata]
    refine ⟨[], " ".data ++ digits.data, ?_⟩
    rw [List.nil_append, ← List.append_assoc]
    rfl
  · unfold substr
    have hlen : 14 ≤ ("mass fraction " ++ digits).length := by
      rw [String.length_append]
      have : "mass fraction ".length = 14 := by decide
      omega
    rw [if_pos hlen, hdata]
    have hdrop : ("mass fraction ".data ++ digits.data).drop 14 = digits.data :=
      List.drop_left' (by decide)
    rw [hdrop]

/-- The branch taken for the name `"mass fraction " ++ digits` with the number `s` of a
species: the buffer is packed with `Z_rho[s][idx_data]/rho`. -/
theorem packMassFraction_eq (E : Euler)
    (eos : DerivedEquationOfState) (stoi : String → Option Int) (U : CellFields)
    (data_dims region_dims : Nat → Nat) (offset_data depth_id : Nat) (buffer : Nat → ℚ)
    (digits : String) (s : Nat) (hfm : E.d_flow_model = FIVE_EQN_ALLAIRE)
    (hs : s < E.d_num_species) (hstoi : stoi digits = some (s : Int)) :
    packDerivedDataIntoDoubleBuffer E eos stoi U data_dims region_dims offset_data
        ("mass fraction " ++ digits) depth_id buffer
      = Except.ok (packRegion E data_dims region_dims offset_data (fun idx =>
          U.partial_density s idx / eos.getTotalDensity
            ((List.range E.d_num_species).map (fun si => U.partial_density si idx))) buffer,
          true) := by
  obtain ⟨h1, h2, h3, h4, h5, h6⟩ := massFractionName digits
  unfold packDerivedDataIntoDoubleBuffer
  simp only
  rw [if_neg h1, if_neg h2, if_neg h3, if_neg h4, if_pos h5, hfm]
  simp only [h6, hstoi]
  have hrange : (0 : Int) ≤ (s : Int) ∧ (s : Int) < (E.d_num_species : Int) :=
    ⟨Int.natCast_nonneg s, by exact_mod_cast hs⟩
  rw [if_pos hrange]
  rfl

/-- The index `idx_region` of a cell of the region is its position in the buffer. -/
theorem idx_region_eq_boxPosition (E : Euler) (region_dims : Nat → Nat) (i j k : Nat)
    (hc : regionCell E region_dims i j k) :
    idx_region E region_dims i j k = boxPosition region_dims i j k := by
  unfold idx_region boxPosition
  rcases hc with ⟨hd, _, hj, hk⟩ | ⟨hd, _, _, hk⟩ | ⟨hd, _, _, _⟩
  · subst hj hk
    simp [hd]
  · subst hk
    simp [hd]
    ring
  · simp [hd]
    ring

/-- When `offset_data` is the position in the data of the lower corner of the region, which
lies `(o0, o1, o2)` cells from the lower corner of the data box, the index `idx_data` of the
cell `(i, j, k)` of the region is the position in the data of the cell that lies
`(o0 + i, o1 + j, o2 + k)` cells from the lower corner of the data box. -/
theorem idx_data_eq_boxPosition (E : Euler) (data_dims region_dims : Nat → Nat)
    (o0 o1 o2 i j k : Nat) (hc : regionCell E region_dims i j k) :
    idx_data E data_dims (boxPosition data_dims o0 o1 o2) i j k
      = boxPosition data_dims (o0 + i) (o1 + j) (o2 + k) := by
  unfold idx_data boxPosition
  rcases hc with ⟨hd, _, hj, hk⟩ | ⟨hd, _, _, hk⟩ | ⟨hd, _, _, _⟩
  · subst hj hk
    simp [hd]
    ring
  · subst hk
    simp [hd]
    ring
  · simp [hd]
    ring

/-- Claim C21: for `FIVE_EQN_ALLAIRE`, let the region start `(o0, o1, o2)` cells from the
lower corner of the data box, so that `data_box.offset(region.lower())` is the position of
that cell in the data. For every cell `(i, j, k)` of the region, when `getTotalDensity`
returns the sum of the partial densities and that sum is not zero in the cell, the calls
for the names `"mass fraction " ++ intToString s` of the species `s < N` all return with
`data_on_patch = true`; the entry of the buffer at the position of the cell `(i, j, k)` in
the region is `Z_rho[s]/rho` of the data cell `(o0 + i, o1 + j, o2 + k)`, and the `N`
values written for the cell sum to one. The names are the ones registered for the plot
quantities; `stoi` reads the number written by `intToString`. -/
theorem packDerivedDataIntoDoubleBuffer_mass_fraction (E : Euler)
    (eos : DerivedEquationOfState) (stoi : String → Option Int) (intToString : Nat → String)
    (U : CellFields) (data_dims region_dims : Nat → Nat) (o0 o1 o2 depth_id : Nat)
    (buffers : Nat → Nat → ℚ) (i j k : Nat) (hfm : E.d_flow_model = FIVE_EQN_ALLAIRE)
    (hstoi : ∀ s, s < E.d_num_species → stoi (intToString s) = some (s : Int))
    (hrho : ∀ l, eos.getTotalDensity l = l.sum)
    (hc : regionCell E region_dims i j k)
    (hne : (∑ t ∈ Finset.range E.d_num_species,
      U.partial_density t (boxPosition data_dims (o0 + i) (o1 + j) (o2 + k))) ≠ 0) :
    ∃ packed : Nat → Nat → ℚ,
      (∀ s, s < E.d_num_species →
        packDerivedDataIntoDoubleBuffer E eos stoi U data_dims region_dims
          (boxPosition data_dims o0 o1 o2) ("mass fraction " ++ intToString s) depth_id
          (buffers s) = Except.ok (packed s, true)) ∧
      (∀ s, s < E.d_num_species →
        packed s (boxPosition region_dims i j k)
          = U.partial_density s (boxPosition data_dims (o0 + i) (o1 + j) (o2 + k))
            / ∑ t ∈ Finset.range E.d_num_species,
                U.partial_density t (boxPosition data_dims (o0 + i) (o1 + j) (o2 + k))) ∧
      (∑ s ∈ Finset.range E.d_num_species, packed s (boxPosition region_dims i j k)) = 1 := by
  have hval : ∀ s, s < E.d_num_species →
      packRegion E data_dims region_dims (boxPosition data_dims o0 o1 o2) (fun idx =>
          U.partial_density s idx / eos.getTotalDensity
            ((List.range E.d_num_species).map (fun si => U.partial_density si idx)))
          (buffers s) (boxPosition region_dims i j k)
        = U.partial_density s (boxPosition data_dims (o0 + i) (o1 + j) (o2 + k))
          / ∑ t ∈ Finset.range E.d_num_species,
              U.partial_density t (boxPosition data_dims (o0 + i) (o1 + j) (o2 + k)) := by
    intro s _
    rw [← idx_region_eq_boxPosition E region_dims i j k hc,
      packRegion_apply E data_dims region_dims _ _ (buffers s) i j k hc, hrho,
      sum_map_range, idx_data_eq_boxPosition E data_dims region_dims o0 o1 o2 i j k hc]
  refine ⟨fun s => packRegion E data_dims region_dims (boxPosition data_dims o0 o1 o2)
      (fun idx => U.partial_density s idx / eos.getTotalDensity
        ((List.range E.d_num_species).map (fun si => U.partial_density si idx)))
      (buffers s), fun s hs => ?_, hval, ?_⟩
  · exact packMassFraction_eq E eos stoi U data_dims
      region_dims _ depth_id (buffers s) (intToString s) s hfm hs (hstoi s hs)
  · rw [Finset.sum_congr rfl (fun s hs => hval s (Finset.mem_range.mp hs)), ← Finset.sum_div]
    exact div_self hne

/-- Witness for claim C21: 2D with two species, the cell `(1, 1)` of a region of `2 x 2` cells
that starts at the cell `(1, 1)` of data of `4 x 4` cells, starting from zero buffers. Both
calls return; the entry `3` of each buffer holds the mass fraction of the data cell `(2, 2)`,
of index `10`, and the two values sum to one. -/
theorem packDerivedDataIntoDoubleBuffer_mass_fraction_witness :
    ∃ packed : Nat → Nat → ℚ,
      (∀ s, s < 2 →
        packDerivedDataIntoDoubleBuffer exEuler2DFive exDerivedEos exStoi exPartialFields
          (fun _ => 4) (fun _ => 2) 5 ("mass fraction " ++ exIntToString s) 0 (fun _ => 0)
          = Except.ok (packed s, true)) ∧
      (∀ s, s < 2 →
        packed s 3 = exPartialFields.partial_density s 10
            / ∑ t ∈ Finset.range 2, exPartialFields.partial_density t 10) ∧
      (∑ s ∈ Finset.range 2, packed s 3) = 1 :=
  packDerivedDataIntoDoubleBuffer_mass_fraction exEuler2DFive exDerivedEos exStoi
    exIntToString exPartialFields (fun _ => 4) (fun _ => 2) 1 1 0 0 (fun _ _ => 0) 1 1 0 rfl
    (by
      intro s hs
      have h01 : s = 0 ∨ s = 1 := by
        have : exEuler2DFive.d_num_species = 2 := rfl
        omega
      rcases h01 with h | h <;> subst h <;> rfl)
    (fun _ => rfl) (by decide)
    (by norm_num [exPartialFields, exEuler2DFive, boxPosition, Finset.sum_range_succ])

end HAMeRS
